import Mathlib

/-!
# Graphics device layer (`opengl_device.cpp`)

A shallow embedding of the OpenGL backend of the graphics device layer,
together with theorems about vertex declarations, buffers, textures and
render targets.

Conventions of the embedding.

* The build modelled is the one in which `assert` is active: a failed
  assertion stops the program, and the embedding returns a `Failure`.
* `uint32_t` values are natural numbers; arithmetic that can leave the
  32-bit range is reduced with `u32`. The sizes, offsets and stride of a vertex
  declaration are declared in a header; they are taken to be `uint32_t`, the
  type in which `NewVertexDeclaration` computes them (`GetTypeSize` returns
  `uint32_t`).
* A C pointer to a record is an `Option` (`none` is the null pointer); a C
  pointer to an array is a `List` and reading past its end is a `Failure`.
-/

namespace dmGraphics

/-! ## Failures -/

/-- The ways a call of this layer stops the program instead of returning. -/
inductive Failure where
  /-- An `assert(condition)` of the source did not hold. -/
  | assertion
  /-- The check `CHECK_GL_ERROR` found the driver error `err` and asserted. -/
  | glError (err : Nat)
  /-- The check `CHECK_GL_FRAMEBUFFER_ERROR` found the status `status`. -/
  | framebufferStatus (status : Nat)
  /-- A read through a null pointer or past the end of an array. -/
  | invalidAccess
  /-- A computation on `int` left the range of `int`, which the language leaves
  undefined. -/
  | overflow
  deriving DecidableEq, Repr

/-- Reduction of a natural number to the range of `uint32_t`. -/
def u32 (n : Nat) : Nat := n % 2 ^ 32

/-! ## Vertex declarations -/

/-- The enumeration `Type` of scalar types. `other` stands for a value of the
enumeration type that is none of the seven named constants. -/
inductive ScalarType where
  | TYPE_BYTE
  | TYPE_UNSIGNED_BYTE
  | TYPE_SHORT
  | TYPE_UNSIGNED_SHORT
  | TYPE_INT
  | TYPE_UNSIGNED_INT
  | TYPE_FLOAT
  | other (raw : Nat)
  deriving DecidableEq, Repr

/-- The record `VertexElement`, one attribute of a vertex as the caller
describes it. -/
structure VertexElement where
  m_Size : Nat
  m_Usage : Nat
  m_Type : ScalarType
  m_UsageIndex : Nat
  deriving DecidableEq, Repr

/-- The record `VertexDeclaration::Stream`. -/
structure Stream where
  m_Index : Nat
  m_Size : Nat
  m_Usage : Nat
  m_Type : ScalarType
  m_UsageIndex : Nat
  m_Offset : Nat
  deriving DecidableEq, Repr

/-- The record `VertexDeclaration`. The fixed array `m_Streams` is a list;
its length is the capacity `sizeof(m_Streams) / sizeof(m_Streams[0])`. -/
structure VertexDeclaration where
  m_Streams : List Stream
  m_StreamCount : Nat
  m_Stride : Nat
  deriving DecidableEq, Repr

/-- The value `GetTypeSize` leaves in `size` when it returns: the `switch`
without its `default` branch. -/
def typeSize : ScalarType → Nat
  | .TYPE_BYTE => 1
  | .TYPE_UNSIGNED_BYTE => 1
  | .TYPE_SHORT => 2
  | .TYPE_UNSIGNED_SHORT => 2
  | .TYPE_INT => 4
  | .TYPE_UNSIGNED_INT => 4
  | .TYPE_FLOAT => 4
  | .other _ => 0

/-- The function `GetTypeSize`: the byte size of a scalar type, or the failed
`assert(0)` of the `default` branch. -/
def GetTypeSize (type : ScalarType) : Except Failure Nat :=
  match type with
  | .other _ => .error .assertion
  | t => .ok (typeSize t)

/-- The scalar types `GetTypeSize` accepts. -/
def ScalarType.named : ScalarType → Bool
  | .other _ => false
  | _ => true

/-- One pass of the body of the `for` loop of `NewVertexDeclaration` for index
`i`, followed by the remaining `n` passes. On failure the declaration as
written so far is returned with the failure. -/
def NewVertexDeclaration.loop (element : List VertexElement) :
    Nat → Nat → VertexDeclaration → Except (Failure × VertexDeclaration) VertexDeclaration
  | 0, _, vd => .ok vd
  | n + 1, i, vd =>
    match element[i]? with
    | none => .error (.invalidAccess, vd)
    | some e =>
      let vd1 : VertexDeclaration :=
        { vd with
          m_Streams := vd.m_Streams.set i
            { m_Index := i
              m_Size := e.m_Size
              m_Usage := e.m_Usage
              m_Type := e.m_Type
              m_UsageIndex := e.m_UsageIndex
              m_Offset := vd.m_Stride } }
      match GetTypeSize e.m_Type with
      | .error f => .error (f, vd1)
      | .ok ts =>
        NewVertexDeclaration.loop element n (i + 1)
          { vd1 with m_Stride := u32 (vd1.m_Stride + u32 (e.m_Size * ts)) }

/-- The function `NewVertexDeclaration`. `fresh` is the record allocated by
`new VertexDeclaration`, whose contents are indeterminate; `element` is the
caller's array and `count` the number of entries to read from it. -/
def NewVertexDeclaration (fresh : VertexDeclaration) (element : List VertexElement)
    (count : Nat) : Except (Failure × VertexDeclaration) VertexDeclaration :=
  let vd : VertexDeclaration := { fresh with m_Stride := 0 }
  if count < vd.m_Streams.length then
    match NewVertexDeclaration.loop element count 0 vd with
    | .error e => .error e
    | .ok vd1 => .ok { vd1 with m_StreamCount := count }
  else
    .error (.assertion, vd)

/-- The byte size of one element: component count times scalar size. -/
def elementBytes (e : VertexElement) : Nat := e.m_Size * typeSize e.m_Type

/-- The exact sum of the byte sizes of the first `i` elements. -/
def bytesBefore (element : List VertexElement) (i : Nat) : Nat :=
  ((element.take i).map elementBytes).sum

/-- An all-zero stream, used to build example records. -/
def Stream.zero : Stream :=
  { m_Index := 0, m_Size := 0, m_Usage := 0, m_Type := .TYPE_BYTE, m_UsageIndex := 0, m_Offset := 0 }

/-- A declaration record with room for `n` streams. -/
def VertexDeclaration.blank (n : Nat) : VertexDeclaration :=
  { m_Streams := List.replicate n Stream.zero, m_StreamCount := 0, m_Stride := 0 }

/-- The three streams of the example layout: position, normal, texture
coordinate. -/
def exampleElements : List VertexElement :=
  [ { m_Size := 3, m_Usage := 0, m_Type := .TYPE_FLOAT, m_UsageIndex := 0 },
    { m_Size := 3, m_Usage := 1, m_Type := .TYPE_FLOAT, m_UsageIndex := 0 },
    { m_Size := 2, m_Usage := 2, m_Type := .TYPE_FLOAT, m_UsageIndex := 0 } ]

/-- A stream list whose byte sizes add up to exactly `2 ^ 32`: one stream of
`2 ^ 30` floats followed by one of a single float. -/
def wideElements : List VertexElement :=
  [ { m_Size := 2 ^ 30, m_Usage := 0, m_Type := .TYPE_FLOAT, m_UsageIndex := 0 },
    { m_Size := 1, m_Usage := 1, m_Type := .TYPE_FLOAT, m_UsageIndex := 0 } ]

/-! ## The driver

The OpenGL driver is outside this layer. It is modelled as a state `World`
that every driver call transforms, following the OpenGL specification for the
part of the state the theorems below refer to (buffer bindings and stores,
texture bindings, framebuffer objects, the error flag). Constants carry the
values of the OpenGL headers. -/

def GL_NONE : Nat := 0
def GL_FALSE : Nat := 0
def GL_INVALID_ENUM : Nat := 0x0500
def GL_INVALID_VALUE : Nat := 0x0501
def GL_INVALID_OPERATION : Nat := 0x0502
def GL_TEXTURE_2D : Nat := 0x0DE1
def GL_UNSIGNED_BYTE : Nat := 0x1401
def GL_FLOAT : Nat := 0x1406
def GL_DEPTH_COMPONENT : Nat := 0x1902
def GL_RGB : Nat := 0x1907
def GL_RGBA : Nat := 0x1908
def GL_LUMINANCE : Nat := 0x1909
def GL_TEXTURE_MAG_FILTER : Nat := 0x2800
def GL_TEXTURE_MIN_FILTER : Nat := 0x2801
def GL_TEXTURE_WRAP_S : Nat := 0x2802
def GL_TEXTURE_WRAP_T : Nat := 0x2803
def GL_GENERATE_MIPMAP : Nat := 0x8191
def GL_COMPRESSED_RGB_S3TC_DXT1_EXT : Nat := 0x83F0
def GL_COMPRESSED_RGBA_S3TC_DXT1_EXT : Nat := 0x83F1
def GL_COMPRESSED_RGBA_S3TC_DXT3_EXT : Nat := 0x83F2
def GL_COMPRESSED_RGBA_S3TC_DXT5_EXT : Nat := 0x83F3
def GL_ARRAY_BUFFER_ARB : Nat := 0x8892
def GL_ELEMENT_ARRAY_BUFFER_ARB : Nat := 0x8893
def GL_READ_ONLY : Nat := 0x88B8
def GL_WRITE_ONLY : Nat := 0x88B9
def GL_READ_WRITE : Nat := 0x88BA
def GL_STATIC_DRAW : Nat := 0x88E4
def GL_FRAMEBUFFER_EXT : Nat := 0x8D40
def GL_COLOR_ATTACHMENT0_EXT : Nat := 0x8CE0
def GL_DEPTH_ATTACHMENT_EXT : Nat := 0x8D00
def GL_STENCIL_ATTACHMENT_EXT : Nat := 0x8D20
def GL_FRAMEBUFFER_UNDEFINED : Nat := 0x8219
def GL_FRAMEBUFFER_COMPLETE_EXT : Nat := 0x8CD5
def GL_FRAMEBUFFER_INCOMPLETE_ATTACHMENT_EXT : Nat := 0x8CD6
def GL_FRAMEBUFFER_INCOMPLETE_MISSING_ATTACHMENT_EXT : Nat := 0x8CD7
def GL_FRAMEBUFFER_INCOMPLETE_DRAW_BUFFER_EXT : Nat := 0x8CDB
def GL_FRAMEBUFFER_INCOMPLETE_READ_BUFFER_EXT : Nat := 0x8CDC
def GL_FRAMEBUFFER_UNSUPPORTED_EXT : Nat := 0x8CDD
def GL_FRAMEBUFFER_INCOMPLETE_MULTISAMPLE_EXT : Nat := 0x8D56
def GL_FRAMEBUFFER_INCOMPLETE_LAYER_TARGETS_EXT : Nat := 0x8DA8

/-- The usage hints `glBufferDataARB` accepts: stream, static and dynamic, each
as draw, read and copy. -/
def bufferUsages : List Nat :=
  [0x88E0, 0x88E1, 0x88E2, 0x88E4, 0x88E5, 0x88E6, 0x88E8, 0x88E9, 0x88EA]

/-- The access modes `glMapBufferARB` accepts. -/
def bufferAccesses : List Nat := [GL_READ_ONLY, GL_WRITE_ONLY, GL_READ_WRITE]

/-- A value of type `float`, recorded by its bit pattern; this layer only
passes such values on. -/
structure Float32 where
  bits : Nat
  deriving DecidableEq, Repr

/-- A call that reaches the driver or the window library, with its arguments. A
pointer to bytes is recorded as the bytes it points to (`none` for the null
pointer). -/
inductive GLCall where
  | glGenBuffersARB
  | glBindBufferARB (target buffer : Nat)
  | glBufferDataARB (target size : Nat) (data : Option (List Nat)) (usage : Nat)
  | glBufferSubDataARB (target offset size : Nat) (data : Option (List Nat))
  | glMapBufferARB (target access : Nat)
  | glUnmapBufferARB (target : Nat)
  | glGenTextures
  | glBindTexture (target texture : Nat)
  | glTexParameteri (target pname param : Nat)
  | glTexImage2D (target level internalformat width height border format type : Nat)
      (pixels : Option (List Nat))
  | glCompressedTexImage2D (target level internalformat width height border imageSize : Nat)
      (data : Option (List Nat))
  | glDeleteTextures (texture : Nat)
  | glEnable (cap : Nat)
  | glActiveTexture (texture : Nat)
  | glGenFramebuffers
  | glBindFramebuffer (target framebuffer : Nat)
  | glFramebufferTexture2D (target attachment textarget texture level : Nat)
  | glDrawBuffer (mode : Nat)
  | glDeleteFramebuffers (framebuffer : Nat)
  | glEnableVertexAttribArray (index : Nat)
  | glDisableVertexAttribArray (index : Nat)
  | glVertexAttribPointer (index size : Nat) (type : ScalarType) (normalized : Bool)
      (stride pointer : Nat)
  | glDrawRangeElements (mode start stop count : Nat) (type : ScalarType) (indices : Nat)
  | glBindProgramARB (target program : Nat)
  | glProgramLocalParameter4fARB (target index : Nat) (x y z w : Float32)
  | glGetString (name : Nat)
  | glfwInit
  | glfwOpenWindow (width height redbits greenbits bluebits alphabits depthbits stencilbits
      mode : Nat)
  | glfwTerminate
  | glfwSetWindowTitle (title : String)
  | glfwSwapInterval (interval : Nat)
  deriving DecidableEq, Repr

/-- A line written by `dmLogError`. -/
inductive LogLine where
  /-- The line of `CHECK_GL_ERROR`: the error number. -/
  | glError (err : Nat)
  /-- The line of `CHECK_GL_FRAMEBUFFER_ERROR`: the number and name of the
  completeness category. -/
  | framebufferError (code : Nat) (name : String)
  deriving DecidableEq, Repr

/-- The data store of a buffer object: its bytes, and whether it is mapped. -/
structure BufferObject where
  bytes : List Nat
  mapped : Bool
  deriving DecidableEq, Repr

/-- The state of a framebuffer object: the texture attached at each attachment
point (0 for none) and the draw buffer. -/
structure FramebufferObject where
  attachment : Nat → Nat
  drawBuffer : Nat

/-- What `glVertexAttribPointer` records for an attribute slot: the layout of
the attribute and the buffer that was bound to the array-buffer binding. -/
structure AttribPointer where
  size : Nat
  type : ScalarType
  normalized : Bool
  stride : Nat
  pointer : Nat
  buffer : Nat
  deriving DecidableEq, Repr

/-- The record `Device`: the dimensions of the display surface. -/
structure Device where
  m_DisplayWidth : Nat
  m_DisplayHeight : Nat
  deriving DecidableEq, Repr

/-- The state of the driver, and what the layer has logged.

* `error` is the driver's error flag, `oracle k` the error (0 for none) that the
  driver raises on its own account at the `k`-th call, for reasons outside the
  model (resource exhaustion, an argument the model does not inspect).
* `log` lists the calls made so far, oldest first.
* `junk` gives the bytes of memory whose contents are indeterminate.
* `completeness` is the driver's rule for the status of a framebuffer object,
  from its state and the width and height of every texture.
* `enabled` are the capabilities switched by `glEnable`, `programBinding` the
  program bound to each program target, and `localParameter target program i`
  the local parameter `i` of a program.
* `attribEnabled` and `attribPointer` are the state of the vertex attribute
  slots.
* `gdevice` is the global `gdevice` of the layer.
* `glfwWorks` and `windowSystem width height` say whether the window library
  can be initialised and whether it can open a window of that size;
  `glfwInitialized` and `windowOpened` are its state. -/
structure World where
  error : Nat
  oracle : Nat → Nat
  log : List GLCall
  messages : List LogLine
  junk : Nat → Nat
  nextName : Nat
  arrayBuffer : Nat
  elementArrayBuffer : Nat
  buffers : Nat → BufferObject
  activeTexture : Nat
  textureBinding : Nat → Nat
  liveTextures : List Nat
  textureDims : Nat → Nat × Nat
  framebufferBinding : Nat
  framebuffers : Nat → FramebufferObject
  liveFramebuffers : List Nat
  completeness : FramebufferObject → (Nat → Nat × Nat) → Nat
  enabled : Nat → Bool
  programBinding : Nat → Nat
  localParameter : Nat → Nat → Nat → Option (Float32 × Float32 × Float32 × Float32)
  attribEnabled : Nat → Bool
  attribPointer : Nat → Option AttribPointer
  gdevice : Device
  glfwWorks : Bool
  windowSystem : Nat → Nat → Bool
  glfwInitialized : Bool
  windowOpened : Bool

/-- The result of a call of this layer: a value, or a failure together with the
state in which the program stopped. -/
abbrev Run (α : Type) : Type := Except (Failure × World) α

/-- Records an error in the error flag; the flag keeps the first error until it
is read. -/
def World.raise (e : Nat) (w : World) : World :=
  { w with error := if w.error = 0 then e else w.error }

/-- A driver call: the call is logged; if the driver raises an error of its own
the call has no other effect, otherwise `effect` takes place. -/
def World.driver (c : GLCall) (effect : World → World) (w : World) : World :=
  if w.oracle w.log.length = 0 then effect { w with log := w.log ++ [c] }
  else World.raise (w.oracle w.log.length) { w with log := w.log ++ [c] }

/-- The buffer bound to a buffer target (0 for an unknown target). -/
def World.boundBuffer (w : World) (target : Nat) : Nat :=
  if target = GL_ARRAY_BUFFER_ARB then w.arrayBuffer
  else if target = GL_ELEMENT_ARRAY_BUFFER_ARB then w.elementArrayBuffer
  else 0

/-- The bytes the driver reads through a data pointer when asked for `size`
bytes: the caller's bytes where there are any, indeterminate bytes elsewhere
(in particular for the null pointer). -/
def readBytes (junk : Nat → Nat) (data : Option (List Nat)) (size : Nat) : List Nat :=
  (List.range size).map fun i =>
    match data with
    | some d => d.getD i (junk i)
    | none => junk i

/-- Names a new object: the name counter advances and the new name, never 0, is
written to the out parameter; on a driver error the out parameter keeps its
value `out`. -/
def World.genName (c : GLCall) (out : Nat) (w : World) : Nat × World :=
  if w.oracle w.log.length = 0 then
    (w.nextName + 1, { w with log := w.log ++ [c], nextName := w.nextName + 1 })
  else (out, World.raise (w.oracle w.log.length) { w with log := w.log ++ [c] })

/-- The driver call `glGenBuffersARB(1, &buffer)`. -/
def glGenBuffersARB (out : Nat) (w : World) : Nat × World :=
  w.genName .glGenBuffersARB out

/-- The driver call `glBindBufferARB`. -/
def glBindBufferARB (target buffer : Nat) (w : World) : World :=
  w.driver (.glBindBufferARB target buffer) fun w =>
    if target = GL_ARRAY_BUFFER_ARB then { w with arrayBuffer := buffer }
    else if target = GL_ELEMENT_ARRAY_BUFFER_ARB then { w with elementArrayBuffer := buffer }
    else w.raise GL_INVALID_ENUM

/-- The driver call `glBufferDataARB`: a new data store of `size` bytes for the
buffer bound to `target`, any previous store (and mapping) discarded. -/
def glBufferDataARB (target size : Nat) (data : Option (List Nat)) (usage : Nat)
    (w : World) : World :=
  w.driver (.glBufferDataARB target size data usage) fun w =>
    if usage ∉ bufferUsages then w.raise GL_INVALID_ENUM
    else if w.boundBuffer target = 0 then w.raise GL_INVALID_OPERATION
    else
      { w with buffers := fun b =>
          if b = w.boundBuffer target then
            { bytes := readBytes w.junk data size, mapped := false }
          else w.buffers b }

/-- The driver call `glBufferSubDataARB`: overwrites `size` bytes from `offset`
on in the store of the buffer bound to `target`; a range that leaves the store
is an error and changes nothing. -/
def glBufferSubDataARB (target offset size : Nat) (data : Option (List Nat))
    (w : World) : World :=
  w.driver (.glBufferSubDataARB target offset size data) fun w =>
    if w.boundBuffer target = 0 then w.raise GL_INVALID_OPERATION
    else if (w.buffers (w.boundBuffer target)).mapped then w.raise GL_INVALID_OPERATION
    else if (w.buffers (w.boundBuffer target)).bytes.length < offset + size then
      w.raise GL_INVALID_VALUE
    else
      { w with buffers := fun b =>
          if b = w.boundBuffer target then
            { w.buffers b with
              bytes := (w.buffers b).bytes.take offset ++ readBytes w.junk data size
                ++ (w.buffers b).bytes.drop (offset + size) }
          else w.buffers b }

/-- The driver call `glMapBufferARB`: maps the store of the buffer bound to
`target` and returns a pointer to its bytes, or the null pointer on error. -/
def glMapBufferARB (target access : Nat) (w : World) : Option (List Nat) × World :=
  if w.oracle w.log.length = 0 then
    let w1 : World := { w with log := w.log ++ [.glMapBufferARB target access] }
    if access ∉ bufferAccesses then (none, w1.raise GL_INVALID_ENUM)
    else if w1.boundBuffer target = 0 then (none, w1.raise GL_INVALID_OPERATION)
    else if (w1.buffers (w1.boundBuffer target)).mapped then
      (none, w1.raise GL_INVALID_OPERATION)
    else
      (some (w1.buffers (w1.boundBuffer target)).bytes,
        { w1 with buffers := fun b =>
            if b = w1.boundBuffer target then { w1.buffers b with mapped := true }
            else w1.buffers b })
  else
    (none, World.raise (w.oracle w.log.length)
      { w with log := w.log ++ [.glMapBufferARB target access] })

/-- The driver call `glUnmapBufferARB`: ends the mapping of the buffer bound to
`target`; the result is `GL_TRUE` exactly when a mapping was ended. -/
def glUnmapBufferARB (target : Nat) (w : World) : Bool × World :=
  if w.oracle w.log.length = 0 then
    let w1 : World := { w with log := w.log ++ [.glUnmapBufferARB target] }
    if w1.boundBuffer target = 0 then (false, w1.raise GL_INVALID_OPERATION)
    else if (w1.buffers (w1.boundBuffer target)).mapped then
      (true, { w1 with buffers := fun b =>
          if b = w1.boundBuffer target then { w1.buffers b with mapped := false }
          else w1.buffers b })
    else (false, w1.raise GL_INVALID_OPERATION)
  else
    (false, World.raise (w.oracle w.log.length)
      { w with log := w.log ++ [.glUnmapBufferARB target] })

/-- The macro `CHECK_GL_ERROR`: reads the error flag with `glGetError`, which
clears it; an error is logged and stops the program on `assert(0)`. -/
def CHECK_GL_ERROR (w : World) : Run World :=
  if w.error = 0 then .ok w
  else .error (.glError w.error,
    { w with error := 0, messages := w.messages ++ [.glError w.error] })

/-! ## Buffer manager -/

/-- The function `SetVertexBufferData`. -/
def SetVertexBufferData (buffer size : Nat) (data : Option (List Nat)) (buffer_usage : Nat)
    (w : World) : Run World := do
  let w ← CHECK_GL_ERROR (glBindBufferARB GL_ARRAY_BUFFER_ARB buffer w)
  let w ← CHECK_GL_ERROR (glBufferDataARB GL_ARRAY_BUFFER_ARB size data buffer_usage w)
  CHECK_GL_ERROR (glBindBufferARB GL_ARRAY_BUFFER_ARB 0 w)

/-- The function `NewVertexBuffer`. -/
def NewVertexBuffer (size : Nat) (data : Option (List Nat)) (buffer_usage : Nat)
    (w : World) : Run (Nat × World) := do
  let (buffer, w) := glGenBuffersARB 0 w
  let w ← CHECK_GL_ERROR w
  let w ← SetVertexBufferData buffer size data buffer_usage w
  pure (buffer, w)

/-- The function `SetVertexBufferSubData`. -/
def SetVertexBufferSubData (buffer offset size : Nat) (data : Option (List Nat))
    (w : World) : Run World := do
  let w ← CHECK_GL_ERROR (glBindBufferARB GL_ARRAY_BUFFER_ARB buffer w)
  let w ← CHECK_GL_ERROR (glBufferSubDataARB GL_ARRAY_BUFFER_ARB offset size data w)
  CHECK_GL_ERROR (glBindBufferARB GL_ARRAY_BUFFER_ARB 0 w)

/-- The function `MapVertexBuffer`; the result is the mapped bytes. -/
def MapVertexBuffer (buffer access : Nat) (w : World) : Run (Option (List Nat) × World) := do
  let w ← CHECK_GL_ERROR (glBindBufferARB GL_ARRAY_BUFFER_ARB buffer w)
  let (result, w) := glMapBufferARB GL_ARRAY_BUFFER_ARB access w
  let w ← CHECK_GL_ERROR w
  let w ← CHECK_GL_ERROR (glBindBufferARB GL_ARRAY_BUFFER_ARB 0 w)
  pure (result, w)

/-- The function `UnmapVertexBuffer`. -/
def UnmapVertexBuffer (buffer : Nat) (w : World) : Run (Bool × World) := do
  let w ← CHECK_GL_ERROR (glBindBufferARB GL_ARRAY_BUFFER_ARB buffer w)
  let (result, w) := glUnmapBufferARB GL_ARRAY_BUFFER_ARB w
  let w ← CHECK_GL_ERROR w
  let w ← CHECK_GL_ERROR (glBindBufferARB GL_ARRAY_BUFFER_ARB 0 w)
  pure (result, w)

/-- The function `SetIndexBufferData`. -/
def SetIndexBufferData (buffer size : Nat) (data : Option (List Nat)) (buffer_usage : Nat)
    (w : World) : Run World := do
  let w ← CHECK_GL_ERROR (glBindBufferARB GL_ELEMENT_ARRAY_BUFFER_ARB buffer w)
  let w ← CHECK_GL_ERROR (glBufferDataARB GL_ELEMENT_ARRAY_BUFFER_ARB size data buffer_usage w)
  CHECK_GL_ERROR (glBindBufferARB GL_ELEMENT_ARRAY_BUFFER_ARB 0 w)

/-- The function `NewIndexBuffer`. -/
def NewIndexBuffer (size : Nat) (data : Option (List Nat)) (buffer_usage : Nat)
    (w : World) : Run (Nat × World) := do
  let (buffer, w) := glGenBuffersARB 0 w
  let w ← CHECK_GL_ERROR w
  let w ← SetIndexBufferData buffer size data buffer_usage w
  pure (buffer, w)

/-- The function `SetIndexBufferSubData`. -/
def SetIndexBufferSubData (buffer offset size : Nat) (data : Option (List Nat))
    (w : World) : Run World := do
  let w ← CHECK_GL_ERROR (glBindBufferARB GL_ELEMENT_ARRAY_BUFFER_ARB buffer w)
  let w ← CHECK_GL_ERROR (glBufferSubDataARB GL_ELEMENT_ARRAY_BUFFER_ARB offset size data w)
  CHECK_GL_ERROR (glBindBufferARB GL_ELEMENT_ARRAY_BUFFER_ARB 0 w)

/-- The function `MapIndexBuffer`; the result is the mapped bytes. -/
def MapIndexBuffer (buffer access : Nat) (w : World) : Run (Option (List Nat) × World) := do
  let w ← CHECK_GL_ERROR (glBindBufferARB GL_ELEMENT_ARRAY_BUFFER_ARB buffer w)
  let (result, w) := glMapBufferARB GL_ELEMENT_ARRAY_BUFFER_ARB access w
  let w ← CHECK_GL_ERROR w
  let w ← CHECK_GL_ERROR (glBindBufferARB GL_ELEMENT_ARRAY_BUFFER_ARB 0 w)
  pure (result, w)

/-- The function `UnmapIndexBuffer`. -/
def UnmapIndexBuffer (buffer : Nat) (w : World) : Run (Bool × World) := do
  let w ← CHECK_GL_ERROR (glBindBufferARB GL_ELEMENT_ARRAY_BUFFER_ARB buffer w)
  let (result, w) := glUnmapBufferARB GL_ELEMENT_ARRAY_BUFFER_ARB w
  let w ← CHECK_GL_ERROR w
  let w ← CHECK_GL_ERROR (glBindBufferARB GL_ELEMENT_ARRAY_BUFFER_ARB 0 w)
  pure (result, w)

/-- A state of the driver right after start-up: nothing bound, no object, no
error, a driver that raises no error of its own, and a completeness rule that
accepts every framebuffer object. -/
def World.initial : World :=
  { error := 0
    oracle := fun _ => 0
    log := []
    messages := []
    junk := fun _ => 0
    nextName := 0
    arrayBuffer := 0
    elementArrayBuffer := 0
    buffers := fun _ => { bytes := [], mapped := false }
    activeTexture := 0
    textureBinding := fun _ => 0
    liveTextures := []
    textureDims := fun _ => (0, 0)
    framebufferBinding := 0
    framebuffers := fun _ => { attachment := fun _ => 0, drawBuffer := GL_COLOR_ATTACHMENT0_EXT }
    liveFramebuffers := []
    completeness := fun _ _ => GL_FRAMEBUFFER_COMPLETE_EXT
    enabled := fun _ => false
    programBinding := fun _ => 0
    localParameter := fun _ _ _ => none
    attribEnabled := fun _ => false
    attribPointer := fun _ => none
    gdevice := { m_DisplayWidth := 0, m_DisplayHeight := 0 }
    glfwWorks := true
    windowSystem := fun _ _ => true
    glfwInitialized := false
    windowOpened := false }

/-- A state with two buffer objects, 1 (eight bytes, not mapped) and 2 (four
bytes, mapped), and with both buffer bindings left on other names. -/
def World.sample : World :=
  { World.initial with
    nextName := 2
    arrayBuffer := 5
    elementArrayBuffer := 7
    buffers := fun b =>
      if b = 1 then { bytes := [10, 11, 12, 13, 14, 15, 16, 17], mapped := false }
      else if b = 2 then { bytes := [20, 21, 22, 23], mapped := true }
      else { bytes := [], mapped := false } }

/-! ## Textures and render targets: the driver -/

def GL_TEXTURE0 : Nat := 0x84C0
def GL_TEXTURE1 : Nat := 0x84C1
def GL_TEXTURE2 : Nat := 0x84C2
def GL_TEXTURE3 : Nat := 0x84C3
def GL_TEXTURE4 : Nat := 0x84C4
def GL_TEXTURE5 : Nat := 0x84C5
def GL_TEXTURE6 : Nat := 0x84C6
def GL_TEXTURE7 : Nat := 0x84C7
def GL_TEXTURE8 : Nat := 0x84C8
def GL_TEXTURE9 : Nat := 0x84C9
def GL_TEXTURE10 : Nat := 0x84CA
def GL_TEXTURE11 : Nat := 0x84CB
def GL_TEXTURE12 : Nat := 0x84CC
def GL_TEXTURE13 : Nat := 0x84CD
def GL_TEXTURE14 : Nat := 0x84CE
def GL_TEXTURE15 : Nat := 0x84CF
def GL_TEXTURE16 : Nat := 0x84D0
def GL_TEXTURE17 : Nat := 0x84D1
def GL_TEXTURE18 : Nat := 0x84D2
def GL_TEXTURE19 : Nat := 0x84D3
def GL_TEXTURE20 : Nat := 0x84D4
def GL_TEXTURE21 : Nat := 0x84D5
def GL_TEXTURE22 : Nat := 0x84D6
def GL_TEXTURE23 : Nat := 0x84D7
def GL_TEXTURE24 : Nat := 0x84D8
def GL_TEXTURE25 : Nat := 0x84D9
def GL_TEXTURE26 : Nat := 0x84DA
def GL_TEXTURE27 : Nat := 0x84DB
def GL_TEXTURE28 : Nat := 0x84DC
def GL_TEXTURE29 : Nat := 0x84DD
def GL_TEXTURE30 : Nat := 0x84DE
def GL_TEXTURE31 : Nat := 0x84DF

/-- The driver call `glGenTextures(1, &t)`: a new texture name, never 0. On a
driver error the out parameter keeps its value `out`. -/
def glGenTextures (out : Nat) (w : World) : Nat × World :=
  if w.oracle w.log.length = 0 then
    (w.nextName + 1,
      { w with
        log := w.log ++ [.glGenTextures]
        nextName := w.nextName + 1
        liveTextures := (w.nextName + 1) :: w.liveTextures })
  else (out, World.raise (w.oracle w.log.length) { w with log := w.log ++ [.glGenTextures] })

/-- The driver call `glBindTexture`: binds a texture to the 2D target of the
active texture unit. -/
def glBindTexture (target texture : Nat) (w : World) : World :=
  w.driver (.glBindTexture target texture) fun w =>
    if target = GL_TEXTURE_2D then
      { w with textureBinding := fun u => if u = w.activeTexture then texture
                                          else w.textureBinding u }
    else w.raise GL_INVALID_ENUM

/-- The driver call `glTexParameteri`; the sampling state of a texture is not
part of the model. -/
def glTexParameteri (target pname param : Nat) (w : World) : World :=
  w.driver (.glTexParameteri target pname param) fun w => w

/-- Records the width and height of the level-0 image of the texture bound to
the active unit. -/
def World.setImage (level width height : Nat) (w : World) : World :=
  if level = 0 then
    { w with textureDims := fun t =>
        if t = w.textureBinding w.activeTexture then (width, height) else w.textureDims t }
  else w

/-- The driver call `glTexImage2D`. -/
def glTexImage2D (target level internalformat width height border format type : Nat)
    (pixels : Option (List Nat)) (w : World) : World :=
  w.driver (.glTexImage2D target level internalformat width height border format type pixels)
    fun w => if target = GL_TEXTURE_2D then w.setImage level width height
             else w.raise GL_INVALID_ENUM

/-- The driver call `glCompressedTexImage2D`. -/
def glCompressedTexImage2D (target level internalformat width height border imageSize : Nat)
    (data : Option (List Nat)) (w : World) : World :=
  w.driver (.glCompressedTexImage2D target level internalformat width height border imageSize data)
    fun w => if target = GL_TEXTURE_2D then w.setImage level width height
             else w.raise GL_INVALID_ENUM

/-- The driver call `glDeleteTextures(1, &texture)`: the name stops being live
and a unit it was bound to reverts to 0; a name that is not live is ignored. -/
def glDeleteTextures (texture : Nat) (w : World) : World :=
  w.driver (.glDeleteTextures texture) fun w =>
    { w with
      liveTextures := w.liveTextures.filter fun t => t ≠ texture
      textureBinding := fun u =>
        if w.textureBinding u = texture then 0 else w.textureBinding u }

/-- The driver call `glEnable`: switches a capability on. -/
def glEnable (cap : Nat) (w : World) : World :=
  w.driver (.glEnable cap) fun w =>
    { w with enabled := fun c => if c = cap then true else w.enabled c }

/-- The driver call `glActiveTexture`: selects the texture unit named
`GL_TEXTURE0 + i`, for `i` below 32. -/
def glActiveTexture (texture : Nat) (w : World) : World :=
  w.driver (.glActiveTexture texture) fun w =>
    if GL_TEXTURE0 ≤ texture ∧ texture < GL_TEXTURE0 + 32 then
      { w with activeTexture := texture - GL_TEXTURE0 }
    else w.raise GL_INVALID_ENUM

/-- The driver call `glGenFramebuffers(1, &id)`: a new framebuffer name, never
0, whose object has nothing attached and draws to color attachment 0. On a
driver error the out parameter keeps its value `out`. -/
def glGenFramebuffers (out : Nat) (w : World) : Nat × World :=
  if w.oracle w.log.length = 0 then
    (w.nextName + 1,
      { w with
        log := w.log ++ [.glGenFramebuffers]
        nextName := w.nextName + 1
        liveFramebuffers := (w.nextName + 1) :: w.liveFramebuffers
        framebuffers := fun f =>
          if f = w.nextName + 1 then
            { attachment := fun _ => 0, drawBuffer := GL_COLOR_ATTACHMENT0_EXT }
          else w.framebuffers f })
  else (out, World.raise (w.oracle w.log.length) { w with log := w.log ++ [.glGenFramebuffers] })

/-- The driver call `glBindFramebuffer`; framebuffer 0 is the window. -/
def glBindFramebuffer (target framebuffer : Nat) (w : World) : World :=
  w.driver (.glBindFramebuffer target framebuffer) fun w =>
    if target = GL_FRAMEBUFFER_EXT then { w with framebufferBinding := framebuffer }
    else w.raise GL_INVALID_ENUM

/-- The driver call `glFramebufferTexture2D`: attaches a texture to an
attachment point of the bound framebuffer object. -/
def glFramebufferTexture2D (target attachment textarget texture level : Nat)
    (w : World) : World :=
  w.driver (.glFramebufferTexture2D target attachment textarget texture level) fun w =>
    if target ≠ GL_FRAMEBUFFER_EXT then w.raise GL_INVALID_ENUM
    else if w.framebufferBinding = 0 then w.raise GL_INVALID_OPERATION
    else
      { w with framebuffers := fun f =>
          if f = w.framebufferBinding then
            { w.framebuffers f with
              attachment := fun a => if a = attachment then texture
                                     else (w.framebuffers f).attachment a }
          else w.framebuffers f }

/-- The driver call `glDrawBuffer`: sets the draw buffer of the bound
framebuffer. -/
def glDrawBuffer (mode : Nat) (w : World) : World :=
  w.driver (.glDrawBuffer mode) fun w =>
    { w with framebuffers := fun f =>
        if f = w.framebufferBinding then { w.framebuffers f with drawBuffer := mode }
        else w.framebuffers f }

/-- The driver call `glDeleteFramebuffers(1, &id)`: the name stops being live;
if the object was bound, the window is bound instead. -/
def glDeleteFramebuffers (framebuffer : Nat) (w : World) : World :=
  w.driver (.glDeleteFramebuffers framebuffer) fun w =>
    { w with
      liveFramebuffers := w.liveFramebuffers.filter fun f => f ≠ framebuffer
      framebufferBinding := if w.framebufferBinding = framebuffer then 0
                            else w.framebufferBinding }

/-- The driver query `glCheckFramebufferStatus`: the window is complete, a
framebuffer object has the status the driver's completeness rule gives it. -/
def glCheckFramebufferStatus (target : Nat) (w : World) : Nat :=
  if target ≠ GL_FRAMEBUFFER_EXT then 0
  else if w.framebufferBinding = 0 then GL_FRAMEBUFFER_COMPLETE_EXT
  else w.completeness (w.framebuffers w.framebufferBinding) w.textureDims

/-- The line `CHECK_GL_FRAMEBUFFER_ERROR` logs for a status: the `switch` of
the macro, which has no `default` branch. -/
def framebufferErrorLine (status : Nat) : List LogLine :=
  if status = GL_FRAMEBUFFER_UNDEFINED then
    [.framebufferError GL_FRAMEBUFFER_UNDEFINED "GL_FRAMEBUFFER_UNDEFINED"]
  else if status = GL_FRAMEBUFFER_INCOMPLETE_ATTACHMENT_EXT then
    [.framebufferError GL_FRAMEBUFFER_INCOMPLETE_ATTACHMENT_EXT
      "GL_FRAMEBUFFER_INCOMPLETE_ATTACHMENT"]
  else if status = GL_FRAMEBUFFER_INCOMPLETE_MISSING_ATTACHMENT_EXT then
    [.framebufferError GL_FRAMEBUFFER_INCOMPLETE_MISSING_ATTACHMENT_EXT
      "GL_FRAMEBUFFER_INCOMPLETE_MISSING_ATTACHMENT"]
  else if status = GL_FRAMEBUFFER_INCOMPLETE_DRAW_BUFFER_EXT then
    [.framebufferError GL_FRAMEBUFFER_INCOMPLETE_DRAW_BUFFER_EXT
      "GL_FRAMEBUFFER_INCOMPLETE_DRAW_BUFFER"]
  else if status = GL_FRAMEBUFFER_INCOMPLETE_READ_BUFFER_EXT then
    [.framebufferError GL_FRAMEBUFFER_INCOMPLETE_READ_BUFFER_EXT
      "GL_FRAMEBUFFER_INCOMPLETE_READ_BUFFER"]
  else if status = GL_FRAMEBUFFER_UNSUPPORTED_EXT then
    [.framebufferError GL_FRAMEBUFFER_UNSUPPORTED_EXT "GL_FRAMEBUFFER_UNSUPPORTED"]
  else if status = GL_FRAMEBUFFER_INCOMPLETE_MULTISAMPLE_EXT then
    [.framebufferError GL_FRAMEBUFFER_INCOMPLETE_MULTISAMPLE_EXT
      "GL_FRAMEBUFFER_INCOMPLETE_MULTISAMPLE"]
  else if status = GL_FRAMEBUFFER_INCOMPLETE_LAYER_TARGETS_EXT then
    [.framebufferError GL_FRAMEBUFFER_INCOMPLETE_LAYER_TARGETS_EXT
      "GL_FRAMEBUFFER_INCOMPLETE_LAYER_TARGETS"]
  else []

/-- The macro `CHECK_GL_FRAMEBUFFER_ERROR`: queries the status of the
framebuffer that is bound at this moment; a status other than complete is
logged by category and stops the program on `assert(0)`. -/
def CHECK_GL_FRAMEBUFFER_ERROR (w : World) : Run World :=
  let status := glCheckFramebufferStatus GL_FRAMEBUFFER_EXT w
  if status ≠ GL_FRAMEBUFFER_COMPLETE_EXT then
    .error (.framebufferStatus status,
      { w with messages := w.messages ++ framebufferErrorLine status })
  else .ok w

/-! ## Texture manager -/

/-- The enumeration `TextureFormat`. `other` stands for a value of the
enumeration type that is none of the eight named constants. -/
inductive TextureFormat where
  | TEXTURE_FORMAT_LUMINANCE
  | TEXTURE_FORMAT_RGB
  | TEXTURE_FORMAT_RGBA
  | TEXTURE_FORMAT_RGB_DXT1
  | TEXTURE_FORMAT_RGBA_DXT1
  | TEXTURE_FORMAT_RGBA_DXT3
  | TEXTURE_FORMAT_RGBA_DXT5
  | TEXTURE_FORMAT_DEPTH
  | other (raw : Nat)
  deriving DecidableEq, Repr

/-- The record `TextureParams`. -/
structure TextureParams where
  m_Format : TextureFormat
  m_MinFilter : Nat
  m_MagFilter : Nat
  m_UWrap : Nat
  m_VWrap : Nat
  m_Data : Option (List Nat)
  m_DataSize : Nat
  m_MipMap : Nat
  m_Width : Nat
  m_Height : Nat
  deriving DecidableEq, Repr

/-- The record `Texture`: the driver's name of the texture. -/
structure Texture where
  m_Texture : Nat
  deriving DecidableEq, Repr

/-- The handle `HTexture`, a pointer to a `Texture`. -/
abbrev HTexture : Type := Option Texture

/-- The record `Context`; none of its fields is read by this layer. -/
structure Context where
  deriving DecidableEq, Repr

/-- The handle `HContext`, a pointer to a `Context`. -/
abbrev HContext : Type := Option Context

/-- The first `switch` of `SetTexture`: the values of `gl_format`, `gl_type`
and `internal_format`. For the compressed formats `internal_format` has no
value in the source and is never read; 0 stands for it. The branch of
`TEXTURE_FORMAT_RGBA_DXT5` contains a `CHECK_GL_ERROR`. -/
def SetTexture.formats (format : TextureFormat) (w : World) : Run (Nat × Nat × Nat × World) :=
  match format with
  | .TEXTURE_FORMAT_LUMINANCE => pure (GL_LUMINANCE, GL_UNSIGNED_BYTE, 1, w)
  | .TEXTURE_FORMAT_RGB => pure (GL_RGB, GL_UNSIGNED_BYTE, 3, w)
  | .TEXTURE_FORMAT_RGBA => pure (GL_RGBA, GL_UNSIGNED_BYTE, 4, w)
  | .TEXTURE_FORMAT_RGB_DXT1 => pure (GL_COMPRESSED_RGB_S3TC_DXT1_EXT, GL_UNSIGNED_BYTE, 0, w)
  | .TEXTURE_FORMAT_RGBA_DXT1 => pure (GL_COMPRESSED_RGBA_S3TC_DXT1_EXT, GL_UNSIGNED_BYTE, 0, w)
  | .TEXTURE_FORMAT_RGBA_DXT3 => pure (GL_COMPRESSED_RGBA_S3TC_DXT3_EXT, GL_UNSIGNED_BYTE, 0, w)
  | .TEXTURE_FORMAT_RGBA_DXT5 => do
    let w ← CHECK_GL_ERROR w
    pure (GL_COMPRESSED_RGBA_S3TC_DXT5_EXT, GL_UNSIGNED_BYTE, 0, w)
  | .TEXTURE_FORMAT_DEPTH => pure (GL_DEPTH_COMPONENT, GL_FLOAT, GL_DEPTH_COMPONENT, w)
  | .other _ => .error (.assertion, w)

/-- The second `switch` of `SetTexture`: the upload. -/
def SetTexture.upload (params : TextureParams) (gl_format gl_type internal_format : Nat)
    (w : World) : Run World :=
  match params.m_Format with
  | .TEXTURE_FORMAT_LUMINANCE | .TEXTURE_FORMAT_RGB | .TEXTURE_FORMAT_RGBA
  | .TEXTURE_FORMAT_DEPTH =>
    CHECK_GL_ERROR (glTexImage2D GL_TEXTURE_2D params.m_MipMap internal_format params.m_Width
      params.m_Height 0 gl_format gl_type params.m_Data w)
  | .TEXTURE_FORMAT_RGB_DXT1 | .TEXTURE_FORMAT_RGBA_DXT1 | .TEXTURE_FORMAT_RGBA_DXT3
  | .TEXTURE_FORMAT_RGBA_DXT5 =>
    CHECK_GL_ERROR
      (if params.m_DataSize > 0 then
        glCompressedTexImage2D GL_TEXTURE_2D params.m_MipMap gl_format params.m_Width
          params.m_Height 0 params.m_DataSize params.m_Data w
      else w)
  | .other _ => .error (.assertion, w)

/-- The function `SetTexture`. -/
def SetTexture (texture : HTexture) (params : TextureParams) (w : World) : Run World :=
  match texture with
  | none => .error (.invalidAccess, w)
  | some tex => do
    let w ← CHECK_GL_ERROR (glBindTexture GL_TEXTURE_2D tex.m_Texture w)
    let w ← CHECK_GL_ERROR (glTexParameteri GL_TEXTURE_2D GL_GENERATE_MIPMAP GL_FALSE w)
    let w ← CHECK_GL_ERROR (glTexParameteri GL_TEXTURE_2D GL_TEXTURE_MIN_FILTER params.m_MinFilter w)
    let w ← CHECK_GL_ERROR (glTexParameteri GL_TEXTURE_2D GL_TEXTURE_MAG_FILTER params.m_MagFilter w)
    let w ← CHECK_GL_ERROR (glTexParameteri GL_TEXTURE_2D GL_TEXTURE_WRAP_S params.m_UWrap w)
    let w ← CHECK_GL_ERROR (glTexParameteri GL_TEXTURE_2D GL_TEXTURE_WRAP_T params.m_VWrap w)
    let (gl_format, gl_type, internal_format, w) ← SetTexture.formats params.m_Format w
    SetTexture.upload params gl_format gl_type internal_format w

/-- The function `NewTexture`. The local `t` has no initial value in the
source; 0 stands for it. -/
def NewTexture (params : TextureParams) (w : World) : Run (HTexture × World) := do
  let (t, w) := glGenTextures 0 w
  let w ← CHECK_GL_ERROR w
  let tex : Texture := { m_Texture := t }
  let w ← SetTexture (some tex) params w
  pure (some tex, w)

/-- The function `DeleteTexture`. -/
def DeleteTexture (texture : HTexture) (w : World) : Run World :=
  match texture with
  | none => .error (.assertion, w)
  | some tex => CHECK_GL_ERROR (glDeleteTextures tex.m_Texture w)

/-- The table `TEXTURE_UNIT_NAMES`. -/
def TEXTURE_UNIT_NAMES : List Nat :=
  [ GL_TEXTURE0, GL_TEXTURE1, GL_TEXTURE2, GL_TEXTURE3,
    GL_TEXTURE4, GL_TEXTURE5, GL_TEXTURE6, GL_TEXTURE7,
    GL_TEXTURE8, GL_TEXTURE9, GL_TEXTURE10, GL_TEXTURE11,
    GL_TEXTURE12, GL_TEXTURE13, GL_TEXTURE14, GL_TEXTURE15,
    GL_TEXTURE16, GL_TEXTURE17, GL_TEXTURE18, GL_TEXTURE19,
    GL_TEXTURE20, GL_TEXTURE21, GL_TEXTURE22, GL_TEXTURE23,
    GL_TEXTURE24, GL_TEXTURE25, GL_TEXTURE26, GL_TEXTURE27,
    GL_TEXTURE28, GL_TEXTURE29, GL_TEXTURE30, GL_TEXTURE31 ]

/-- The function `SetTextureUnit`. -/
def SetTextureUnit (context : HContext) (unit : Nat) (texture : HTexture) (w : World) :
    Run World :=
  match context with
  | none => .error (.assertion, w)
  | some _ => do
    let w ← CHECK_GL_ERROR (glEnable GL_TEXTURE_2D w)
    match TEXTURE_UNIT_NAMES[unit]? with
    | none => .error (.invalidAccess, w)
    | some name =>
      let w := glActiveTexture name w
      let texture_id : Nat :=
        match texture with
        | some tex => tex.m_Texture
        | none => 0
      CHECK_GL_ERROR (glBindTexture GL_TEXTURE_2D texture_id w)

/-! ## Render target manager -/

/-- The number of buffer types; the initialisers of `BUFFER_TYPES` and of
`buffer_attachments` list three entries. -/
def MAX_BUFFER_TYPE_COUNT : Nat := 3

/-- The values of the enumeration `BufferType`, which the source takes from a
header; they are parameters of the model. -/
structure BufferTypes where
  BUFFER_TYPE_COLOR : Nat
  BUFFER_TYPE_DEPTH : Nat
  BUFFER_TYPE_STENCIL : Nat
  deriving DecidableEq, Repr

/-- The table `BUFFER_TYPES`. -/
def BUFFER_TYPES (bt : BufferTypes) : List Nat :=
  [bt.BUFFER_TYPE_COLOR, bt.BUFFER_TYPE_DEPTH, bt.BUFFER_TYPE_STENCIL]

/-- The local table `buffer_attachments` of `NewRenderTarget`. -/
def buffer_attachments : List Nat :=
  [GL_COLOR_ATTACHMENT0_EXT, GL_DEPTH_ATTACHMENT_EXT, GL_STENCIL_ATTACHMENT_EXT]

/-- The record `RenderTarget`; the fixed array `m_BufferTextures` is a list. -/
structure RenderTarget where
  m_Id : Nat
  m_BufferTextures : List HTexture
  deriving DecidableEq, Repr

/-- The body of the `for` loop of `NewRenderTarget` for index `i`, followed by
the remaining `n` passes. -/
def NewRenderTarget.loop (bt : BufferTypes) (buffer_type_flags : Nat)
    (params : List TextureParams) :
    Nat → Nat → RenderTarget → World → Run (RenderTarget × World)
  | 0, _, rt, w => pure (rt, w)
  | n + 1, i, rt, w =>
    match (BUFFER_TYPES bt)[i]?, buffer_attachments[i]? with
    | some type, some attachment =>
      if buffer_type_flags &&& type ≠ 0 then
        match params[i]? with
        | none => .error (.invalidAccess, w)
        | some p => do
          let (texture, w) ← NewTexture p w
          let rt : RenderTarget :=
            { rt with m_BufferTextures := rt.m_BufferTextures.set i texture }
          match texture with
          | none => .error (.invalidAccess, w)
          | some tex =>
            let w ← CHECK_GL_ERROR
              (glFramebufferTexture2D GL_FRAMEBUFFER_EXT attachment GL_TEXTURE_2D tex.m_Texture 0 w)
            NewRenderTarget.loop bt buffer_type_flags params n (i + 1) rt w
      else NewRenderTarget.loop bt buffer_type_flags params n (i + 1) rt w
    | _, _ => .error (.invalidAccess, w)

/-- The function `NewRenderTarget`. `fresh` is the record allocated by
`new RenderTarget`, whose contents are indeterminate. -/
def NewRenderTarget (bt : BufferTypes) (fresh : RenderTarget) (buffer_type_flags : Nat)
    (params : List TextureParams) (w : World) : Run (RenderTarget × World) := do
  let (id, w) := glGenFramebuffers fresh.m_Id w
  let rt : RenderTarget := { fresh with m_Id := id }
  let w ← CHECK_GL_ERROR w
  let w ← CHECK_GL_ERROR (glBindFramebuffer GL_FRAMEBUFFER_EXT rt.m_Id w)
  let (rt, w) ← NewRenderTarget.loop bt buffer_type_flags params MAX_BUFFER_TYPE_COUNT 0 rt w
  let w ←
    (if buffer_type_flags &&& bt.BUFFER_TYPE_COLOR = 0 then
      CHECK_GL_ERROR (glDrawBuffer GL_NONE w)
    else pure w)
  let w ← CHECK_GL_ERROR (glBindFramebuffer GL_FRAMEBUFFER_EXT 0 w)
  let w ← CHECK_GL_FRAMEBUFFER_ERROR w
  pure (rt, w)

/-- The body of the `for` loop of `DeleteRenderTarget` for index `i`, followed
by the remaining `n` passes. -/
def DeleteRenderTarget.loop (render_target : RenderTarget) : Nat → Nat → World → Run World
  | 0, _, w => pure w
  | n + 1, i, w =>
    match render_target.m_BufferTextures[i]? with
    | none => .error (.invalidAccess, w)
    | some texture => do
      let w ← DeleteTexture texture w
      DeleteRenderTarget.loop render_target n (i + 1) w

/-- The function `DeleteRenderTarget`. -/
def DeleteRenderTarget (render_target : Option RenderTarget) (w : World) : Run World :=
  match render_target with
  | none => .error (.invalidAccess, w)
  | some rt =>
    DeleteRenderTarget.loop rt MAX_BUFFER_TYPE_COUNT 0 (glDeleteFramebuffers rt.m_Id w)

/-- The function `EnableRenderTarget`; the context argument is not used. -/
def EnableRenderTarget (_context : HContext) (render_target : Option RenderTarget)
    (w : World) : Run World :=
  match render_target with
  | none => .error (.invalidAccess, w)
  | some rt => do
    let w ← CHECK_GL_ERROR (glBindFramebuffer GL_FRAMEBUFFER_EXT rt.m_Id w)
    CHECK_GL_FRAMEBUFFER_ERROR w

/-- The driver calls of a `SetTexture` that returns, for the texture named `t`,
as the design describes them: bind, the mipmap switch, the two filters and the
two wrap modes, then a full image upload for an uncompressed format, and for a
block-compressed format a compressed upload when the payload size is not zero
and nothing otherwise. -/
def SetTexture.calls (t : Nat) (p : TextureParams) : List GLCall :=
  [ .glBindTexture GL_TEXTURE_2D t,
    .glTexParameteri GL_TEXTURE_2D GL_GENERATE_MIPMAP GL_FALSE,
    .glTexParameteri GL_TEXTURE_2D GL_TEXTURE_MIN_FILTER p.m_MinFilter,
    .glTexParameteri GL_TEXTURE_2D GL_TEXTURE_MAG_FILTER p.m_MagFilter,
    .glTexParameteri GL_TEXTURE_2D GL_TEXTURE_WRAP_S p.m_UWrap,
    .glTexParameteri GL_TEXTURE_2D GL_TEXTURE_WRAP_T p.m_VWrap ] ++
  match p.m_Format with
  | .TEXTURE_FORMAT_LUMINANCE =>
    [.glTexImage2D GL_TEXTURE_2D p.m_MipMap 1 p.m_Width p.m_Height 0 GL_LUMINANCE
      GL_UNSIGNED_BYTE p.m_Data]
  | .TEXTURE_FORMAT_RGB =>
    [.glTexImage2D GL_TEXTURE_2D p.m_MipMap 3 p.m_Width p.m_Height 0 GL_RGB
      GL_UNSIGNED_BYTE p.m_Data]
  | .TEXTURE_FORMAT_RGBA =>
    [.glTexImage2D GL_TEXTURE_2D p.m_MipMap 4 p.m_Width p.m_Height 0 GL_RGBA
      GL_UNSIGNED_BYTE p.m_Data]
  | .TEXTURE_FORMAT_DEPTH =>
    [.glTexImage2D GL_TEXTURE_2D p.m_MipMap GL_DEPTH_COMPONENT p.m_Width p.m_Height 0
      GL_DEPTH_COMPONENT GL_FLOAT p.m_Data]
  | .TEXTURE_FORMAT_RGB_DXT1 =>
    if p.m_DataSize > 0 then
      [.glCompressedTexImage2D GL_TEXTURE_2D p.m_MipMap GL_COMPRESSED_RGB_S3TC_DXT1_EXT
        p.m_Width p.m_Height 0 p.m_DataSize p.m_Data]
    else []
  | .TEXTURE_FORMAT_RGBA_DXT1 =>
    if p.m_DataSize > 0 then
      [.glCompressedTexImage2D GL_TEXTURE_2D p.m_MipMap GL_COMPRESSED_RGBA_S3TC_DXT1_EXT
        p.m_Width p.m_Height 0 p.m_DataSize p.m_Data]
    else []
  | .TEXTURE_FORMAT_RGBA_DXT3 =>
    if p.m_DataSize > 0 then
      [.glCompressedTexImage2D GL_TEXTURE_2D p.m_MipMap GL_COMPRESSED_RGBA_S3TC_DXT3_EXT
        p.m_Width p.m_Height 0 p.m_DataSize p.m_Data]
    else []
  | .TEXTURE_FORMAT_RGBA_DXT5 =>
    if p.m_DataSize > 0 then
      [.glCompressedTexImage2D GL_TEXTURE_2D p.m_MipMap GL_COMPRESSED_RGBA_S3TC_DXT5_EXT
        p.m_Width p.m_Height 0 p.m_DataSize p.m_Data]
    else []
  | .other _ => []

/-- The four block-compressed formats. -/
def TextureFormat.compressed : TextureFormat → Bool
  | .TEXTURE_FORMAT_RGB_DXT1 => true
  | .TEXTURE_FORMAT_RGBA_DXT1 => true
  | .TEXTURE_FORMAT_RGBA_DXT3 => true
  | .TEXTURE_FORMAT_RGBA_DXT5 => true
  | _ => false

/-- The driver's constant for a block-compressed format (0 for the others). -/
def TextureFormat.compressedConstant : TextureFormat → Nat
  | .TEXTURE_FORMAT_RGB_DXT1 => GL_COMPRESSED_RGB_S3TC_DXT1_EXT
  | .TEXTURE_FORMAT_RGBA_DXT1 => GL_COMPRESSED_RGBA_S3TC_DXT1_EXT
  | .TEXTURE_FORMAT_RGBA_DXT3 => GL_COMPRESSED_RGBA_S3TC_DXT3_EXT
  | .TEXTURE_FORMAT_RGBA_DXT5 => GL_COMPRESSED_RGBA_S3TC_DXT5_EXT
  | _ => 0

/-- Whether a driver call uploads an image, compressed or not. -/
def GLCall.isUpload : GLCall → Bool
  | .glTexImage2D .. => true
  | .glCompressedTexImage2D .. => true
  | _ => false

/-- Texture parameters of a block-compressed texture without payload. -/
def sampleCompressedParams : TextureParams :=
  { m_Format := .TEXTURE_FORMAT_RGBA_DXT5, m_MinFilter := 0x2601, m_MagFilter := 0x2601,
    m_UWrap := 0x2901, m_VWrap := 0x2901, m_Data := none, m_DataSize := 0, m_MipMap := 0,
    m_Width := 64, m_Height := 64 }

/-- The driver calls `NewRenderTarget` makes for slot `i` when it returns `rt`:
for a requested slot the calls of `NewTexture(params[i])` for the texture now in
the slot, then its attachment to the slot's attachment point; for a slot that
is not requested, none. -/
def NewRenderTarget.slotCalls (bt : BufferTypes) (buffer_type_flags : Nat)
    (params : List TextureParams) (rt : RenderTarget) (i : Nat) : List GLCall :=
  match (BUFFER_TYPES bt)[i]?, buffer_attachments[i]?, params[i]?, rt.m_BufferTextures[i]? with
  | some type, some attachment, some p, some (some tex) =>
    if buffer_type_flags &&& type ≠ 0 then
      .glGenTextures :: SetTexture.calls tex.m_Texture p ++
        [.glFramebufferTexture2D GL_FRAMEBUFFER_EXT attachment GL_TEXTURE_2D tex.m_Texture 0]
    else []
  | _, _, _, _ => []

/-- The values of `BufferType` used in the examples: three distinct bits. -/
def sampleBufferTypes : BufferTypes :=
  { BUFFER_TYPE_COLOR := 0x4000, BUFFER_TYPE_DEPTH := 0x100, BUFFER_TYPE_STENCIL := 0x400 }

/-- A newly allocated `RenderTarget` whose three texture pointers happen to be
null. -/
def RenderTarget.blank : RenderTarget :=
  { m_Id := 0, m_BufferTextures := [none, none, none] }

/-- Parameters of an uncompressed RGBA texture of the given size, without
initial data. -/
def colorParams (width height : Nat) : TextureParams :=
  { m_Format := .TEXTURE_FORMAT_RGBA, m_MinFilter := 0x2601, m_MagFilter := 0x2601,
    m_UWrap := 0x2901, m_VWrap := 0x2901, m_Data := none, m_DataSize := 0, m_MipMap := 0,
    m_Width := width, m_Height := height }

/-- Parameters of a depth texture of the given size, without initial data. -/
def depthParams (width height : Nat) : TextureParams :=
  { colorParams width height with m_Format := .TEXTURE_FORMAT_DEPTH }
/-- The texture parameters used in the render target examples: a 64 by 64 color
texture and depth and stencil textures of the given size. -/
def sampleTargetParams (width height : Nat) : List TextureParams :=
  [colorParams 64 64, depthParams width height, depthParams width height]

/-- The start-up state with a driver whose completeness rule reports an
incomplete attachment for a framebuffer object whose color and depth textures
differ in width or height. -/
def World.strict : World :=
  { World.initial with
    completeness := fun fbo dims =>
      if (fbo.attachment GL_COLOR_ATTACHMENT0_EXT ≠ 0 ∧ fbo.attachment GL_DEPTH_ATTACHMENT_EXT ≠ 0
          ∧ dims (fbo.attachment GL_COLOR_ATTACHMENT0_EXT)
            ≠ dims (fbo.attachment GL_DEPTH_ATTACHMENT_EXT)) then
        GL_FRAMEBUFFER_INCOMPLETE_ATTACHMENT_EXT
      else GL_FRAMEBUFFER_COMPLETE_EXT }

/-! ## Vertex attributes, programs and drawing: the driver -/

def GL_VENDOR : Nat := 0x1F00
def GL_RENDERER : Nat := 0x1F01
def GL_VERSION : Nat := 0x1F02
def GL_EXTENSIONS : Nat := 0x1F03
def GL_VERTEX_PROGRAM_ARB : Nat := 0x8620
def GL_FRAGMENT_PROGRAM_ARB : Nat := 0x8804
def GLFW_WINDOW : Nat := 0x00010001

/-- The driver call `glEnableVertexAttribArray`. -/
def glEnableVertexAttribArray (index : Nat) (w : World) : World :=
  w.driver (.glEnableVertexAttribArray index) fun w =>
    { w with attribEnabled := fun j => if j = index then true else w.attribEnabled j }

/-- The driver call `glDisableVertexAttribArray`. -/
def glDisableVertexAttribArray (index : Nat) (w : World) : World :=
  w.driver (.glDisableVertexAttribArray index) fun w =>
    { w with attribEnabled := fun j => if j = index then false else w.attribEnabled j }

/-- The driver call `glVertexAttribPointer`: records the layout of an attribute
slot over the buffer bound to the array-buffer binding. -/
def glVertexAttribPointer (index size : Nat) (type : ScalarType) (normalized : Bool)
    (stride pointer : Nat) (w : World) : World :=
  w.driver (.glVertexAttribPointer index size type normalized stride pointer) fun w =>
    { w with attribPointer := fun j =>
        if j = index then
          some { size := size, type := type, normalized := normalized, stride := stride,
                 pointer := pointer, buffer := w.arrayBuffer }
        else w.attribPointer j }

/-- The driver call `glDrawRangeElements`; what is drawn is not part of the
model. -/
def glDrawRangeElements (mode start stop count : Nat) (type : ScalarType) (indices : Nat)
    (w : World) : World :=
  w.driver (.glDrawRangeElements mode start stop count type indices) fun w => w

/-- The driver call `glBindProgramARB`: binds a program to the vertex or the
fragment program target. -/
def glBindProgramARB (target program : Nat) (w : World) : World :=
  w.driver (.glBindProgramARB target program) fun w =>
    if target = GL_VERTEX_PROGRAM_ARB ∨ target = GL_FRAGMENT_PROGRAM_ARB then
      { w with programBinding := fun t => if t = target then program else w.programBinding t }
    else w.raise GL_INVALID_ENUM

/-- The driver call `glProgramLocalParameter4fARB`: sets a local parameter of
the program bound to the target. -/
def glProgramLocalParameter4fARB (target index : Nat) (x y z t : Float32) (w : World) :
    World :=
  w.driver (.glProgramLocalParameter4fARB target index x y z t) fun w =>
    if target = GL_VERTEX_PROGRAM_ARB ∨ target = GL_FRAGMENT_PROGRAM_ARB then
      { w with localParameter := fun tg p i =>
          if tg = target ∧ p = w.programBinding target ∧ i = index then some (x, y, z, t)
          else w.localParameter tg p i }
    else w.raise GL_INVALID_ENUM

/-- The driver call `glGetString`; the string is only printed. -/
def glGetString (name : Nat) (w : World) : World :=
  w.driver (.glGetString name) fun w => w

/-- A call of the window library: it is logged, and raises no driver error. -/
def World.record (c : GLCall) (w : World) : World :=
  { w with log := w.log ++ [c] }

/-- The library call `glfwInit`. -/
def glfwInit (w : World) : World :=
  { w.record .glfwInit with glfwInitialized := w.glfwInitialized || w.glfwWorks }

/-- The library call `glfwOpenWindow`: opens the window when the library is
initialised, no window is open yet and the window system grants the size; the
result tells whether it did. -/
def glfwOpenWindow (width height redbits greenbits bluebits alphabits depthbits stencilbits
    mode : Nat) (w : World) : Bool × World :=
  let w1 := w.record (.glfwOpenWindow width height redbits greenbits bluebits alphabits
    depthbits stencilbits mode)
  if w.glfwInitialized ∧ ¬ w.windowOpened ∧ w.windowSystem width height then
    (true, { w1 with windowOpened := true })
  else (false, w1)

/-- The library call `glfwTerminate`: closes the window and shuts the library
down. -/
def glfwTerminate (w : World) : World :=
  { w.record .glfwTerminate with glfwInitialized := false, windowOpened := false }

/-- The library call `glfwSetWindowTitle`. -/
def glfwSetWindowTitle (title : String) (w : World) : World :=
  w.record (.glfwSetWindowTitle title)

/-- The library call `glfwSwapInterval`. -/
def glfwSwapInterval (interval : Nat) (w : World) : World :=
  w.record (.glfwSwapInterval interval)

/-! ## Device -/

/-- The record `CreateDeviceParams`. -/
structure CreateDeviceParams where
  m_DisplayWidth : Nat
  m_DisplayHeight : Nat
  m_AppTitle : String
  m_PrintDeviceInfo : Bool
  deriving DecidableEq, Repr

/-- The handle `HDevice`, a pointer to a `Device`; the only `Device` is the
global `gdevice`, so a non-null handle is recorded as the contents of that
record. -/
abbrev HDevice : Type := Option Device

/-- The function `NewDevice`, for a platform whose driver entry points need no
loading. The arguments `argc` and `argv` are not used; what `printf` prints is
not part of the model. -/
def NewDevice (params : Option CreateDeviceParams) (w : World) : Run (HDevice × World) :=
  match params with
  | none => .error (.assertion, w)
  | some params =>
    let opened := glfwOpenWindow params.m_DisplayWidth params.m_DisplayHeight 8 8 8 8 32 0
      GLFW_WINDOW (glfwInit w)
    if opened.1 = false then .ok (none, glfwTerminate opened.2)
    else
      match CHECK_GL_ERROR
        (glfwSwapInterval 1 (glfwSetWindowTitle params.m_AppTitle opened.2)) with
      | .error e => .error e
      | .ok w =>
        let w : World :=
          { w with gdevice := { w.gdevice with m_DisplayWidth := params.m_DisplayWidth } }
        let w : World :=
          { w with gdevice := { w.gdevice with m_DisplayHeight := params.m_DisplayHeight } }
        let w :=
          if params.m_PrintDeviceInfo then
            glGetString GL_EXTENSIONS (glGetString GL_VENDOR (glGetString GL_VERSION
              (glGetString GL_RENDERER w)))
          else w
        .ok (some w.gdevice, w)

/-- The function `GetWindowWidth`. -/
def GetWindowWidth (w : World) : Nat × World := (w.gdevice.m_DisplayWidth, w)

/-- The function `GetWindowHeight`. -/
def GetWindowHeight (w : World) : Nat × World := (w.gdevice.m_DisplayHeight, w)

/-! ## Vertex declarations over buffers -/

/-- The body of the `for` loop of `EnableVertexDeclaration` for index `i`,
followed by the remaining `n` passes. -/
def EnableVertexDeclaration.loop (vertex_declaration : VertexDeclaration) :
    Nat → Nat → World → Run World
  | 0, _, w => pure w
  | n + 1, i, w =>
    match vertex_declaration.m_Streams[i]? with
    | none => .error (.invalidAccess, w)
    | some s => do
      let w ← CHECK_GL_ERROR (glEnableVertexAttribArray s.m_Index w)
      let w ← CHECK_GL_ERROR
        (glVertexAttribPointer s.m_Index s.m_Size s.m_Type false vertex_declaration.m_Stride
          s.m_Offset w)
      EnableVertexDeclaration.loop vertex_declaration n (i + 1) w

/-- The function `EnableVertexDeclaration`. -/
def EnableVertexDeclaration (context : HContext) (vertex_declaration : Option VertexDeclaration)
    (vertex_buffer : Nat) (w : World) : Run World :=
  match context with
  | none => .error (.assertion, w)
  | some _ =>
    if vertex_buffer = 0 then .error (.assertion, w)
    else
      match vertex_declaration with
      | none => .error (.assertion, w)
      | some vd => do
        let w ← CHECK_GL_ERROR (glBindBufferARB GL_ARRAY_BUFFER_ARB vertex_buffer w)
        EnableVertexDeclaration.loop vd vd.m_StreamCount 0 w

/-- The body of the `for` loop of `DisableVertexDeclaration` for index `i`,
followed by the remaining `n` passes. -/
def DisableVertexDeclaration.loop : Nat → Nat → World → Run World
  | 0, _, w => pure w
  | n + 1, i, w => do
    let w ← CHECK_GL_ERROR (glDisableVertexAttribArray i w)
    DisableVertexDeclaration.loop n (i + 1) w

/-- The function `DisableVertexDeclaration`. -/
def DisableVertexDeclaration (context : HContext)
    (vertex_declaration : Option VertexDeclaration) (w : World) : Run World :=
  match context with
  | none => .error (.assertion, w)
  | some _ =>
    match vertex_declaration with
    | none => .error (.assertion, w)
    | some vd => do
      let w ← DisableVertexDeclaration.loop vd.m_StreamCount 0 w
      let w ← CHECK_GL_ERROR (glBindBufferARB GL_ARRAY_BUFFER_ARB 0 w)
      CHECK_GL_ERROR (glBindBufferARB GL_ELEMENT_ARRAY_BUFFER_ARB 0 w)

/-! ## Drawing -/

/-- The function `DrawRangeElements`. The sum `start + count` and the product
`count * 3` are formed in `uint32_t`. -/
def DrawRangeElements (context : HContext) (prim_type start count : Nat) (type : ScalarType)
    (index_buffer : Nat) (w : World) : Run World :=
  match context with
  | none => .error (.assertion, w)
  | some _ =>
    if index_buffer = 0 then .error (.assertion, w)
    else do
      let w ← CHECK_GL_ERROR (glBindBufferARB GL_ELEMENT_ARRAY_BUFFER_ARB index_buffer w)
      CHECK_GL_ERROR
        (glDrawRangeElements prim_type start (u32 (start + count)) (u32 (count * 3)) type 0 w)

/-! ## Program manager -/

/-- The function `SetProgram`. -/
def SetProgram (type program : Nat) (w : World) : Run World := do
  let w ← CHECK_GL_ERROR (glEnable type w)
  CHECK_GL_ERROR (glBindProgramARB type program w)

/-- The function `SetVertexProgram`. -/
def SetVertexProgram (context : HContext) (program : Nat) (w : World) : Run World :=
  match context with
  | none => .error (.assertion, w)
  | some _ => SetProgram GL_VERTEX_PROGRAM_ARB program w

/-- The function `SetFragmentProgram`. -/
def SetFragmentProgram (context : HContext) (program : Nat) (w : World) : Run World :=
  match context with
  | none => .error (.assertion, w)
  | some _ => SetProgram GL_FRAGMENT_PROGRAM_ARB program w

/-- The largest value of `int`, plus one. -/
def INT_RANGE : Int := 2 ^ 31

/-- The body of the `for` loop of `SetProgramConstantBlock` for the values `i`
and `reg` of its two counters, followed by the remaining `n` passes. The sums
`base_register + i`, `k + reg` and `reg + 4` are formed in `int`. -/
def SetProgramConstantBlock.loop (type : Nat) (f : List Float32) (base_register : Int) :
    Nat → Int → Int → World → Run World
  | 0, _, _, w => pure w
  | n + 1, i, reg, w =>
    if INT_RANGE ≤ base_register + i ∨ INT_RANGE ≤ 3 + reg then .error (.overflow, w)
    else
      match f[(0 + reg).toNat]?, f[(1 + reg).toNat]?, f[(2 + reg).toNat]?,
        f[(3 + reg).toNat]? with
      | some x, some y, some z, some t => do
        let w ← CHECK_GL_ERROR
          (glProgramLocalParameter4fARB type (base_register + i).toNat x y z t w)
        if INT_RANGE ≤ reg + 4 then .error (.overflow, w)
        else SetProgramConstantBlock.loop type f base_register n (i + 1) (reg + 4) w
      | _, _, _, _ => .error (.invalidAccess, w)

/-- The function `SetProgramConstantBlock`. `data` points to vectors of four
floats each, laid out one after the other. -/
def SetProgramConstantBlock (context : HContext) (type : Nat) (data : Option (List Float32))
    (base_register num_vectors : Int) (w : World) : Run World :=
  match context with
  | none => .error (.assertion, w)
  | some _ =>
    match data with
    | none => .error (.assertion, w)
    | some f =>
      if base_register < 0 then .error (.assertion, w)
      else if num_vectors < 0 then .error (.assertion, w)
      else SetProgramConstantBlock.loop type f base_register num_vectors.toNat 0 0 w

/-- The function `SetFragmentConstant`. -/
def SetFragmentConstant (context : HContext) (data : Option (List Float32))
    (base_register : Int) (w : World) : Run World :=
  match context with
  | none => .error (.assertion, w)
  | some _ => do
    let w ← SetProgramConstantBlock context GL_FRAGMENT_PROGRAM_ARB data base_register 1 w
    CHECK_GL_ERROR w

/-- The function `SetVertexConstantBlock`. -/
def SetVertexConstantBlock (context : HContext) (data : Option (List Float32))
    (base_register num_vectors : Int) (w : World) : Run World :=
  match context with
  | none => .error (.assertion, w)
  | some _ => do
    let w ← SetProgramConstantBlock context GL_VERTEX_PROGRAM_ARB data base_register
      num_vectors w
    CHECK_GL_ERROR w

/-- The function `SetFragmentConstantBlock`. -/
def SetFragmentConstantBlock (context : HContext) (data : Option (List Float32))
    (base_register num_vectors : Int) (w : World) : Run World :=
  match context with
  | none => .error (.assertion, w)
  | some _ => do
    let w ← SetProgramConstantBlock context GL_FRAGMENT_PROGRAM_ARB data base_register
      num_vectors w
    CHECK_GL_ERROR w

/-- A state in which the fragment stage is enabled with program 4 bound and the
vertex stage is enabled with program 3 bound. -/
def World.withPrograms : World :=
  { World.initial with
    enabled := fun c => c = GL_FRAGMENT_PROGRAM_ARB || c = GL_VERTEX_PROGRAM_ARB
    programBinding := fun t =>
      if t = GL_FRAGMENT_PROGRAM_ARB then 4 else if t = GL_VERTEX_PROGRAM_ARB then 3 else 0 }

/-- Whether the surface is created in `NewDevice`: the result of its call of
`glfwOpenWindow`. -/
def NewDevice.surfaceCreated (params : CreateDeviceParams) (w : World) : Bool :=
  (glfwOpenWindow params.m_DisplayWidth params.m_DisplayHeight 8 8 8 8 32 0 GLFW_WINDOW
    (glfwInit w)).1

/-- Device parameters for a window of 800 by 600. -/
def sampleDeviceParams : CreateDeviceParams :=
  { m_DisplayWidth := 800, m_DisplayHeight := 600, m_AppTitle := "engine",
    m_PrintDeviceInfo := true }

/-- A state in which the window system grants no window, an error of the
driver is pending and the device holds dimensions from before. -/
def World.headless : World :=
  { World.initial with
    windowSystem := fun _ _ => false
    error := GL_INVALID_ENUM
    gdevice := { m_DisplayWidth := 320, m_DisplayHeight := 200 } }

/-- The four floats at flat positions `4 * i .. 4 * i + 3` of a float array, the
`i`-th 4-float vector of the block, when the array reaches that far. -/
def vectorAt (f : List Float32) (i : Nat) : Option (Float32 × Float32 × Float32 × Float32) :=
  match f[4 * i]?, f[4 * i + 1]?, f[4 * i + 2]?, f[4 * i + 3]? with
  | some x, some y, some z, some t => some (x, y, z, t)
  | _, _, _, _ => none

/-! # Theorems -/

/-! ## Vertex declarations -/

theorem bytesBefore_succ (element : List VertexElement) (i : Nat) (e : VertexElement)
    (h : element[i]? = some e) :
    bytesBefore element (i + 1) = bytesBefore element i + elementBytes e := by
  simp [bytesBefore, List.take_succ, h]

theorem GetTypeSize_named (t : ScalarType) (h : t.named = true) :
    GetTypeSize t = .ok (typeSize t) := by
  cases t <;> simp_all [GetTypeSize, ScalarType.named]

theorem u32_step (a b : Nat) : u32 (u32 a + u32 b) = u32 (a + b) := by
  simp only [u32]; omega

/-- The stream that the loop body writes at index `j`. -/
theorem NewVertexDeclaration.loop_layout (element : List VertexElement) :
    ∀ (n i : Nat) (vd : VertexDeclaration),
      vd.m_Stride = u32 (bytesBefore element i) →
      i + n ≤ element.length →
      i + n ≤ vd.m_Streams.length →
      (∀ j e, i ≤ j → j < i + n → element[j]? = some e → e.m_Type.named = true) →
      ∃ vd1, NewVertexDeclaration.loop element n i vd = .ok vd1 ∧
        vd1.m_Stride = u32 (bytesBefore element (i + n)) ∧
        vd1.m_StreamCount = vd.m_StreamCount ∧
        vd1.m_Streams.length = vd.m_Streams.length ∧
        (∀ j, j < i ∨ i + n ≤ j → vd1.m_Streams[j]? = vd.m_Streams[j]?) ∧
        (∀ j, i ≤ j → j < i + n → ∃ e, element[j]? = some e ∧
          vd1.m_Streams[j]? = some
            { m_Index := j, m_Size := e.m_Size, m_Usage := e.m_Usage, m_Type := e.m_Type,
              m_UsageIndex := e.m_UsageIndex, m_Offset := u32 (bytesBefore element j) }) := by
  intro n
  induction n with
  | zero =>
    intro i vd hs _ _ _
    exact ⟨vd, rfl, by simpa using hs, rfl, rfl, fun _ _ => rfl, fun j h1 h2 => by omega⟩
  | succ n ih =>
    intro i vd hs hle hcap hnamed
    have hi : i < element.length := by omega
    obtain ⟨e, he⟩ : ∃ e, element[i]? = some e := ⟨element[i], by simp [hi]⟩
    have hty := GetTypeSize_named e.m_Type (hnamed i e (le_refl i) (by omega) he)
    have hstride : u32 (vd.m_Stride + u32 (e.m_Size * typeSize e.m_Type))
        = u32 (bytesBefore element (i + 1)) := by
      rw [bytesBefore_succ element i e he, hs, u32_step]; rfl
    obtain ⟨vd1, hrun, h1, h2, h3, h4, h5⟩ := ih (i + 1)
      { m_Streams := vd.m_Streams.set i
          { m_Index := i, m_Size := e.m_Size, m_Usage := e.m_Usage, m_Type := e.m_Type,
            m_UsageIndex := e.m_UsageIndex, m_Offset := vd.m_Stride }
        m_StreamCount := vd.m_StreamCount
        m_Stride := u32 (vd.m_Stride + u32 (e.m_Size * typeSize e.m_Type)) }
      hstride (by omega) (by simp; omega)
      (fun j e1 hj1 hj2 hj3 => hnamed j e1 (by omega) (by omega) hj3)
    refine ⟨vd1, ?_, ?_, ?_, ?_, ?_, ?_⟩
    · simp only [NewVertexDeclaration.loop, he, hty]
      exact hrun
    · rw [h1]; congr 2; omega
    · rw [h2]
    · rw [h3]; simp
    · intro j hj
      rw [h4 j (by omega)]
      have : i ≠ j := by omega
      simp [this]
    · intro j hj1 hj2
      by_cases hij : j = i
      · subst hij
        refine ⟨e, he, ?_⟩
        rw [h4 j (by omega)]
        have : j < vd.m_Streams.length := by omega
        simp [this, hs]
      · exact h5 j (by omega) (by omega)

theorem bytesBefore_mono (element : List VertexElement) (i j : Nat) (h : i ≤ j) :
    bytesBefore element i ≤ bytesBefore element j := by
  obtain ⟨k, rfl⟩ := Nat.exists_eq_add_of_le h
  simp [bytesBefore, List.take_add]

theorem u32_of_lt (n : Nat) (h : n < 2 ^ 32) : u32 n = n := by
  simp only [u32]; omega

/-- C1, as amended. For every stream list that `NewVertexDeclaration` accepts
(count below the capacity, count entries readable, every scalar type one of the
seven named ones) the call returns a declaration with `m_StreamCount = count`,
with `m_Stride` equal to the sum of `m_Size * GetTypeSize(m_Type)` over all
streams reduced modulo `2 ^ 32`, and with `m_Streams[i].m_Offset` equal to the
sum over the streams before `i` reduced modulo `2 ^ 32`; when the total is below
`2 ^ 32` these are the exact sums (offset 0 for stream 0, no gaps, no padding).
`GetTypeSize` is 1 for the byte types, 2 for the short types and 4 for int,
unsigned int and float. -/
theorem NewVertexDeclaration_layout (fresh : VertexDeclaration)
    (element : List VertexElement) (count : Nat)
    (hcap : count < fresh.m_Streams.length)
    (hlen : count ≤ element.length)
    (hty : ∀ i e, i < count → element[i]? = some e → e.m_Type.named = true) :
    (∃ vd, NewVertexDeclaration fresh element count = .ok vd ∧
      vd.m_StreamCount = count ∧
      vd.m_Stride = u32 (bytesBefore element count) ∧
      (∀ i, i < count → ∃ s, vd.m_Streams[i]? = some s ∧
        s.m_Offset = u32 (bytesBefore element i)) ∧
      (bytesBefore element count < 2 ^ 32 →
        vd.m_Stride = bytesBefore element count ∧
        ∀ i, i < count → ∃ s, vd.m_Streams[i]? = some s ∧
          s.m_Offset = bytesBefore element i)) ∧
    (GetTypeSize .TYPE_BYTE = .ok 1 ∧ GetTypeSize .TYPE_UNSIGNED_BYTE = .ok 1 ∧
      GetTypeSize .TYPE_SHORT = .ok 2 ∧ GetTypeSize .TYPE_UNSIGNED_SHORT = .ok 2 ∧
      GetTypeSize .TYPE_INT = .ok 4 ∧ GetTypeSize .TYPE_UNSIGNED_INT = .ok 4 ∧
      GetTypeSize .TYPE_FLOAT = .ok 4) := by
  refine ⟨?_, rfl, rfl, rfl, rfl, rfl, rfl, rfl⟩
  obtain ⟨vd1, hrun, h1, _, _, _, h5⟩ :=
    NewVertexDeclaration.loop_layout element count 0
      { fresh with m_Stride := 0 } (by simp [bytesBefore, u32])
      (by omega) (by simpa using hcap.le)
      (fun j e _ hj he => hty j e (by omega) he)
  have hoff : ∀ i, i < count → ∃ s, vd1.m_Streams[i]? = some s ∧
      s.m_Offset = u32 (bytesBefore element i) := by
    intro i hi
    obtain ⟨e, _, hs⟩ := h5 i (Nat.zero_le i) (by omega)
    exact ⟨_, hs, rfl⟩
  refine ⟨{ vd1 with m_StreamCount := count }, ?_, rfl, ?_, hoff, ?_⟩
  · simp only [NewVertexDeclaration, hcap, if_true, hrun]
  · simpa using h1
  · intro htot
    refine ⟨?_, ?_⟩
    · have := u32_of_lt _ htot
      simpa [this] using h1
    · intro i hi
      obtain ⟨s, hs, ho⟩ := hoff i hi
      have hlt := lt_of_le_of_lt (bytesBefore_mono element i count hi.le) htot
      exact ⟨s, hs, by rw [ho, u32_of_lt _ hlt]⟩

/-- The example layout (3 floats, 3 floats, 2 floats) is accepted by a
declaration with room for 8 streams; its stride is 32 and its offsets are 0,
12, 24. -/
theorem NewVertexDeclaration_layout_witness :
    ((∃ vd, NewVertexDeclaration (VertexDeclaration.blank 8) exampleElements 3 = .ok vd ∧
      vd.m_StreamCount = 3 ∧
      vd.m_Stride = u32 (bytesBefore exampleElements 3) ∧
      (∀ i, i < 3 → ∃ s, vd.m_Streams[i]? = some s ∧
        s.m_Offset = u32 (bytesBefore exampleElements i)) ∧
      (bytesBefore exampleElements 3 < 2 ^ 32 →
        vd.m_Stride = bytesBefore exampleElements 3 ∧
        ∀ i, i < 3 → ∃ s, vd.m_Streams[i]? = some s ∧
          s.m_Offset = bytesBefore exampleElements i)) ∧
    (GetTypeSize .TYPE_BYTE = .ok 1 ∧ GetTypeSize .TYPE_UNSIGNED_BYTE = .ok 1 ∧
      GetTypeSize .TYPE_SHORT = .ok 2 ∧ GetTypeSize .TYPE_UNSIGNED_SHORT = .ok 2 ∧
      GetTypeSize .TYPE_INT = .ok 4 ∧ GetTypeSize .TYPE_UNSIGNED_INT = .ok 4 ∧
      GetTypeSize .TYPE_FLOAT = .ok 4)) ∧
    (NewVertexDeclaration (VertexDeclaration.blank 8) exampleElements 3).toOption.map
      (fun vd => (vd.m_StreamCount, vd.m_Stride, (vd.m_Streams.take 3).map Stream.m_Offset))
      = some (3, 32, [0, 12, 24]) :=
  ⟨NewVertexDeclaration_layout (VertexDeclaration.blank 8) exampleElements 3
      (by decide) (by decide)
      (by
        intro i e hi he
        have hmem : e ∈ exampleElements := List.getElem?_mem he
        simp only [exampleElements, List.mem_cons, List.mem_singleton, List.not_mem_nil,
          or_false] at hmem
        rcases hmem with h | h | h <;> subst h <;> rfl),
    by decide⟩

/-- C1, counterexample to the claim as stated. The two streams of
`wideElements` are accepted and a declaration is returned, but its stride is 4
where the sum of the byte sizes is `2 ^ 32 + 4`, and the offset of stream 1 is 0
where the byte size of stream 0 is `2 ^ 32`. -/
theorem NewVertexDeclaration_exact_sum_fails :
    (VertexDeclaration.blank 8).m_Streams.length = 8 ∧
    (∀ e ∈ wideElements, e.m_Type = .TYPE_FLOAT ∧ e.m_Size < 2 ^ 32) ∧
    ∃ vd s, NewVertexDeclaration (VertexDeclaration.blank 8) wideElements 2 = .ok vd ∧
      vd.m_Stride = 4 ∧ bytesBefore wideElements 2 = 2 ^ 32 + 4 ∧
      vd.m_Streams[1]? = some s ∧ s.m_Offset = 0 ∧ bytesBefore wideElements 1 = 2 ^ 32 := by
  refine ⟨by decide, by decide, ?_⟩
  refine ⟨_, _, rfl, ?_, ?_, rfl, ?_, ?_⟩ <;> decide

/-- C2. A stream count equal to the capacity (or above it) does not pass the
assertion `count < capacity`: the call stops on the assertion, having written
nothing but `m_Stride = 0`. -/
theorem NewVertexDeclaration_rejects_full_capacity (fresh : VertexDeclaration)
    (element : List VertexElement) (k : Nat) :
    NewVertexDeclaration fresh element (fresh.m_Streams.length + k)
      = .error (.assertion, { fresh with m_Stride := 0 }) := by
  simp [NewVertexDeclaration]

/-! ## Buffer manager -/

theorem Run.bind_ok {α β : Type} (x : Run α) (f : α → Run β) (b : β) :
    (x >>= f) = .ok b ↔ ∃ a, x = .ok a ∧ f a = .ok b := by
  cases x with
  | error e => simp [bind, Except.bind]
  | ok a => simp [bind, Except.bind]

theorem Run.pure_ok {α : Type} (a b : α) : (pure a : Run α) = .ok b ↔ a = b := by
  simp [pure, Except.pure]

theorem CHECK_GL_ERROR_ok (w w1 : World) :
    CHECK_GL_ERROR w = .ok w1 ↔ w.error = 0 ∧ w1 = w := by
  unfold CHECK_GL_ERROR
  split <;> simp_all [eq_comm]

theorem element_ne_array : GL_ELEMENT_ARRAY_BUFFER_ARB ≠ GL_ARRAY_BUFFER_ARB := by decide

theorem glBindBufferARB_array (b : Nat) (w : World) :
    (glBindBufferARB GL_ARRAY_BUFFER_ARB b w).elementArrayBuffer = w.elementArrayBuffer ∧
    ((glBindBufferARB GL_ARRAY_BUFFER_ARB b w).error = 0 →
      (glBindBufferARB GL_ARRAY_BUFFER_ARB b w).arrayBuffer = b) := by
  simp only [glBindBufferARB, World.driver, World.raise]
  split_ifs <;> simp_all

theorem glBindBufferARB_element (b : Nat) (w : World) :
    (glBindBufferARB GL_ELEMENT_ARRAY_BUFFER_ARB b w).arrayBuffer = w.arrayBuffer ∧
    ((glBindBufferARB GL_ELEMENT_ARRAY_BUFFER_ARB b w).error = 0 →
      (glBindBufferARB GL_ELEMENT_ARRAY_BUFFER_ARB b w).elementArrayBuffer = b) := by
  simp only [glBindBufferARB, World.driver, World.raise, element_ne_array, if_false]
  split_ifs <;> simp_all

theorem glBufferDataARB_bindings (target size : Nat) (data : Option (List Nat)) (usage : Nat)
    (w : World) :
    (glBufferDataARB target size data usage w).arrayBuffer = w.arrayBuffer ∧
    (glBufferDataARB target size data usage w).elementArrayBuffer = w.elementArrayBuffer := by
  simp only [glBufferDataARB, World.driver, World.raise]
  split_ifs <;> simp

theorem glBufferSubDataARB_bindings (target offset size : Nat) (data : Option (List Nat))
    (w : World) :
    (glBufferSubDataARB target offset size data w).arrayBuffer = w.arrayBuffer ∧
    (glBufferSubDataARB target offset size data w).elementArrayBuffer = w.elementArrayBuffer := by
  simp only [glBufferSubDataARB, World.driver, World.raise]
  split_ifs <;> simp

theorem glMapBufferARB_bindings (target access : Nat) (w : World) :
    (glMapBufferARB target access w).2.arrayBuffer = w.arrayBuffer ∧
    (glMapBufferARB target access w).2.elementArrayBuffer = w.elementArrayBuffer := by
  simp only [glMapBufferARB, World.raise]
  split_ifs <;> simp

theorem glUnmapBufferARB_bindings (target : Nat) (w : World) :
    (glUnmapBufferARB target w).2.arrayBuffer = w.arrayBuffer ∧
    (glUnmapBufferARB target w).2.elementArrayBuffer = w.elementArrayBuffer := by
  simp only [glUnmapBufferARB, World.raise]
  split_ifs <;> simp

theorem glGenBuffersARB_bindings (out : Nat) (w : World) :
    (glGenBuffersARB out w).2.arrayBuffer = w.arrayBuffer ∧
    (glGenBuffersARB out w).2.elementArrayBuffer = w.elementArrayBuffer := by
  simp only [glGenBuffersARB, World.genName, World.raise]
  split_ifs <;> simp

theorem SetVertexBufferData_binding (buffer size : Nat) (data : Option (List Nat))
    (usage : Nat) (w w1 : World)
    (h : SetVertexBufferData buffer size data usage w = .ok w1) :
    w1.arrayBuffer = 0 ∧ w1.elementArrayBuffer = w.elementArrayBuffer := by
  simp only [SetVertexBufferData, Run.bind_ok, CHECK_GL_ERROR_ok] at h
  obtain ⟨w2, ⟨_, rfl⟩, w3, ⟨_, rfl⟩, h3, rfl⟩ := h
  refine ⟨(glBindBufferARB_array _ _).2 h3, ?_⟩
  rw [(glBindBufferARB_array _ _).1, (glBufferDataARB_bindings _ _ _ _ _).2,
    (glBindBufferARB_array _ _).1]

theorem SetIndexBufferData_binding (buffer size : Nat) (data : Option (List Nat))
    (usage : Nat) (w w1 : World)
    (h : SetIndexBufferData buffer size data usage w = .ok w1) :
    w1.elementArrayBuffer = 0 ∧ w1.arrayBuffer = w.arrayBuffer := by
  simp only [SetIndexBufferData, Run.bind_ok, CHECK_GL_ERROR_ok] at h
  obtain ⟨w2, ⟨_, rfl⟩, w3, ⟨_, rfl⟩, h3, rfl⟩ := h
  refine ⟨(glBindBufferARB_element _ _).2 h3, ?_⟩
  rw [(glBindBufferARB_element _ _).1, (glBufferDataARB_bindings _ _ _ _ _).1,
    (glBindBufferARB_element _ _).1]

/-- C3. When a buffer operation that binds returns, the binding point it used
is bound to 0 and the other buffer binding point is as it was before the call:
the array-buffer binding for `NewVertexBuffer`, `SetVertexBufferData`,
`SetVertexBufferSubData`, `MapVertexBuffer` and `UnmapVertexBuffer`, the
element-array-buffer binding for the five index-buffer operations. This holds
for every handle, every prior state and every behaviour of the driver. -/
theorem buffer_operations_leave_nothing_bound :
    (∀ size data usage w b w1, NewVertexBuffer size data usage w = .ok (b, w1) →
      w1.arrayBuffer = 0 ∧ w1.elementArrayBuffer = w.elementArrayBuffer) ∧
    (∀ buffer size data usage w w1, SetVertexBufferData buffer size data usage w = .ok w1 →
      w1.arrayBuffer = 0 ∧ w1.elementArrayBuffer = w.elementArrayBuffer) ∧
    (∀ buffer offset size data w w1,
      SetVertexBufferSubData buffer offset size data w = .ok w1 →
      w1.arrayBuffer = 0 ∧ w1.elementArrayBuffer = w.elementArrayBuffer) ∧
    (∀ buffer access w p w1, MapVertexBuffer buffer access w = .ok (p, w1) →
      w1.arrayBuffer = 0 ∧ w1.elementArrayBuffer = w.elementArrayBuffer) ∧
    (∀ buffer w r w1, UnmapVertexBuffer buffer w = .ok (r, w1) →
      w1.arrayBuffer = 0 ∧ w1.elementArrayBuffer = w.elementArrayBuffer) ∧
    (∀ size data usage w b w1, NewIndexBuffer size data usage w = .ok (b, w1) →
      w1.elementArrayBuffer = 0 ∧ w1.arrayBuffer = w.arrayBuffer) ∧
    (∀ buffer size data usage w w1, SetIndexBufferData buffer size data usage w = .ok w1 →
      w1.elementArrayBuffer = 0 ∧ w1.arrayBuffer = w.arrayBuffer) ∧
    (∀ buffer offset size data w w1,
      SetIndexBufferSubData buffer offset size data w = .ok w1 →
      w1.elementArrayBuffer = 0 ∧ w1.arrayBuffer = w.arrayBuffer) ∧
    (∀ buffer access w p w1, MapIndexBuffer buffer access w = .ok (p, w1) →
      w1.elementArrayBuffer = 0 ∧ w1.arrayBuffer = w.arrayBuffer) ∧
    (∀ buffer w r w1, UnmapIndexBuffer buffer w = .ok (r, w1) →
      w1.elementArrayBuffer = 0 ∧ w1.arrayBuffer = w.arrayBuffer) := by
  refine ⟨?_, SetVertexBufferData_binding, ?_, ?_, ?_, ?_, SetIndexBufferData_binding,
    ?_, ?_, ?_⟩
  · intro size data usage w b w1 h
    simp only [NewVertexBuffer, Run.bind_ok, CHECK_GL_ERROR_ok, Run.pure_ok] at h
    obtain ⟨w2, ⟨_, rfl⟩, w3, h2, h3⟩ := h
    obtain ⟨rfl, rfl⟩ := Prod.mk.inj h3
    have := SetVertexBufferData_binding _ _ _ _ _ _ h2
    rw [(glGenBuffersARB_bindings _ _).2] at this
    exact this
  · intro buffer offset size data w w1 h
    simp only [SetVertexBufferSubData, Run.bind_ok, CHECK_GL_ERROR_ok] at h
    obtain ⟨w2, ⟨_, rfl⟩, w3, ⟨_, rfl⟩, h3, rfl⟩ := h
    refine ⟨(glBindBufferARB_array _ _).2 h3, ?_⟩
    rw [(glBindBufferARB_array _ _).1, (glBufferSubDataARB_bindings _ _ _ _ _).2,
      (glBindBufferARB_array _ _).1]
  · intro buffer access w p w1 h
    simp only [MapVertexBuffer, Run.bind_ok, CHECK_GL_ERROR_ok, Run.pure_ok] at h
    obtain ⟨w2, ⟨_, rfl⟩, w3, ⟨_, rfl⟩, w4, ⟨h3, rfl⟩, h4⟩ := h
    obtain ⟨_, rfl⟩ := Prod.mk.inj h4
    refine ⟨(glBindBufferARB_array _ _).2 h3, ?_⟩
    rw [(glBindBufferARB_array _ _).1, (glMapBufferARB_bindings _ _ _).2,
      (glBindBufferARB_array _ _).1]
  · intro buffer w r w1 h
    simp only [UnmapVertexBuffer, Run.bind_ok, CHECK_GL_ERROR_ok, Run.pure_ok] at h
    obtain ⟨w2, ⟨_, rfl⟩, w3, ⟨_, rfl⟩, w4, ⟨h3, rfl⟩, h4⟩ := h
    obtain ⟨_, rfl⟩ := Prod.mk.inj h4
    refine ⟨(glBindBufferARB_array _ _).2 h3, ?_⟩
    rw [(glBindBufferARB_array _ _).1, (glUnmapBufferARB_bindings _ _).2,
      (glBindBufferARB_array _ _).1]
  · intro size data usage w b w1 h
    simp only [NewIndexBuffer, Run.bind_ok, CHECK_GL_ERROR_ok, Run.pure_ok] at h
    obtain ⟨w2, ⟨_, rfl⟩, w3, h2, h3⟩ := h
    obtain ⟨rfl, rfl⟩ := Prod.mk.inj h3
    have := SetIndexBufferData_binding _ _ _ _ _ _ h2
    rw [(glGenBuffersARB_bindings _ _).1] at this
    exact this
  · intro buffer offset size data w w1 h
    simp only [SetIndexBufferSubData, Run.bind_ok, CHECK_GL_ERROR_ok] at h
    obtain ⟨w2, ⟨_, rfl⟩, w3, ⟨_, rfl⟩, h3, rfl⟩ := h
    refine ⟨(glBindBufferARB_element _ _).2 h3, ?_⟩
    rw [(glBindBufferARB_element _ _).1, (glBufferSubDataARB_bindings _ _ _ _ _).1,
      (glBindBufferARB_element _ _).1]
  · intro buffer access w p w1 h
    simp only [MapIndexBuffer, Run.bind_ok, CHECK_GL_ERROR_ok, Run.pure_ok] at h
    obtain ⟨w2, ⟨_, rfl⟩, w3, ⟨_, rfl⟩, w4, ⟨h3, rfl⟩, h4⟩ := h
    obtain ⟨_, rfl⟩ := Prod.mk.inj h4
    refine ⟨(glBindBufferARB_element _ _).2 h3, ?_⟩
    rw [(glBindBufferARB_element _ _).1, (glMapBufferARB_bindings _ _ _).1,
      (glBindBufferARB_element _ _).1]
  · intro buffer w r w1 h
    simp only [UnmapIndexBuffer, Run.bind_ok, CHECK_GL_ERROR_ok, Run.pure_ok] at h
    obtain ⟨w2, ⟨_, rfl⟩, w3, ⟨_, rfl⟩, w4, ⟨h3, rfl⟩, h4⟩ := h
    obtain ⟨_, rfl⟩ := Prod.mk.inj h4
    refine ⟨(glBindBufferARB_element _ _).2 h3, ?_⟩
    rw [(glBindBufferARB_element _ _).1, (glUnmapBufferARB_bindings _ _).1,
      (glBindBufferARB_element _ _).1]

/-- Each of the ten operations returns on the sample state, where the two
bindings start on 5 and 7; the binding used ends on 0, the other is kept. -/
theorem buffer_operations_leave_nothing_bound_witness :
    (∃ b w1, NewVertexBuffer 64 none GL_STATIC_DRAW World.sample = .ok (b, w1) ∧
      w1.arrayBuffer = 0 ∧ w1.elementArrayBuffer = 7) ∧
    (∃ w1, SetVertexBufferData 1 4 (some [1, 2, 3, 4]) GL_STATIC_DRAW World.sample = .ok w1 ∧
      w1.arrayBuffer = 0 ∧ w1.elementArrayBuffer = 7) ∧
    (∃ w1, SetVertexBufferSubData 1 0 4 (some [1, 2, 3, 4]) World.sample = .ok w1 ∧
      w1.arrayBuffer = 0 ∧ w1.elementArrayBuffer = 7) ∧
    (∃ p w1, MapVertexBuffer 1 GL_READ_ONLY World.sample = .ok (p, w1) ∧
      w1.arrayBuffer = 0 ∧ w1.elementArrayBuffer = 7) ∧
    (∃ r w1, UnmapVertexBuffer 2 World.sample = .ok (r, w1) ∧
      w1.arrayBuffer = 0 ∧ w1.elementArrayBuffer = 7) ∧
    (∃ b w1, NewIndexBuffer 64 none GL_STATIC_DRAW World.sample = .ok (b, w1) ∧
      w1.elementArrayBuffer = 0 ∧ w1.arrayBuffer = 5) ∧
    (∃ w1, SetIndexBufferData 1 4 (some [1, 2, 3, 4]) GL_STATIC_DRAW World.sample = .ok w1 ∧
      w1.elementArrayBuffer = 0 ∧ w1.arrayBuffer = 5) ∧
    (∃ w1, SetIndexBufferSubData 1 0 4 (some [1, 2, 3, 4]) World.sample = .ok w1 ∧
      w1.elementArrayBuffer = 0 ∧ w1.arrayBuffer = 5) ∧
    (∃ p w1, MapIndexBuffer 1 GL_READ_ONLY World.sample = .ok (p, w1) ∧
      w1.elementArrayBuffer = 0 ∧ w1.arrayBuffer = 5) ∧
    (∃ r w1, UnmapIndexBuffer 2 World.sample = .ok (r, w1) ∧
      w1.elementArrayBuffer = 0 ∧ w1.arrayBuffer = 5) :=
  ⟨⟨_, _, rfl, buffer_operations_leave_nothing_bound.1
      64 none GL_STATIC_DRAW World.sample _ _ rfl⟩,
   ⟨_, rfl, buffer_operations_leave_nothing_bound.2.1
      1 4 (some [1, 2, 3, 4]) GL_STATIC_DRAW World.sample _ rfl⟩,
   ⟨_, rfl, buffer_operations_leave_nothing_bound.2.2.1
      1 0 4 (some [1, 2, 3, 4]) World.sample _ rfl⟩,
   ⟨_, _, rfl, buffer_operations_leave_nothing_bound.2.2.2.1
      1 GL_READ_ONLY World.sample _ _ rfl⟩,
   ⟨_, _, rfl, buffer_operations_leave_nothing_bound.2.2.2.2.1
      2 World.sample _ _ rfl⟩,
   ⟨_, _, rfl, buffer_operations_leave_nothing_bound.2.2.2.2.2.1
      64 none GL_STATIC_DRAW World.sample _ _ rfl⟩,
   ⟨_, rfl, buffer_operations_leave_nothing_bound.2.2.2.2.2.2.1
      1 4 (some [1, 2, 3, 4]) GL_STATIC_DRAW World.sample _ rfl⟩,
   ⟨_, rfl, buffer_operations_leave_nothing_bound.2.2.2.2.2.2.2.1
      1 0 4 (some [1, 2, 3, 4]) World.sample _ rfl⟩,
   ⟨_, _, rfl, buffer_operations_leave_nothing_bound.2.2.2.2.2.2.2.2.1
      1 GL_READ_ONLY World.sample _ _ rfl⟩,
   ⟨_, _, rfl, buffer_operations_leave_nothing_bound.2.2.2.2.2.2.2.2.2
      2 World.sample _ _ rfl⟩⟩

theorem glGenBuffersARB_ok (out : Nat) (w : World) (h : (glGenBuffersARB out w).2.error = 0) :
    w.error = 0 ∧ glGenBuffersARB out w =
      (w.nextName + 1, { w with log := w.log ++ [.glGenBuffersARB], nextName := w.nextName + 1 }) := by
  revert h
  simp only [glGenBuffersARB, World.genName, World.raise]
  split_ifs <;> simp_all

theorem glBindBufferARB_array_ok (b : Nat) (w : World)
    (h : (glBindBufferARB GL_ARRAY_BUFFER_ARB b w).error = 0) :
    w.error = 0 ∧ glBindBufferARB GL_ARRAY_BUFFER_ARB b w =
      { w with log := w.log ++ [.glBindBufferARB GL_ARRAY_BUFFER_ARB b], arrayBuffer := b } := by
  revert h
  simp only [glBindBufferARB, World.driver, World.raise]
  split_ifs <;> simp_all

theorem glBindBufferARB_element_ok (b : Nat) (w : World)
    (h : (glBindBufferARB GL_ELEMENT_ARRAY_BUFFER_ARB b w).error = 0) :
    w.error = 0 ∧ glBindBufferARB GL_ELEMENT_ARRAY_BUFFER_ARB b w =
      { w with log := w.log ++ [.glBindBufferARB GL_ELEMENT_ARRAY_BUFFER_ARB b],
               elementArrayBuffer := b } := by
  revert h
  simp only [glBindBufferARB, World.driver, World.raise, element_ne_array, if_false]
  split_ifs <;> simp_all

theorem glBufferDataARB_ok (target size : Nat) (data : Option (List Nat)) (usage : Nat)
    (w : World) (h : (glBufferDataARB target size data usage w).error = 0) :
    w.error = 0 ∧ w.boundBuffer target ≠ 0 ∧ glBufferDataARB target size data usage w =
      { w with
        log := w.log ++ [.glBufferDataARB target size data usage]
        buffers := fun b =>
          if b = w.boundBuffer target then
            { bytes := readBytes w.junk data size, mapped := false }
          else w.buffers b } := by
  revert h
  simp only [glBufferDataARB, World.driver, World.raise, World.boundBuffer]
  split_ifs <;> simp_all [GL_INVALID_ENUM, GL_INVALID_OPERATION]

theorem NewVertexBuffer_created (c : Nat) (data0 : Option (List Nat)) (usage : Nat)
    (w : World) (b : Nat) (w1 : World)
    (h : NewVertexBuffer c data0 usage w = .ok (b, w1)) :
    w1.error = 0 ∧ w1.oracle = w.oracle ∧ w1.junk = w.junk ∧ b ≠ 0 ∧
      w1.buffers b = { bytes := readBytes w.junk data0 c, mapped := false } := by
  simp only [NewVertexBuffer, SetVertexBufferData, Run.bind_ok, CHECK_GL_ERROR_ok,
    Run.pure_ok] at h
  obtain ⟨w2, ⟨h1, rfl⟩, w3, ⟨w4, ⟨h2, rfl⟩, w5, ⟨h3, rfl⟩, h4, rfl⟩, h5⟩ := h
  obtain ⟨rfl, rfl⟩ := Prod.mk.inj h5
  obtain ⟨e4, q4⟩ := glBindBufferARB_array_ok _ _ h4
  obtain ⟨e3, n3, q3⟩ := glBufferDataARB_ok _ _ _ _ _ h3
  obtain ⟨e2, q2⟩ := glBindBufferARB_array_ok _ _ h2
  obtain ⟨e1, q1⟩ := glGenBuffersARB_ok _ _ h1
  rw [q4, q3, q2, q1]
  simp [World.boundBuffer, e1]

theorem readBytes_length (junk : Nat → Nat) (data : Option (List Nat)) (size : Nat) :
    (readBytes junk data size).length = size := by
  simp [readBytes]

theorem readBytes_some (junk : Nat → Nat) (data : List Nat) :
    readBytes junk (some data) data.length = data := by
  apply List.ext_getElem
  · simp [readBytes]
  · intro i h1 h2
    simp [readBytes, List.getD_eq_getElem?_getD, h2]

theorem SetVertexBufferSubData_quiet (buffer offset size : Nat) (data : Option (List Nat))
    (w : World) (hq : ∀ k, w.oracle k = 0) (he : w.error = 0) (hb : buffer ≠ 0)
    (hm : (w.buffers buffer).mapped = false)
    (hr : offset + size ≤ (w.buffers buffer).bytes.length) :
    ∃ w1, SetVertexBufferSubData buffer offset size data w = .ok w1 ∧
      w1.error = 0 ∧ w1.oracle = w.oracle ∧
      w1.buffers buffer =
        { bytes := (w.buffers buffer).bytes.take offset ++ readBytes w.junk data size
            ++ (w.buffers buffer).bytes.drop (offset + size),
          mapped := false } := by
  have hr1 : ¬ (w.buffers buffer).bytes.length < offset + size := by omega
  simp [SetVertexBufferSubData, glBindBufferARB, glBufferSubDataARB, World.driver,
    World.boundBuffer, CHECK_GL_ERROR, bind, Except.bind, hq, he, hb, hm, hr1]

theorem MapVertexBuffer_quiet (buffer access : Nat) (w : World) (hq : ∀ k, w.oracle k = 0)
    (he : w.error = 0) (hb : buffer ≠ 0) (hm : (w.buffers buffer).mapped = false)
    (ha : access ∈ bufferAccesses) :
    ∃ w1, MapVertexBuffer buffer access w = .ok (some (w.buffers buffer).bytes, w1) := by
  simp [MapVertexBuffer, glBindBufferARB, glMapBufferARB, World.driver,
    World.boundBuffer, CHECK_GL_ERROR, bind, Except.bind, pure, Except.pure, hq, he, hb, hm, ha]
theorem NewIndexBuffer_created (c : Nat) (data0 : Option (List Nat)) (usage : Nat)
    (w : World) (b : Nat) (w1 : World)
    (h : NewIndexBuffer c data0 usage w = .ok (b, w1)) :
    w1.error = 0 ∧ w1.oracle = w.oracle ∧ w1.junk = w.junk ∧ b ≠ 0 ∧
      w1.buffers b = { bytes := readBytes w.junk data0 c, mapped := false } := by
  simp only [NewIndexBuffer, SetIndexBufferData, Run.bind_ok, CHECK_GL_ERROR_ok,
    Run.pure_ok] at h
  obtain ⟨w2, ⟨h1, rfl⟩, w3, ⟨w4, ⟨h2, rfl⟩, w5, ⟨h3, rfl⟩, h4, rfl⟩, h5⟩ := h
  obtain ⟨rfl, rfl⟩ := Prod.mk.inj h5
  obtain ⟨e4, q4⟩ := glBindBufferARB_element_ok _ _ h4
  obtain ⟨e3, n3, q3⟩ := glBufferDataARB_ok _ _ _ _ _ h3
  obtain ⟨e2, q2⟩ := glBindBufferARB_element_ok _ _ h2
  obtain ⟨e1, q1⟩ := glGenBuffersARB_ok _ _ h1
  rw [q4, q3, q2, q1]
  simp [World.boundBuffer, e1, element_ne_array]

theorem SetIndexBufferSubData_quiet (buffer offset size : Nat) (data : Option (List Nat))
    (w : World) (hq : ∀ k, w.oracle k = 0) (he : w.error = 0) (hb : buffer ≠ 0)
    (hm : (w.buffers buffer).mapped = false)
    (hr : offset + size ≤ (w.buffers buffer).bytes.length) :
    ∃ w1, SetIndexBufferSubData buffer offset size data w = .ok w1 ∧
      w1.error = 0 ∧ w1.oracle = w.oracle ∧
      w1.buffers buffer =
        { bytes := (w.buffers buffer).bytes.take offset ++ readBytes w.junk data size
            ++ (w.buffers buffer).bytes.drop (offset + size),
          mapped := false } := by
  have hr1 : ¬ (w.buffers buffer).bytes.length < offset + size := by omega
  simp [SetIndexBufferSubData, glBindBufferARB, glBufferSubDataARB, World.driver,
    World.boundBuffer, CHECK_GL_ERROR, bind, Except.bind, hq, he, hb, hm, hr1,
    element_ne_array]

theorem MapIndexBuffer_quiet (buffer access : Nat) (w : World) (hq : ∀ k, w.oracle k = 0)
    (he : w.error = 0) (hb : buffer ≠ 0) (hm : (w.buffers buffer).mapped = false)
    (ha : access ∈ bufferAccesses) :
    ∃ w1, MapIndexBuffer buffer access w = .ok (some (w.buffers buffer).bytes, w1) := by
  simp [MapIndexBuffer, glBindBufferARB, glMapBufferARB, World.driver,
    World.boundBuffer, CHECK_GL_ERROR, bind, Except.bind, pure, Except.pure, hq, he, hb, hm, ha,
    element_ne_array]

/-- Overwriting a range of a list: the new bytes sit in the range, every other
position keeps its byte, and the length is unchanged. -/
theorem overwrite_spec (prev data : List Nat) (offset : Nat)
    (h : offset + data.length ≤ prev.length) :
    (prev.take offset ++ data ++ prev.drop (offset + data.length)).length = prev.length ∧
    (∀ i, i < data.length →
      (prev.take offset ++ data ++ prev.drop (offset + data.length))[offset + i]? = data[i]?) ∧
    (∀ i, i < offset ∨ offset + data.length ≤ i →
      (prev.take offset ++ data ++ prev.drop (offset + data.length))[i]? = prev[i]?) := by
  have htake : (prev.take offset).length = offset := by simp; omega
  refine ⟨by simp; omega, ?_, ?_⟩
  · intro i hi
    rw [List.append_assoc, List.getElem?_append_right (by omega), htake,
      List.getElem?_append_left (by omega)]
    congr 1; omega
  · intro i hi
    rcases hi with hi | hi
    · rw [List.append_assoc, List.getElem?_append_left (by omega), List.getElem?_take]
      simp [hi]
    · rw [List.getElem?_append_right (by simp; omega), List.getElem?_drop]
      congr 1
      simp
      omega
/-- C4. Let a buffer be created by `NewVertexBuffer(c, data0, usage)` (resp.
`NewIndexBuffer`) and let the driver raise no error of its own. For every
offset and size with `offset + size ≤ c`, every `data` of `size` bytes and
every access mode, `SetVertexBufferSubData(buffer, offset, size, data)`
returns, and mapping the buffer afterwards returns `c` bytes that equal `data`
on `[offset, offset + size)` and equal the contents mapped before the call on
every other byte. The contents before the call are `data0` when that holds `c`
bytes. -/
theorem sub_data_read_back :
    (∀ c data0 usage w b w1, NewVertexBuffer c data0 usage w = .ok (b, w1) →
      (∀ k, w.oracle k = 0) →
      ∀ offset size (data : List Nat), data.length = size → offset + size ≤ c →
      ∀ access, access ∈ bufferAccesses →
      ∃ prev v m w2 w3,
        MapVertexBuffer b access w1 = .ok (some prev, v) ∧
        SetVertexBufferSubData b offset size (some data) w1 = .ok w2 ∧
        MapVertexBuffer b access w2 = .ok (some m, w3) ∧
        prev.length = c ∧ m.length = c ∧
        (∀ i, i < size → m[offset + i]? = data[i]?) ∧
        (∀ i, i < offset ∨ offset + size ≤ i → m[i]? = prev[i]?) ∧
        (∀ d, data0 = some d → d.length = c → prev = d)) ∧
    (∀ c data0 usage w b w1, NewIndexBuffer c data0 usage w = .ok (b, w1) →
      (∀ k, w.oracle k = 0) →
      ∀ offset size (data : List Nat), data.length = size → offset + size ≤ c →
      ∀ access, access ∈ bufferAccesses →
      ∃ prev v m w2 w3,
        MapIndexBuffer b access w1 = .ok (some prev, v) ∧
        SetIndexBufferSubData b offset size (some data) w1 = .ok w2 ∧
        MapIndexBuffer b access w2 = .ok (some m, w3) ∧
        prev.length = c ∧ m.length = c ∧
        (∀ i, i < size → m[offset + i]? = data[i]?) ∧
        (∀ i, i < offset ∨ offset + size ≤ i → m[i]? = prev[i]?) ∧
        (∀ d, data0 = some d → d.length = c → prev = d)) := by
  constructor
  · intro c data0 usage w b w1 hnew hq offset size data hlen hrange access hacc
    obtain ⟨he, ho, _, hb, hbuf⟩ := NewVertexBuffer_created c data0 usage w b w1 hnew
    have hq1 : ∀ k, w1.oracle k = 0 := by rw [ho]; exact hq
    have hbytes : (w1.buffers b).bytes = readBytes w.junk data0 c := by rw [hbuf]
    have hmap : (w1.buffers b).mapped = false := by rw [hbuf]
    have hsize : (w1.buffers b).bytes.length = c := by rw [hbytes, readBytes_length]
    obtain ⟨v, hv⟩ := MapVertexBuffer_quiet b access w1 hq1 he hb hmap hacc
    obtain ⟨w2, hw2, he2, ho2, hbuf2⟩ :=
      SetVertexBufferSubData_quiet b offset size (some data) w1 hq1 he hb hmap (by omega)
    obtain ⟨w3, hw3⟩ := MapVertexBuffer_quiet b access w2 (by rw [ho2]; exact hq1) he2 hb
      (by rw [hbuf2]) hacc
    subst hlen
    rw [hbuf2, readBytes_some] at hw3
    obtain ⟨h1, h2, h3⟩ := overwrite_spec (w1.buffers b).bytes data offset (by omega)
    refine ⟨_, v, _, w2, w3, hv, hw2, hw3, hsize, by rw [h1, hsize], h2, h3, ?_⟩
    intro d hd hdl
    subst hd hdl
    rw [hbytes, readBytes_some]
  · intro c data0 usage w b w1 hnew hq offset size data hlen hrange access hacc
    obtain ⟨he, ho, _, hb, hbuf⟩ := NewIndexBuffer_created c data0 usage w b w1 hnew
    have hq1 : ∀ k, w1.oracle k = 0 := by rw [ho]; exact hq
    have hbytes : (w1.buffers b).bytes = readBytes w.junk data0 c := by rw [hbuf]
    have hmap : (w1.buffers b).mapped = false := by rw [hbuf]
    have hsize : (w1.buffers b).bytes.length = c := by rw [hbytes, readBytes_length]
    obtain ⟨v, hv⟩ := MapIndexBuffer_quiet b access w1 hq1 he hb hmap hacc
    obtain ⟨w2, hw2, he2, ho2, hbuf2⟩ :=
      SetIndexBufferSubData_quiet b offset size (some data) w1 hq1 he hb hmap (by omega)
    obtain ⟨w3, hw3⟩ := MapIndexBuffer_quiet b access w2 (by rw [ho2]; exact hq1) he2 hb
      (by rw [hbuf2]) hacc
    subst hlen
    rw [hbuf2, readBytes_some] at hw3
    obtain ⟨h1, h2, h3⟩ := overwrite_spec (w1.buffers b).bytes data offset (by omega)
    refine ⟨_, v, _, w2, w3, hv, hw2, hw3, hsize, by rw [h1, hsize], h2, h3, ?_⟩
    intro d hd hdl
    subst hd hdl
    rw [hbytes, readBytes_some]

/-- The scenario of a 64-byte static buffer without initial data: creation
returns, writing `[1, 2, 3, 4]` at offset 0 returns, and the mapped bytes start
with `[1, 2, 3, 4]`. -/
theorem sub_data_read_back_witness :
    (∃ b w1, NewVertexBuffer 64 none GL_STATIC_DRAW World.initial = .ok (b, w1) ∧
      ∃ prev v m w2 w3,
        MapVertexBuffer b GL_READ_ONLY w1 = .ok (some prev, v) ∧
        SetVertexBufferSubData b 0 4 (some [1, 2, 3, 4]) w1 = .ok w2 ∧
        MapVertexBuffer b GL_READ_ONLY w2 = .ok (some m, w3) ∧
        prev.length = 64 ∧ m.length = 64 ∧
        (∀ i, i < 4 → m[0 + i]? = [1, 2, 3, 4][i]?) ∧
        (∀ i, i < 0 ∨ 0 + 4 ≤ i → m[i]? = prev[i]?) ∧
        (∀ d, none = some d → d.length = 64 → prev = d)) ∧
    (∃ b w1, NewIndexBuffer 64 none GL_STATIC_DRAW World.initial = .ok (b, w1) ∧
      ∃ prev v m w2 w3,
        MapIndexBuffer b GL_READ_ONLY w1 = .ok (some prev, v) ∧
        SetIndexBufferSubData b 0 4 (some [1, 2, 3, 4]) w1 = .ok w2 ∧
        MapIndexBuffer b GL_READ_ONLY w2 = .ok (some m, w3) ∧
        prev.length = 64 ∧ m.length = 64 ∧
        (∀ i, i < 4 → m[0 + i]? = [1, 2, 3, 4][i]?) ∧
        (∀ i, i < 0 ∨ 0 + 4 ≤ i → m[i]? = prev[i]?) ∧
        (∀ d, none = some d → d.length = 64 → prev = d)) ∧
    (do
      let (b, w) ← NewVertexBuffer 64 none GL_STATIC_DRAW World.initial
      let w ← SetVertexBufferSubData b 0 4 (some [1, 2, 3, 4]) w
      let (m, _) ← MapVertexBuffer b GL_READ_ONLY w
      pure (m.map (List.take 4))).toOption = some (some [1, 2, 3, 4]) :=
  ⟨⟨_, _, rfl, sub_data_read_back.1 64 none GL_STATIC_DRAW World.initial _ _ rfl
      (fun _ => rfl) 0 4 [1, 2, 3, 4] rfl (by decide) GL_READ_ONLY (by decide)⟩,
   ⟨_, _, rfl, sub_data_read_back.2 64 none GL_STATIC_DRAW World.initial _ _ rfl
      (fun _ => rfl) 0 4 [1, 2, 3, 4] rfl (by decide) GL_READ_ONLY (by decide)⟩,
   rfl⟩

theorem glBindBufferARB_buffers (target b : Nat) (w : World) :
    (glBindBufferARB target b w).buffers = w.buffers := by
  simp only [glBindBufferARB, World.driver, World.raise]
  split_ifs <;> rfl

theorem CHECK_GL_ERROR_error (w : World) (h : w.error ≠ 0) :
    CHECK_GL_ERROR w = .error (.glError w.error,
      { w with error := 0, messages := w.messages ++ [.glError w.error] }) := by
  simp [CHECK_GL_ERROR, h]

/-- A range that leaves the store makes `glBufferSubDataARB` raise an error and
change no store. -/
theorem glBufferSubDataARB_out_of_range (target offset size : Nat)
    (data : Option (List Nat)) (w : World)
    (h : (w.buffers (w.boundBuffer target)).bytes.length < offset + size) :
    (glBufferSubDataARB target offset size data w).error ≠ 0 ∧
    (glBufferSubDataARB target offset size data w).buffers = w.buffers ∧
    (w.error = 0 → w.oracle w.log.length = 0 → w.boundBuffer target ≠ 0 →
      (w.buffers (w.boundBuffer target)).mapped = false →
      (glBufferSubDataARB target offset size data w).error = GL_INVALID_VALUE) := by
  simp only [glBufferSubDataARB, World.driver, World.raise, World.boundBuffer] at h ⊢
  split_ifs <;> simp_all [GL_INVALID_OPERATION, GL_INVALID_VALUE]

/-- C5. For every buffer whose store holds fewer than `offset + size` bytes,
`SetVertexBufferSubData` and `SetIndexBufferSubData` do not return: the program
stops on the error check (with the driver error `GL_INVALID_VALUE` when the
state was clean, the driver raises nothing else, and the buffer is a named,
unmapped one), and in the state in which it stops every buffer store is as it
was before the call. -/
theorem sub_data_out_of_range_rejected :
    (∀ buffer offset size data w,
      (w.buffers buffer).bytes.length < offset + size →
      ∃ e w1, e ≠ 0 ∧
        SetVertexBufferSubData buffer offset size data w = .error (.glError e, w1) ∧
        w1.buffers = w.buffers ∧
        (w.error = 0 → (∀ k, w.oracle k = 0) → buffer ≠ 0 →
          (w.buffers buffer).mapped = false → e = GL_INVALID_VALUE)) ∧
    (∀ buffer offset size data w,
      (w.buffers buffer).bytes.length < offset + size →
      ∃ e w1, e ≠ 0 ∧
        SetIndexBufferSubData buffer offset size data w = .error (.glError e, w1) ∧
        w1.buffers = w.buffers ∧
        (w.error = 0 → (∀ k, w.oracle k = 0) → buffer ≠ 0 →
          (w.buffers buffer).mapped = false → e = GL_INVALID_VALUE)) := by
  constructor
  · intro buffer offset size data w hlt
    by_cases h1 : (glBindBufferARB GL_ARRAY_BUFFER_ARB buffer w).error = 0
    · obtain ⟨he, hw⟩ := glBindBufferARB_array_ok buffer w h1
      have hbound : (glBindBufferARB GL_ARRAY_BUFFER_ARB buffer w).boundBuffer
          GL_ARRAY_BUFFER_ARB = buffer := by rw [hw]; simp [World.boundBuffer]
      obtain ⟨h2, h3, h4⟩ := glBufferSubDataARB_out_of_range GL_ARRAY_BUFFER_ARB offset size
        data (glBindBufferARB GL_ARRAY_BUFFER_ARB buffer w)
        (by rw [hbound, glBindBufferARB_buffers]; exact hlt)
      have key : SetVertexBufferSubData buffer offset size data w = .error
          (.glError (glBufferSubDataARB GL_ARRAY_BUFFER_ARB offset size data
              (glBindBufferARB GL_ARRAY_BUFFER_ARB buffer w)).error,
            { glBufferSubDataARB GL_ARRAY_BUFFER_ARB offset size data
                (glBindBufferARB GL_ARRAY_BUFFER_ARB buffer w) with
              error := 0
              messages := (glBufferSubDataARB GL_ARRAY_BUFFER_ARB offset size data
                (glBindBufferARB GL_ARRAY_BUFFER_ARB buffer w)).messages ++
                [.glError (glBufferSubDataARB GL_ARRAY_BUFFER_ARB offset size data
                  (glBindBufferARB GL_ARRAY_BUFFER_ARB buffer w)).error] }) := by
        simp only [SetVertexBufferSubData, bind, Except.bind]
        rw [(CHECK_GL_ERROR_ok _ _).2 ⟨h1, rfl⟩]
        simp only []
        rw [CHECK_GL_ERROR_error _ h2]
      refine ⟨_, _, h2, key, ?_, ?_⟩
      · simp [h3, glBindBufferARB_buffers]
      · intro _ hq hb hm
        apply h4 h1
        · rw [hw]; exact hq _
        · rw [hbound]; exact hb
        · rw [hbound, glBindBufferARB_buffers]; exact hm
    · have key : SetVertexBufferSubData buffer offset size data w = .error
          (.glError (glBindBufferARB GL_ARRAY_BUFFER_ARB buffer w).error,
            { glBindBufferARB GL_ARRAY_BUFFER_ARB buffer w with
              error := 0
              messages := (glBindBufferARB GL_ARRAY_BUFFER_ARB buffer w).messages ++
                [.glError (glBindBufferARB GL_ARRAY_BUFFER_ARB buffer w).error] }) := by
        simp only [SetVertexBufferSubData, bind, Except.bind]
        rw [CHECK_GL_ERROR_error _ h1]
      refine ⟨_, _, h1, key, ?_, ?_⟩
      · simp [glBindBufferARB_buffers]
      · intro he hq _ _
        exact absurd (by simp [glBindBufferARB, World.driver, hq, he]) h1
  · intro buffer offset size data w hlt
    by_cases h1 : (glBindBufferARB GL_ELEMENT_ARRAY_BUFFER_ARB buffer w).error = 0
    · obtain ⟨he, hw⟩ := glBindBufferARB_element_ok buffer w h1
      have hbound : (glBindBufferARB GL_ELEMENT_ARRAY_BUFFER_ARB buffer w).boundBuffer
          GL_ELEMENT_ARRAY_BUFFER_ARB = buffer := by
        rw [hw]; simp [World.boundBuffer, element_ne_array]
      obtain ⟨h2, h3, h4⟩ := glBufferSubDataARB_out_of_range GL_ELEMENT_ARRAY_BUFFER_ARB
        offset size data (glBindBufferARB GL_ELEMENT_ARRAY_BUFFER_ARB buffer w)
        (by rw [hbound, glBindBufferARB_buffers]; exact hlt)
      have key : SetIndexBufferSubData buffer offset size data w = .error
          (.glError (glBufferSubDataARB GL_ELEMENT_ARRAY_BUFFER_ARB offset size data
              (glBindBufferARB GL_ELEMENT_ARRAY_BUFFER_ARB buffer w)).error,
            { glBufferSubDataARB GL_ELEMENT_ARRAY_BUFFER_ARB offset size data
                (glBindBufferARB GL_ELEMENT_ARRAY_BUFFER_ARB buffer w) with
              error := 0
              messages := (glBufferSubDataARB GL_ELEMENT_ARRAY_BUFFER_ARB offset size data
                (glBindBufferARB GL_ELEMENT_ARRAY_BUFFER_ARB buffer w)).messages ++
                [.glError (glBufferSubDataARB GL_ELEMENT_ARRAY_BUFFER_ARB offset size data
                  (glBindBufferARB GL_ELEMENT_ARRAY_BUFFER_ARB buffer w)).error] }) := by
        simp only [SetIndexBufferSubData, bind, Except.bind]
        rw [(CHECK_GL_ERROR_ok _ _).2 ⟨h1, rfl⟩]
        simp only []
        rw [CHECK_GL_ERROR_error _ h2]
      refine ⟨_, _, h2, key, ?_, ?_⟩
      · simp [h3, glBindBufferARB_buffers]
      · intro _ hq hb hm
        apply h4 h1
        · rw [hw]; exact hq _
        · rw [hbound]; exact hb
        · rw [hbound, glBindBufferARB_buffers]; exact hm
    · have key : SetIndexBufferSubData buffer offset size data w = .error
          (.glError (glBindBufferARB GL_ELEMENT_ARRAY_BUFFER_ARB buffer w).error,
            { glBindBufferARB GL_ELEMENT_ARRAY_BUFFER_ARB buffer w with
              error := 0
              messages := (glBindBufferARB GL_ELEMENT_ARRAY_BUFFER_ARB buffer w).messages ++
                [.glError (glBindBufferARB GL_ELEMENT_ARRAY_BUFFER_ARB buffer w).error] }) := by
        simp only [SetIndexBufferSubData, bind, Except.bind]
        rw [CHECK_GL_ERROR_error _ h1]
      refine ⟨_, _, h1, key, ?_, ?_⟩
      · simp [glBindBufferARB_buffers]
      · intro he hq _ _
        exact absurd (by simp [glBindBufferARB, World.driver, hq, he, element_ne_array]) h1

/-- On the sample state buffer 1 holds eight bytes: writing four bytes at offset
6 stops the program with `GL_INVALID_VALUE`. -/
theorem sub_data_out_of_range_rejected_witness :
    (∃ e w1, e ≠ 0 ∧
      SetVertexBufferSubData 1 6 4 (some [1, 2, 3, 4]) World.sample = .error (.glError e, w1) ∧
      w1.buffers = World.sample.buffers ∧
      (World.sample.error = 0 → (∀ k, World.sample.oracle k = 0) → 1 ≠ 0 →
        (World.sample.buffers 1).mapped = false → e = GL_INVALID_VALUE)) ∧
    (∃ e w1, e ≠ 0 ∧
      SetIndexBufferSubData 1 6 4 (some [1, 2, 3, 4]) World.sample = .error (.glError e, w1) ∧
      w1.buffers = World.sample.buffers ∧
      (World.sample.error = 0 → (∀ k, World.sample.oracle k = 0) → 1 ≠ 0 →
        (World.sample.buffers 1).mapped = false → e = GL_INVALID_VALUE)) ∧
    SetVertexBufferSubData 1 6 4 (some [1, 2, 3, 4]) World.sample
      = .error (.glError GL_INVALID_VALUE,
          { World.sample with
            log := [.glBindBufferARB GL_ARRAY_BUFFER_ARB 1,
              .glBufferSubDataARB GL_ARRAY_BUFFER_ARB 6 4 (some [1, 2, 3, 4])]
            messages := [.glError GL_INVALID_VALUE]
            arrayBuffer := 1 }) :=
  ⟨sub_data_out_of_range_rejected.1 1 6 4 (some [1, 2, 3, 4]) World.sample (by decide),
   sub_data_out_of_range_rejected.2 1 6 4 (some [1, 2, 3, 4]) World.sample (by decide),
   rfl⟩

/-! ## Texture manager -/

theorem World.driver_log (c : GLCall) (effect : World → World) (w : World)
    (h : ∀ v, (effect v).log = v.log) : (w.driver c effect).log = w.log ++ [c] := by
  simp only [World.driver, World.raise]
  split
  · rw [h]
  · rfl

theorem World.driver_ok (c : GLCall) (effect : World → World) (w : World)
    (h : (w.driver c effect).error = 0) :
    w.oracle w.log.length = 0 ∧ w.driver c effect = effect { w with log := w.log ++ [c] } := by
  revert h
  simp only [World.driver, World.raise]
  split_ifs <;> simp_all

theorem glBindTexture_log (target texture : Nat) (w : World) :
    (glBindTexture target texture w).log = w.log ++ [.glBindTexture target texture] := by
  apply World.driver_log
  intro v; simp only [World.raise]; split <;> rfl

theorem glTexParameteri_log (target pname param : Nat) (w : World) :
    (glTexParameteri target pname param w).log
      = w.log ++ [.glTexParameteri target pname param] :=
  World.driver_log _ _ _ fun _ => rfl

theorem World.setImage_log (level width height : Nat) (w : World) :
    (w.setImage level width height).log = w.log := by
  simp only [World.setImage]; split_ifs <;> rfl

theorem glTexImage2D_log (target level internalformat width height border format type : Nat)
    (pixels : Option (List Nat)) (w : World) :
    (glTexImage2D target level internalformat width height border format type pixels w).log
      = w.log ++ [.glTexImage2D target level internalformat width height border format type
          pixels] := by
  apply World.driver_log
  intro v; simp only [World.raise]; split
  · exact World.setImage_log _ _ _ _
  · rfl

theorem glCompressedTexImage2D_log
    (target level internalformat width height border imageSize : Nat)
    (data : Option (List Nat)) (w : World) :
    (glCompressedTexImage2D target level internalformat width height border imageSize data w).log
      = w.log ++ [.glCompressedTexImage2D target level internalformat width height border
          imageSize data] := by
  apply World.driver_log
  intro v; simp only [World.raise]; split
  · exact World.setImage_log _ _ _ _
  · rfl

/-- A `SetTexture` that returns has made exactly the calls of
`SetTexture.calls`. -/
theorem SetTexture_log (tex : Texture) (p : TextureParams) (w w1 : World)
    (h : SetTexture (some tex) p w = .ok w1) :
    w1.log = w.log ++ SetTexture.calls tex.m_Texture p := by
  simp only [SetTexture, Run.bind_ok, CHECK_GL_ERROR_ok] at h
  obtain ⟨_, ⟨_, rfl⟩, _, ⟨_, rfl⟩, _, ⟨_, rfl⟩, _, ⟨_, rfl⟩, _, ⟨_, rfl⟩, _, ⟨_, rfl⟩,
    ⟨gl_format, gl_type, internal_format, w7⟩, h7, h8⟩ := h
  cases hf : p.m_Format <;>
    simp only [hf, SetTexture.formats, SetTexture.upload, Run.bind_ok, CHECK_GL_ERROR_ok,
      Run.pure_ok, Prod.mk.injEq, reduceCtorEq] at h7 h8 <;>
    simp only [SetTexture.calls, hf]
  all_goals first
    | (obtain ⟨rfl, rfl, rfl, rfl⟩ := h7
       obtain ⟨_, rfl⟩ := h8
       by_cases hd : 0 < p.m_DataSize <;>
         simp [hd, glTexImage2D_log, glCompressedTexImage2D_log, glTexParameteri_log,
           glBindTexture_log])
    | (obtain ⟨_, ⟨_, rfl⟩, rfl, rfl, rfl, rfl⟩ := h7
       obtain ⟨_, rfl⟩ := h8
       by_cases hd : 0 < p.m_DataSize <;>
         simp [hd, glTexImage2D_log, glCompressedTexImage2D_log, glTexParameteri_log,
           glBindTexture_log])

theorem SetTexture.calls_compressed (t : Nat) (p : TextureParams)
    (hfmt : p.m_Format.compressed = true) :
    SetTexture.calls t p =
      [ .glBindTexture GL_TEXTURE_2D t,
        .glTexParameteri GL_TEXTURE_2D GL_GENERATE_MIPMAP GL_FALSE,
        .glTexParameteri GL_TEXTURE_2D GL_TEXTURE_MIN_FILTER p.m_MinFilter,
        .glTexParameteri GL_TEXTURE_2D GL_TEXTURE_MAG_FILTER p.m_MagFilter,
        .glTexParameteri GL_TEXTURE_2D GL_TEXTURE_WRAP_S p.m_UWrap,
        .glTexParameteri GL_TEXTURE_2D GL_TEXTURE_WRAP_T p.m_VWrap ] ++
      (if p.m_DataSize > 0 then
        [.glCompressedTexImage2D GL_TEXTURE_2D p.m_MipMap p.m_Format.compressedConstant
          p.m_Width p.m_Height 0 p.m_DataSize p.m_Data]
      else []) := by
  cases hf : p.m_Format <;>
    simp_all [SetTexture.calls, TextureFormat.compressed, TextureFormat.compressedConstant]

theorem SetTexture_quiet (tex : Texture) (p : TextureParams) (w : World)
    (hfmt : p.m_Format.compressed = true) (he : w.error = 0) (hq : ∀ k, w.oracle k = 0) :
    ∃ w1, SetTexture (some tex) p w = .ok w1 := by
  cases hf : p.m_Format <;> simp [hf, TextureFormat.compressed] at hfmt <;>
    by_cases hd : 0 < p.m_DataSize <;>
    simp [SetTexture, SetTexture.formats, SetTexture.upload, glBindTexture, glTexParameteri,
      glCompressedTexImage2D, World.driver, World.setImage, CHECK_GL_ERROR, bind, Except.bind,
      pure, Except.pure, hf, hd, he, hq] <;>
    split_ifs <;> simp_all

/-- C9. For every texture and every params whose format is one of the four
block-compressed formats, a `SetTexture` that returns has made, after the bind
and the five parameter calls, exactly one more call when `m_DataSize > 0`, the
compressed upload with the matching format constant and params' mip level,
width, height, data size and data, and no further call when `m_DataSize = 0`;
so a compressed upload is issued if and only if `m_DataSize > 0`, and no
uncompressed upload is ever issued. In a state without pending error and with a
driver that raises no error of its own the call returns, whatever
`m_DataSize` is. -/
theorem SetTexture_compressed_upload (tex : Texture) (p : TextureParams)
    (hfmt : p.m_Format.compressed = true) :
    (∀ w w1, SetTexture (some tex) p w = .ok w1 →
      w1.log = w.log ++
        [ .glBindTexture GL_TEXTURE_2D tex.m_Texture,
          .glTexParameteri GL_TEXTURE_2D GL_GENERATE_MIPMAP GL_FALSE,
          .glTexParameteri GL_TEXTURE_2D GL_TEXTURE_MIN_FILTER p.m_MinFilter,
          .glTexParameteri GL_TEXTURE_2D GL_TEXTURE_MAG_FILTER p.m_MagFilter,
          .glTexParameteri GL_TEXTURE_2D GL_TEXTURE_WRAP_S p.m_UWrap,
          .glTexParameteri GL_TEXTURE_2D GL_TEXTURE_WRAP_T p.m_VWrap ] ++
        (if p.m_DataSize > 0 then
          [.glCompressedTexImage2D GL_TEXTURE_2D p.m_MipMap p.m_Format.compressedConstant
            p.m_Width p.m_Height 0 p.m_DataSize p.m_Data]
        else []) ∧
      ((∃ c ∈ w1.log.drop w.log.length, c.isUpload = true) ↔ p.m_DataSize > 0) ∧
      (∀ a b c d e f g h i,
        GLCall.glTexImage2D a b c d e f g h i ∉ w1.log.drop w.log.length)) ∧
    (∀ w, w.error = 0 → (∀ k, w.oracle k = 0) → ∃ w1, SetTexture (some tex) p w = .ok w1) := by
  refine ⟨?_, fun w he hq => SetTexture_quiet tex p w hfmt he hq⟩
  intro w w1 h
  have hlog := SetTexture_log tex p w w1 h
  rw [SetTexture.calls_compressed _ _ hfmt] at hlog
  refine ⟨by rw [hlog, List.append_assoc], ?_, ?_⟩
  · rw [hlog]
    by_cases hd : 0 < p.m_DataSize <;> simp [hd, GLCall.isUpload]
  · intro a b c d e f g h i
    rw [hlog]
    by_cases hd : 0 < p.m_DataSize <;> simp [hd]

/-- A block-compressed texture without payload on the start-up state: the call
returns, having made the bind and the five parameter calls and no upload. -/
theorem SetTexture_compressed_upload_witness :
    ((∀ w w1, SetTexture (some { m_Texture := 1 }) sampleCompressedParams w = .ok w1 →
      w1.log = w.log ++
        [ .glBindTexture GL_TEXTURE_2D 1,
          .glTexParameteri GL_TEXTURE_2D GL_GENERATE_MIPMAP GL_FALSE,
          .glTexParameteri GL_TEXTURE_2D GL_TEXTURE_MIN_FILTER sampleCompressedParams.m_MinFilter,
          .glTexParameteri GL_TEXTURE_2D GL_TEXTURE_MAG_FILTER sampleCompressedParams.m_MagFilter,
          .glTexParameteri GL_TEXTURE_2D GL_TEXTURE_WRAP_S sampleCompressedParams.m_UWrap,
          .glTexParameteri GL_TEXTURE_2D GL_TEXTURE_WRAP_T sampleCompressedParams.m_VWrap ] ++
        (if sampleCompressedParams.m_DataSize > 0 then
          [.glCompressedTexImage2D GL_TEXTURE_2D sampleCompressedParams.m_MipMap
            sampleCompressedParams.m_Format.compressedConstant
            sampleCompressedParams.m_Width sampleCompressedParams.m_Height 0
            sampleCompressedParams.m_DataSize sampleCompressedParams.m_Data]
        else []) ∧
      ((∃ c ∈ w1.log.drop w.log.length, c.isUpload = true) ↔
        sampleCompressedParams.m_DataSize > 0) ∧
      (∀ a b c d e f g h i,
        GLCall.glTexImage2D a b c d e f g h i ∉ w1.log.drop w.log.length)) ∧
    (∀ w, w.error = 0 → (∀ k, w.oracle k = 0) →
      ∃ w1, SetTexture (some { m_Texture := 1 }) sampleCompressedParams w = .ok w1)) ∧
    (SetTexture (some { m_Texture := 1 }) sampleCompressedParams World.initial).toOption.map
      World.log
      = some [ .glBindTexture GL_TEXTURE_2D 1,
          .glTexParameteri GL_TEXTURE_2D GL_GENERATE_MIPMAP GL_FALSE,
          .glTexParameteri GL_TEXTURE_2D GL_TEXTURE_MIN_FILTER 0x2601,
          .glTexParameteri GL_TEXTURE_2D GL_TEXTURE_MAG_FILTER 0x2601,
          .glTexParameteri GL_TEXTURE_2D GL_TEXTURE_WRAP_S 0x2901,
          .glTexParameteri GL_TEXTURE_2D GL_TEXTURE_WRAP_T 0x2901 ] :=
  ⟨SetTexture_compressed_upload { m_Texture := 1 } sampleCompressedParams rfl, by decide⟩

theorem glEnable_log (cap : Nat) (w : World) :
    (glEnable cap w).log = w.log ++ [.glEnable cap] :=
  World.driver_log _ _ _ fun _ => rfl

theorem glEnable_ok (cap : Nat) (w : World) (h : (glEnable cap w).error = 0) :
    w.error = 0 ∧ glEnable cap w =
      { w with log := w.log ++ [.glEnable cap]
               enabled := fun c => if c = cap then true else w.enabled c } := by
  obtain ⟨_, h2⟩ := World.driver_ok _ _ _ h
  rw [glEnable] at h ⊢
  rw [h2] at h ⊢
  exact ⟨h, rfl⟩

theorem glActiveTexture_ok (texture : Nat) (w : World)
    (h : (glActiveTexture texture w).error = 0) :
    w.error = 0 ∧ GL_TEXTURE0 ≤ texture ∧ texture < GL_TEXTURE0 + 32 ∧
      glActiveTexture texture w =
        { w with log := w.log ++ [.glActiveTexture texture]
                 activeTexture := texture - GL_TEXTURE0 } := by
  revert h
  simp only [glActiveTexture, World.driver, World.raise]
  split_ifs <;> simp_all [GL_INVALID_ENUM]

theorem glBindTexture_ok (texture : Nat) (w : World)
    (h : (glBindTexture GL_TEXTURE_2D texture w).error = 0) :
    w.error = 0 ∧ glBindTexture GL_TEXTURE_2D texture w =
      { w with log := w.log ++ [.glBindTexture GL_TEXTURE_2D texture]
               textureBinding := fun u => if u = w.activeTexture then texture
                                          else w.textureBinding u } := by
  revert h
  simp only [glBindTexture, World.driver, World.raise]
  split_ifs <;> simp_all

theorem TEXTURE_UNIT_NAMES_get (unit : Nat) (h : unit < 32) :
    TEXTURE_UNIT_NAMES[unit]? = some (GL_TEXTURE0 + unit) := by
  interval_cases unit <;> rfl

/-- C10. The table `TEXTURE_UNIT_NAMES` has 32 entries without repetition and
entry `unit` is `GL_TEXTURE0 + unit`. For every unit below 32 and every texture
argument, a `SetTextureUnit` that returns has enabled 2D texturing, made unit
number `unit` the active unit and bound on it `texture->m_Texture` when the
texture is not null and 0 when it is null, by exactly these three driver calls.
With a context, no pending error and a driver that raises no error of its own
the call returns. -/
theorem SetTextureUnit_binds (unit : Nat) (hunit : unit < 32) :
    TEXTURE_UNIT_NAMES.length = 32 ∧ TEXTURE_UNIT_NAMES.Nodup ∧
    TEXTURE_UNIT_NAMES[unit]? = some (GL_TEXTURE0 + unit) ∧
    (∀ context texture w w1, SetTextureUnit context unit texture w = .ok w1 →
      w1.activeTexture = unit ∧
      w1.textureBinding unit = (match texture with
        | some tex => tex.m_Texture
        | none => 0) ∧
      w1.log = w.log ++
        [ .glEnable GL_TEXTURE_2D, .glActiveTexture (GL_TEXTURE0 + unit),
          .glBindTexture GL_TEXTURE_2D (match texture with
            | some tex => tex.m_Texture
            | none => 0) ]) ∧
    (∀ ctx texture w, w.error = 0 → (∀ k, w.oracle k = 0) →
      ∃ w1, SetTextureUnit (some ctx) unit texture w = .ok w1) := by
  refine ⟨rfl, by decide, TEXTURE_UNIT_NAMES_get unit hunit, ?_, ?_⟩
  · intro context texture w w1 h
    cases context with
    | none => simp [SetTextureUnit] at h
    | some ctx =>
      simp only [SetTextureUnit, Run.bind_ok, CHECK_GL_ERROR_ok, TEXTURE_UNIT_NAMES_get unit hunit]
        at h
      obtain ⟨_, ⟨h1, rfl⟩, h3, rfl⟩ := h
      obtain ⟨h2, q3⟩ := glBindTexture_ok _ _ h3
      obtain ⟨_, _, _, q2⟩ := glActiveTexture_ok _ _ h2
      obtain ⟨_, q1⟩ := glEnable_ok _ _ h1
      rw [q3, q2, q1]
      simp
  · intro ctx texture w he hq
    simp [SetTextureUnit, TEXTURE_UNIT_NAMES_get unit hunit, glEnable, glActiveTexture,
      glBindTexture, World.driver, CHECK_GL_ERROR, bind, Except.bind, he, hq, hunit]

/-- Unit 5 on the start-up state, once with the texture named 9 and once with
the null texture: the calls return with unit 5 active and 9, resp. 0, bound. -/
theorem SetTextureUnit_binds_witness :
    (TEXTURE_UNIT_NAMES.length = 32 ∧ TEXTURE_UNIT_NAMES.Nodup ∧
    TEXTURE_UNIT_NAMES[5]? = some (GL_TEXTURE0 + 5) ∧
    (∀ context texture w w1, SetTextureUnit context 5 texture w = .ok w1 →
      w1.activeTexture = 5 ∧
      w1.textureBinding 5 = (match texture with
        | some tex => tex.m_Texture
        | none => 0) ∧
      w1.log = w.log ++
        [ .glEnable GL_TEXTURE_2D, .glActiveTexture (GL_TEXTURE0 + 5),
          .glBindTexture GL_TEXTURE_2D (match texture with
            | some tex => tex.m_Texture
            | none => 0) ]) ∧
    (∀ ctx texture w, w.error = 0 → (∀ k, w.oracle k = 0) →
      ∃ w1, SetTextureUnit (some ctx) 5 texture w = .ok w1)) ∧
    (SetTextureUnit (some {}) 5 (some { m_Texture := 9 }) World.initial).toOption.map
      (fun w => (w.activeTexture, w.textureBinding 5, w.textureBinding 0)) = some (5, 9, 0) ∧
    (SetTextureUnit (some {}) 5 none World.initial).toOption.map
      (fun w => (w.activeTexture, w.textureBinding 5)) = some (5, 0) :=
  ⟨SetTextureUnit_binds 5 (by decide), by decide, by decide⟩

/-! ## Render target manager -/

theorem glGenTextures_log (out : Nat) (w : World) :
    (glGenTextures out w).2.log = w.log ++ [.glGenTextures] := by
  simp only [glGenTextures, World.raise]
  split <;> rfl

theorem glGenFramebuffers_log (out : Nat) (w : World) :
    (glGenFramebuffers out w).2.log = w.log ++ [.glGenFramebuffers] := by
  simp only [glGenFramebuffers, World.raise]
  split <;> rfl

theorem glBindFramebuffer_log (target framebuffer : Nat) (w : World) :
    (glBindFramebuffer target framebuffer w).log
      = w.log ++ [.glBindFramebuffer target framebuffer] := by
  apply World.driver_log
  intro v; simp only [World.raise]; split <;> rfl

theorem glFramebufferTexture2D_log (target attachment textarget texture level : Nat)
    (w : World) :
    (glFramebufferTexture2D target attachment textarget texture level w).log
      = w.log ++ [.glFramebufferTexture2D target attachment textarget texture level] := by
  apply World.driver_log
  intro v; simp only [World.raise]; split_ifs <;> rfl

theorem glDrawBuffer_log (mode : Nat) (w : World) :
    (glDrawBuffer mode w).log = w.log ++ [.glDrawBuffer mode] :=
  World.driver_log _ _ _ fun _ => rfl

/-- A `NewTexture` that returns gives a non-null texture and has made
`glGenTextures` followed by the calls of `SetTexture`. -/
theorem NewTexture_log (p : TextureParams) (w : World) (r : HTexture) (w1 : World)
    (h : NewTexture p w = .ok (r, w1)) :
    ∃ tex, r = some tex ∧
      w1.log = w.log ++ .glGenTextures :: SetTexture.calls tex.m_Texture p := by
  simp only [NewTexture, Run.bind_ok, CHECK_GL_ERROR_ok, Run.pure_ok] at h
  obtain ⟨_, ⟨_, rfl⟩, w3, h2, h3⟩ := h
  obtain ⟨rfl, rfl⟩ := Prod.mk.inj h3
  refine ⟨_, rfl, ?_⟩
  rw [SetTexture_log _ _ _ _ h2, glGenTextures_log]
  simp

theorem tables_get (bt : BufferTypes) (i : Nat) (h : i < 3) :
    ∃ type attachment, (BUFFER_TYPES bt)[i]? = some type ∧
      buffer_attachments[i]? = some attachment := by
  interval_cases i <;> simp [BUFFER_TYPES, buffer_attachments]

theorem NewRenderTarget.slotCalls_skip (bt : BufferTypes) (flags : Nat)
    (params : List TextureParams) (rt : RenderTarget) (i type : Nat)
    (hT : (BUFFER_TYPES bt)[i]? = some type) (hreq : flags &&& type = 0) :
    NewRenderTarget.slotCalls bt flags params rt i = [] := by
  unfold NewRenderTarget.slotCalls
  split
  · rename_i h1 _ _ _
    rw [hT] at h1
    obtain rfl := Option.some.inj h1
    simp [hreq]
  · rfl

/-- What the loop of `NewRenderTarget` has done when it returns. -/
theorem NewRenderTarget.loop_textures (bt : BufferTypes) (flags : Nat)
    (params : List TextureParams) :
    ∀ (n i : Nat) (rt : RenderTarget) (w : World) (rt1 : RenderTarget) (w1 : World),
      i + n = 3 → rt.m_BufferTextures.length = 3 →
      NewRenderTarget.loop bt flags params n i rt w = .ok (rt1, w1) →
      rt1.m_Id = rt.m_Id ∧ rt1.m_BufferTextures.length = 3 ∧
      (∀ j, j < i → rt1.m_BufferTextures[j]? = rt.m_BufferTextures[j]?) ∧
      (∀ j type, i ≤ j → (BUFFER_TYPES bt)[j]? = some type →
        (flags &&& type ≠ 0 → ∃ tex p, params[j]? = some p ∧
          rt1.m_BufferTextures[j]? = some (some tex)) ∧
        (flags &&& type = 0 → rt1.m_BufferTextures[j]? = rt.m_BufferTextures[j]?)) ∧
      w1.log = w.log ++
        ((List.range' i n).map (NewRenderTarget.slotCalls bt flags params rt1)).flatten := by
  intro n
  induction n with
  | zero =>
    intro i rt w rt1 w1 hi hlen h
    simp only [NewRenderTarget.loop, Run.pure_ok, Prod.mk.injEq] at h
    obtain ⟨rfl, rfl⟩ := h
    refine ⟨rfl, hlen, fun _ _ => rfl, ?_, by simp⟩
    intro j type hj hty
    have : j < 3 := by
      by_contra hge
      have : (BUFFER_TYPES bt)[j]? = none := by simp [BUFFER_TYPES]; omega
      simp [this] at hty
    omega
  | succ n ih =>
    intro i rt w rt1 w1 hi hlen h
    obtain ⟨type, attachment, hT, hA⟩ := tables_get bt i (by omega)
    by_cases hreq : flags &&& type = 0
    · simp only [NewRenderTarget.loop, hT, hA, hreq, ne_eq, not_true_eq_false, if_false] at h
      obtain ⟨h1, h2, h3, h4, h5⟩ := ih (i + 1) rt w rt1 w1 (by omega) hlen h
      refine ⟨h1, h2, fun j hj => h3 j (by omega), ?_, ?_⟩
      · intro j ty hj hty
        by_cases hij : j = i
        · subst hij
          rw [hT] at hty
          obtain rfl := Option.some.inj hty
          exact ⟨fun hne => absurd hreq hne, fun _ => h3 j (by omega)⟩
        · exact h4 j ty (by omega) hty
      · rw [h5, List.range'_succ]
        simp [NewRenderTarget.slotCalls_skip bt flags params rt1 i type hT hreq]
    · simp only [NewRenderTarget.loop, hT, hA, ne_eq, hreq, not_false_eq_true, if_true] at h
      cases hp : params[i]? with
      | none => simp [hp] at h
      | some p =>
        simp only [hp, Run.bind_ok] at h
        obtain ⟨⟨r, w2⟩, hnew, h⟩ := h
        obtain ⟨tex, rfl, hlog⟩ := NewTexture_log p w r w2 hnew
        simp only [Run.bind_ok, CHECK_GL_ERROR_ok] at h
        obtain ⟨_, ⟨_, rfl⟩, h⟩ := h
        obtain ⟨h1, h2, h3, h4, h5⟩ := ih (i + 1) _ _ rt1 w1 (by omega) (by simp [hlen]) h
        have hslot : rt1.m_BufferTextures[i]? = some (some tex) := by
          rw [h3 i (by omega)]
          have : i < rt.m_BufferTextures.length := by omega
          simp [this]
        refine ⟨h1, h2, ?_, ?_, ?_⟩
        · intro j hj
          rw [h3 j (by omega)]
          have : i ≠ j := by omega
          simp [this]
        · intro j ty hj hty
          by_cases hij : j = i
          · subst hij
            rw [hT] at hty
            obtain rfl := Option.some.inj hty
            exact ⟨fun _ => ⟨tex, p, hp, hslot⟩, fun h0 => absurd h0 hreq⟩
          · obtain ⟨g1, g2⟩ := h4 j ty (by omega) hty
            refine ⟨g1, fun h0 => ?_⟩
            rw [g2 h0]
            have : i ≠ j := by omega
            simp [this]
        · rw [h5, glFramebufferTexture2D_log, hlog, List.range'_succ]
          simp [NewRenderTarget.slotCalls, hT, hA, hp, hslot, hreq]
theorem SetTexture.calls_kind (t : Nat) (p : TextureParams) :
    GLCall.glGenTextures ∉ SetTexture.calls t p ∧
    ∀ mode, GLCall.glDrawBuffer mode ∉ SetTexture.calls t p := by
  cases hf : p.m_Format <;> by_cases hd : 0 < p.m_DataSize <;>
    simp [SetTexture.calls, hf, hd]

theorem NewRenderTarget.slotCalls_kind (bt : BufferTypes) (flags : Nat)
    (params : List TextureParams) (rt : RenderTarget) (i type : Nat)
    (hT : (BUFFER_TYPES bt)[i]? = some type)
    (hslot : flags &&& type ≠ 0 → ∃ tex p, params[i]? = some p ∧
      rt.m_BufferTextures[i]? = some (some tex)) :
    (NewRenderTarget.slotCalls bt flags params rt i).count .glGenTextures
      = (if flags &&& type ≠ 0 then 1 else 0) ∧
    ∀ mode, GLCall.glDrawBuffer mode ∉ NewRenderTarget.slotCalls bt flags params rt i := by
  by_cases hreq : flags &&& type = 0
  · rw [NewRenderTarget.slotCalls_skip bt flags params rt i type hT hreq]
    simp [hreq]
  · obtain ⟨tex, p, hp, hs⟩ := hslot hreq
    obtain ⟨attachment, hA⟩ : ∃ a, buffer_attachments[i]? = some a := by
      have hi : i < 3 := by
        by_contra hge
        have : (BUFFER_TYPES bt)[i]? = none := by simp [BUFFER_TYPES]; omega
        simp [this] at hT
      obtain ⟨_, a, _, ha⟩ := tables_get bt i hi
      exact ⟨a, ha⟩
    have h1 := (SetTexture.calls_kind tex.m_Texture p).1
    have h2 := (SetTexture.calls_kind tex.m_Texture p).2
    simp [NewRenderTarget.slotCalls, hT, hA, hp, hs, hreq, List.count_cons, List.count_append,
      List.count_eq_zero.2 h1, h2]

/-- C6. When `NewRenderTarget` returns `rt` (the new record having its three
texture slots), then for each slot `i` of color, depth, stencil: if
`buffer_type_flags & BUFFER_TYPES[i]` is not zero, `params[i]` was read and the
slot holds a texture, and otherwise the slot is as `new` left it. The driver
calls made are: the framebuffer is generated and bound; for each requested slot
in order, the calls of `NewTexture(params[i])` and the attachment of that
texture to color attachment 0, the depth attachment, resp. the stencil
attachment; `glDrawBuffer(GL_NONE)` if and only if the color bit is absent;
the framebuffer is unbound. Exactly one texture is generated per requested
slot and none for the others. -/
theorem NewRenderTarget_textures (bt : BufferTypes) (fresh : RenderTarget) (flags : Nat)
    (params : List TextureParams) (w : World) (rt : RenderTarget) (w1 : World)
    (h : NewRenderTarget bt fresh flags params w = .ok (rt, w1))
    (hlen : fresh.m_BufferTextures.length = MAX_BUFFER_TYPE_COUNT) :
    (∀ (i type : Nat), (BUFFER_TYPES bt)[i]? = some type →
      (flags &&& type ≠ 0 → ∃ tex p, params[i]? = some p ∧
        rt.m_BufferTextures[i]? = some (some tex)) ∧
      (flags &&& type = 0 → rt.m_BufferTextures[i]? = fresh.m_BufferTextures[i]?)) ∧
    w1.log = w.log ++
      [.glGenFramebuffers, .glBindFramebuffer GL_FRAMEBUFFER_EXT rt.m_Id] ++
      NewRenderTarget.slotCalls bt flags params rt 0 ++
      NewRenderTarget.slotCalls bt flags params rt 1 ++
      NewRenderTarget.slotCalls bt flags params rt 2 ++
      (if flags &&& bt.BUFFER_TYPE_COLOR = 0 then [.glDrawBuffer GL_NONE] else []) ++
      [.glBindFramebuffer GL_FRAMEBUFFER_EXT 0] ∧
    (w1.log.drop w.log.length).count .glGenTextures
      = ((BUFFER_TYPES bt).filter fun type => flags &&& type ≠ 0).length ∧
    (GLCall.glDrawBuffer GL_NONE ∈ w1.log.drop w.log.length ↔
      flags &&& bt.BUFFER_TYPE_COLOR = 0) := by
  simp only [NewRenderTarget, Run.bind_ok, CHECK_GL_ERROR_ok, Run.pure_ok] at h
  obtain ⟨_, ⟨_, rfl⟩, _, ⟨_, rfl⟩, ⟨rt2, w4⟩, hloop, w5, hdraw, _, ⟨_, rfl⟩, w7, hfb, h7⟩ := h
  simp only [Prod.mk.injEq] at h7
  obtain ⟨rfl, rfl⟩ := h7
  simp only [MAX_BUFFER_TYPE_COUNT] at hloop hlen
  have hw7 : w7.log = (glBindFramebuffer GL_FRAMEBUFFER_EXT 0 w5).log := by
    simp only [CHECK_GL_FRAMEBUFFER_ERROR] at hfb
    split at hfb
    · simp at hfb
    · simp only [Except.ok.injEq] at hfb; rw [← hfb]
  obtain ⟨hid, _, _, hslots, hlog⟩ :=
    NewRenderTarget.loop_textures bt flags params 3 0
      { m_Id := (glGenFramebuffers fresh.m_Id w).1, m_BufferTextures := fresh.m_BufferTextures }
      (glBindFramebuffer GL_FRAMEBUFFER_EXT (glGenFramebuffers fresh.m_Id w).1
        (glGenFramebuffers fresh.m_Id w).2)
      rt2 w4 rfl hlen hloop
  simp only [] at hid hslots hlog
  have hslots0 : ∀ (i type : Nat), (BUFFER_TYPES bt)[i]? = some type →
      (flags &&& type ≠ 0 → ∃ tex p, params[i]? = some p ∧
        rt2.m_BufferTextures[i]? = some (some tex)) ∧
      (flags &&& type = 0 → rt2.m_BufferTextures[i]? = fresh.m_BufferTextures[i]?) :=
    fun i type hT => hslots i type (Nat.zero_le i) hT
  have hw5 : w5.log = w4.log ++
      (if flags &&& bt.BUFFER_TYPE_COLOR = 0 then [.glDrawBuffer GL_NONE] else []) := by
    by_cases hc : flags &&& bt.BUFFER_TYPE_COLOR = 0
    · simp only [hc, if_true, CHECK_GL_ERROR_ok] at hdraw ⊢
      rw [hdraw.2, glDrawBuffer_log]
    · simp only [hc, if_false, Run.pure_ok] at hdraw ⊢
      rw [← hdraw]; simp
  have hfull : w7.log = w.log ++
      [.glGenFramebuffers, .glBindFramebuffer GL_FRAMEBUFFER_EXT rt2.m_Id] ++
      NewRenderTarget.slotCalls bt flags params rt2 0 ++
      NewRenderTarget.slotCalls bt flags params rt2 1 ++
      NewRenderTarget.slotCalls bt flags params rt2 2 ++
      (if flags &&& bt.BUFFER_TYPE_COLOR = 0 then [.glDrawBuffer GL_NONE] else []) ++
      [.glBindFramebuffer GL_FRAMEBUFFER_EXT 0] := by
    rw [hw7, glBindFramebuffer_log, hw5, hlog, glBindFramebuffer_log, glGenFramebuffers_log, hid]
    simp [List.range']
  have k0 := NewRenderTarget.slotCalls_kind bt flags params rt2 0 bt.BUFFER_TYPE_COLOR rfl
    (hslots0 0 _ rfl).1
  have k1 := NewRenderTarget.slotCalls_kind bt flags params rt2 1 bt.BUFFER_TYPE_DEPTH rfl
    (hslots0 1 _ rfl).1
  have k2 := NewRenderTarget.slotCalls_kind bt flags params rt2 2 bt.BUFFER_TYPE_STENCIL rfl
    (hslots0 2 _ rfl).1
  refine ⟨hslots0, hfull, ?_, ?_⟩
  · rw [hfull]
    simp only [List.append_assoc, List.drop_left, List.count_append, k0.1, k1.1, k2.1]
    by_cases c0 : flags &&& bt.BUFFER_TYPE_COLOR = 0 <;>
      by_cases c1 : flags &&& bt.BUFFER_TYPE_DEPTH = 0 <;>
      by_cases c2 : flags &&& bt.BUFFER_TYPE_STENCIL = 0 <;>
      simp [BUFFER_TYPES, List.filter, c0, c1, c2]
  · rw [hfull]
    simp only [List.append_assoc, List.drop_left, List.mem_append]
    have n0 := k0.2 GL_NONE
    have n1 := k1.2 GL_NONE
    have n2 := k2.2 GL_NONE
    by_cases c0 : flags &&& bt.BUFFER_TYPE_COLOR = 0 <;> simp [c0, n0, n1, n2]
/-- A depth-only target on the start-up state: the call returns, the depth slot
holds the one texture generated, the color and stencil slots are untouched,
the depth texture is attached to the depth attachment and the color draw buffer
is disabled. -/
theorem NewRenderTarget_textures_witness :
    (∃ rt w1,
      NewRenderTarget sampleBufferTypes RenderTarget.blank 0x100 (sampleTargetParams 64 64)
        World.initial = .ok (rt, w1) ∧
      RenderTarget.blank.m_BufferTextures.length = MAX_BUFFER_TYPE_COUNT ∧
      (w1.log.drop World.initial.log.length).count .glGenTextures
        = ((BUFFER_TYPES sampleBufferTypes).filter fun type => 0x100 &&& type ≠ 0).length ∧
      (GLCall.glDrawBuffer GL_NONE ∈ w1.log.drop World.initial.log.length ↔
        0x100 &&& sampleBufferTypes.BUFFER_TYPE_COLOR = 0)) ∧
    ((BUFFER_TYPES sampleBufferTypes).filter fun type => 0x100 &&& type ≠ 0).length = 1 ∧
    0x100 &&& sampleBufferTypes.BUFFER_TYPE_COLOR = 0 ∧
    (NewRenderTarget sampleBufferTypes RenderTarget.blank 0x100 (sampleTargetParams 64 64)
        World.initial).toOption.map (fun r => (r.1, r.2.log))
      = some ({ m_Id := 1, m_BufferTextures := [none, some { m_Texture := 2 }, none] },
          [ .glGenFramebuffers, .glBindFramebuffer GL_FRAMEBUFFER_EXT 1, .glGenTextures,
            .glBindTexture GL_TEXTURE_2D 2,
            .glTexParameteri GL_TEXTURE_2D GL_GENERATE_MIPMAP GL_FALSE,
            .glTexParameteri GL_TEXTURE_2D GL_TEXTURE_MIN_FILTER 0x2601,
            .glTexParameteri GL_TEXTURE_2D GL_TEXTURE_MAG_FILTER 0x2601,
            .glTexParameteri GL_TEXTURE_2D GL_TEXTURE_WRAP_S 0x2901,
            .glTexParameteri GL_TEXTURE_2D GL_TEXTURE_WRAP_T 0x2901,
            .glTexImage2D GL_TEXTURE_2D 0 GL_DEPTH_COMPONENT 64 64 0 GL_DEPTH_COMPONENT GL_FLOAT
              none,
            .glFramebufferTexture2D GL_FRAMEBUFFER_EXT GL_DEPTH_ATTACHMENT_EXT GL_TEXTURE_2D 2 0,
            .glDrawBuffer GL_NONE, .glBindFramebuffer GL_FRAMEBUFFER_EXT 0 ]) :=
  ⟨⟨_, _, rfl, rfl,
      (NewRenderTarget_textures sampleBufferTypes RenderTarget.blank 0x100
        (sampleTargetParams 64 64) World.initial _ _ rfl rfl).2.2⟩,
    by decide, by decide, by decide⟩

/-- C7. `DeleteRenderTarget` passes every one of the three slots to
`DeleteTexture`, requested or not. A target whose first slot holds the null
pointer stops the program on the assertion of `DeleteTexture`, right after the
framebuffer is deleted. So it is for the depth-only target created on the
start-up state from a record whose unset slots are null: its one texture, named
2, is still live when the program stops. When the unset slots hold some other
pointer, say to a record naming texture 77, that texture is deleted too, though
the target never created it. -/
theorem DeleteRenderTarget_unset_slot :
    (∀ id rest w, DeleteRenderTarget (some { m_Id := id, m_BufferTextures := none :: rest }) w
      = .error (.assertion, glDeleteFramebuffers id w)) ∧
    (∃ rt w1 w2,
      NewRenderTarget sampleBufferTypes RenderTarget.blank 0x100 (sampleTargetParams 64 64)
        World.initial = .ok (rt, w1) ∧
      rt.m_BufferTextures = [none, some { m_Texture := 2 }, none] ∧
      w1.liveTextures = [2] ∧
      DeleteRenderTarget (some rt) w1 = .error (.assertion, w2) ∧
      w2.liveTextures = [2] ∧
      w2.log.drop w1.log.length = [.glDeleteFramebuffers 1]) ∧
    (∃ rt w1 w2,
      NewRenderTarget sampleBufferTypes
        { m_Id := 0, m_BufferTextures := List.replicate 3 (some { m_Texture := 77 }) }
        0x100 (sampleTargetParams 64 64) World.initial = .ok (rt, w1) ∧
      rt.m_BufferTextures = [some { m_Texture := 77 }, some { m_Texture := 2 },
        some { m_Texture := 77 }] ∧
      DeleteRenderTarget (some rt) w1 = .ok w2 ∧
      w2.log.drop w1.log.length = [.glDeleteFramebuffers 1, .glDeleteTextures 77,
        .glDeleteTextures 2, .glDeleteTextures 77]) :=
  ⟨fun _ _ _ => by
      simp [DeleteRenderTarget, MAX_BUFFER_TYPE_COUNT, DeleteRenderTarget.loop, DeleteTexture,
        bind, Except.bind],
    ⟨_, _, _, rfl, rfl, rfl, rfl, rfl, rfl⟩, ⟨_, _, _, rfl, rfl, rfl, rfl⟩⟩

/-- C8. The completeness check of `NewRenderTarget` comes after the
framebuffer binding has been set back to 0, so it queries the window, which is
complete: after a `glBindFramebuffer(GL_FRAMEBUFFER_EXT, 0)` that raised no
error the check always passes. With a driver that reports an incomplete
attachment for mismatched color and depth sizes, `NewRenderTarget(COLOR|DEPTH)`
with a 64 by 64 color texture and a 32 by 32 depth texture returns a target and
logs nothing, although the status of the target's framebuffer is the
incomplete-attachment one; `EnableRenderTarget`, which checks while the target
is bound, then stops with that category. -/
theorem NewRenderTarget_checks_window :
    (∀ w, (glBindFramebuffer GL_FRAMEBUFFER_EXT 0 w).error = 0 →
      CHECK_GL_FRAMEBUFFER_ERROR (glBindFramebuffer GL_FRAMEBUFFER_EXT 0 w)
        = .ok (glBindFramebuffer GL_FRAMEBUFFER_EXT 0 w)) ∧
    (∃ rt w1 w2,
      NewRenderTarget sampleBufferTypes RenderTarget.blank 0x4100 (sampleTargetParams 32 32)
        World.strict = .ok (rt, w1) ∧
      rt = { m_Id := 1, m_BufferTextures := [some { m_Texture := 2 }, some { m_Texture := 3 },
        none] } ∧
      w1.textureDims 2 = (64, 64) ∧ w1.textureDims 3 = (32, 32) ∧
      (w1.framebuffers 1).attachment GL_COLOR_ATTACHMENT0_EXT = 2 ∧
      (w1.framebuffers 1).attachment GL_DEPTH_ATTACHMENT_EXT = 3 ∧
      w1.completeness (w1.framebuffers rt.m_Id) w1.textureDims
        = GL_FRAMEBUFFER_INCOMPLETE_ATTACHMENT_EXT ∧
      w1.messages = [] ∧
      EnableRenderTarget (some {}) (some rt) w1
        = .error (.framebufferStatus GL_FRAMEBUFFER_INCOMPLETE_ATTACHMENT_EXT, w2) ∧
      w2.messages = [.framebufferError GL_FRAMEBUFFER_INCOMPLETE_ATTACHMENT_EXT
        "GL_FRAMEBUFFER_INCOMPLETE_ATTACHMENT"]) := by
  refine ⟨?_, ⟨_, _, _, rfl, rfl, rfl, rfl, rfl, rfl, rfl, rfl, rfl, rfl⟩⟩
  intro w h
  have hb : (glBindFramebuffer GL_FRAMEBUFFER_EXT 0 w).framebufferBinding = 0 := by
    revert h
    simp only [glBindFramebuffer, World.driver, World.raise]
    split_ifs <;> simp_all
  simp [CHECK_GL_FRAMEBUFFER_ERROR, glCheckFramebufferStatus, hb]

/-! ## Program manager -/

theorem vertex_ne_fragment : GL_VERTEX_PROGRAM_ARB ≠ GL_FRAGMENT_PROGRAM_ARB := by decide

theorem glBindProgramARB_ok (target program : Nat) (w : World)
    (ht : target = GL_VERTEX_PROGRAM_ARB ∨ target = GL_FRAGMENT_PROGRAM_ARB)
    (h : (glBindProgramARB target program w).error = 0) :
    w.error = 0 ∧ glBindProgramARB target program w =
      { w with log := w.log ++ [.glBindProgramARB target program]
               programBinding := fun t => if t = target then program
                                          else w.programBinding t } := by
  revert h
  simp only [glBindProgramARB, World.driver, World.raise]
  split_ifs <;> simp_all

theorem SetProgram_ok (type program : Nat) (w w1 : World)
    (ht : type = GL_VERTEX_PROGRAM_ARB ∨ type = GL_FRAGMENT_PROGRAM_ARB)
    (h : SetProgram type program w = .ok w1) :
    w1 = { w with
      log := w.log ++ [.glEnable type, .glBindProgramARB type program]
      enabled := fun c => if c = type then true else w.enabled c
      programBinding := fun t => if t = type then program else w.programBinding t } := by
  simp only [SetProgram, Run.bind_ok, CHECK_GL_ERROR_ok] at h
  obtain ⟨_, ⟨h1, rfl⟩, h2, rfl⟩ := h
  obtain ⟨_, q2⟩ := glBindProgramARB_ok _ _ _ ht h2
  obtain ⟨_, q1⟩ := glEnable_ok _ _ h1
  rw [q2, q1]
  simp

theorem SetProgram_quiet (type program : Nat) (w : World)
    (ht : type = GL_VERTEX_PROGRAM_ARB ∨ type = GL_FRAGMENT_PROGRAM_ARB)
    (he : w.error = 0) (hq : ∀ k, w.oracle k = 0) :
    ∃ w1, SetProgram type program w = .ok w1 := by
  simp [SetProgram, glEnable, glBindProgramARB, World.driver, CHECK_GL_ERROR, bind, Except.bind,
    he, hq, ht]

/-- C13. A `SetVertexProgram` that returns has enabled the vertex stage and
bound the given program to it, replacing the one bound before, and has changed
nothing else but the log: in particular the enabled flag and the bound program
of the fragment stage are as before. Symmetrically a `SetFragmentProgram` that
returns leaves the vertex stage as it was. With a context, no pending error and
a driver that raises no error of its own both calls return. -/
theorem program_stages_independent :
    (∀ context program w w1, SetVertexProgram context program w = .ok w1 →
      w1 = { w with
        log := w.log ++ [.glEnable GL_VERTEX_PROGRAM_ARB,
          .glBindProgramARB GL_VERTEX_PROGRAM_ARB program]
        enabled := fun c => if c = GL_VERTEX_PROGRAM_ARB then true else w.enabled c
        programBinding := fun t => if t = GL_VERTEX_PROGRAM_ARB then program
                                   else w.programBinding t } ∧
      w1.enabled GL_VERTEX_PROGRAM_ARB = true ∧
      w1.programBinding GL_VERTEX_PROGRAM_ARB = program ∧
      w1.enabled GL_FRAGMENT_PROGRAM_ARB = w.enabled GL_FRAGMENT_PROGRAM_ARB ∧
      w1.programBinding GL_FRAGMENT_PROGRAM_ARB = w.programBinding GL_FRAGMENT_PROGRAM_ARB) ∧
    (∀ context program w w1, SetFragmentProgram context program w = .ok w1 →
      w1 = { w with
        log := w.log ++ [.glEnable GL_FRAGMENT_PROGRAM_ARB,
          .glBindProgramARB GL_FRAGMENT_PROGRAM_ARB program]
        enabled := fun c => if c = GL_FRAGMENT_PROGRAM_ARB then true else w.enabled c
        programBinding := fun t => if t = GL_FRAGMENT_PROGRAM_ARB then program
                                   else w.programBinding t } ∧
      w1.enabled GL_FRAGMENT_PROGRAM_ARB = true ∧
      w1.programBinding GL_FRAGMENT_PROGRAM_ARB = program ∧
      w1.enabled GL_VERTEX_PROGRAM_ARB = w.enabled GL_VERTEX_PROGRAM_ARB ∧
      w1.programBinding GL_VERTEX_PROGRAM_ARB = w.programBinding GL_VERTEX_PROGRAM_ARB) ∧
    (∀ ctx program w, w.error = 0 → (∀ k, w.oracle k = 0) →
      (∃ w1, SetVertexProgram (some ctx) program w = .ok w1) ∧
      (∃ w1, SetFragmentProgram (some ctx) program w = .ok w1)) := by
  refine ⟨?_, ?_, ?_⟩
  · intro context program w w1 h
    cases context with
    | none => simp [SetVertexProgram] at h
    | some ctx =>
      have hw := SetProgram_ok _ _ _ _ (Or.inl rfl) h
      subst hw
      exact ⟨rfl, by simp, by simp, by simp [Ne.symm vertex_ne_fragment],
        by simp [Ne.symm vertex_ne_fragment]⟩
  · intro context program w w1 h
    cases context with
    | none => simp [SetFragmentProgram] at h
    | some ctx =>
      have hw := SetProgram_ok _ _ _ _ (Or.inr rfl) h
      subst hw
      exact ⟨rfl, by simp, by simp, by simp [vertex_ne_fragment],
        by simp [vertex_ne_fragment]⟩
  · intro ctx program w he hq
    exact ⟨SetProgram_quiet _ program w (Or.inl rfl) he hq,
      SetProgram_quiet _ program w (Or.inr rfl) he hq⟩

/-- On a state with vertex program 3 and fragment program 4 bound, setting
vertex program 9 returns with 9 and 4 bound, and setting fragment program 9
returns with 3 and 9 bound. -/
theorem program_stages_independent_witness :
    (∃ w1, SetVertexProgram (some {}) 9 World.withPrograms = .ok w1 ∧
      w1.enabled GL_VERTEX_PROGRAM_ARB = true ∧
      w1.programBinding GL_VERTEX_PROGRAM_ARB = 9 ∧
      w1.enabled GL_FRAGMENT_PROGRAM_ARB = World.withPrograms.enabled GL_FRAGMENT_PROGRAM_ARB ∧
      w1.programBinding GL_FRAGMENT_PROGRAM_ARB
        = World.withPrograms.programBinding GL_FRAGMENT_PROGRAM_ARB) ∧
    (∃ w1, SetFragmentProgram (some {}) 9 World.withPrograms = .ok w1 ∧
      w1.enabled GL_FRAGMENT_PROGRAM_ARB = true ∧
      w1.programBinding GL_FRAGMENT_PROGRAM_ARB = 9 ∧
      w1.enabled GL_VERTEX_PROGRAM_ARB = World.withPrograms.enabled GL_VERTEX_PROGRAM_ARB ∧
      w1.programBinding GL_VERTEX_PROGRAM_ARB
        = World.withPrograms.programBinding GL_VERTEX_PROGRAM_ARB) ∧
    (SetVertexProgram (some {}) 9 World.withPrograms).toOption.map
      (fun w => (w.programBinding GL_VERTEX_PROGRAM_ARB,
        w.programBinding GL_FRAGMENT_PROGRAM_ARB)) = some (9, 4) ∧
    (SetFragmentProgram (some {}) 9 World.withPrograms).toOption.map
      (fun w => (w.programBinding GL_VERTEX_PROGRAM_ARB,
        w.programBinding GL_FRAGMENT_PROGRAM_ARB)) = some (3, 9) :=
  ⟨⟨_, rfl, (program_stages_independent.1 (some {}) 9 World.withPrograms _ rfl).2⟩,
   ⟨_, rfl, (program_stages_independent.2.1 (some {}) 9 World.withPrograms _ rfl).2⟩,
   by decide, by decide⟩

/-! ## Drawing -/

theorem glDrawRangeElements_ok (mode start stop count : Nat) (type : ScalarType)
    (indices : Nat) (w : World)
    (h : (glDrawRangeElements mode start stop count type indices w).error = 0) :
    glDrawRangeElements mode start stop count type indices w =
      { w with log := w.log ++ [.glDrawRangeElements mode start stop count type indices] } := by
  obtain ⟨_, h2⟩ := World.driver_ok _ _ _ h
  rw [glDrawRangeElements, h2]

/-- C17. For every primitive type, start, count, index type and index buffer, a
`DrawRangeElements` that returns has bound the index buffer to the
element-array binding, where it stays, and has issued exactly one ranged
indexed draw with index range `start` to `start + count` and index count
`count * 3`, both reduced modulo `2 ^ 32`, and data offset 0; nothing else
changes but the log. The index count is the same for every primitive type. With
a context, an index buffer that is not 0, no pending error and a driver that
raises no error of its own the call returns. -/
theorem DrawRangeElements_call :
    (∀ context prim_type start count type index_buffer w w1,
      DrawRangeElements context prim_type start count type index_buffer w = .ok w1 →
      index_buffer ≠ 0 ∧
      w1 = { w with
        log := w.log ++ [.glBindBufferARB GL_ELEMENT_ARRAY_BUFFER_ARB index_buffer,
          .glDrawRangeElements prim_type start ((start + count) % 2 ^ 32)
            ((count * 3) % 2 ^ 32) type 0]
        elementArrayBuffer := index_buffer } ∧
      w1.elementArrayBuffer = index_buffer) ∧
    (∀ ctx prim_type start count type index_buffer w, index_buffer ≠ 0 → w.error = 0 →
      (∀ k, w.oracle k = 0) →
      ∃ w1, DrawRangeElements (some ctx) prim_type start count type index_buffer w = .ok w1) := by
  constructor
  · intro context prim_type start count type index_buffer w w1 h
    cases context with
    | none => simp [DrawRangeElements] at h
    | some ctx =>
      by_cases hb : index_buffer = 0
      · simp [DrawRangeElements, hb] at h
      · simp only [DrawRangeElements, hb, if_false, Run.bind_ok, CHECK_GL_ERROR_ok] at h
        obtain ⟨_, ⟨h1, rfl⟩, h2, rfl⟩ := h
        have q2 := glDrawRangeElements_ok _ _ _ _ _ _ _ h2
        obtain ⟨_, q1⟩ := glBindBufferARB_element_ok _ _ h1
        rw [q2, q1]
        exact ⟨hb, by simp [u32], rfl⟩
  · intro ctx prim_type start count type index_buffer w hb he hq
    simp [DrawRangeElements, glBindBufferARB, glDrawRangeElements, World.driver, CHECK_GL_ERROR,
      bind, Except.bind, he, hq, hb, element_ne_array]

/-- Ten triangles from index 100 of index buffer 3: the range is 100 to 110 and
the index count 30. A count of `2 ^ 31` wraps: the range ends at
`100 + 2 ^ 31` and the index count is `2 ^ 31`. -/
theorem DrawRangeElements_call_witness :
    (∃ w1, DrawRangeElements (some {}) 4 100 10 .TYPE_UNSIGNED_SHORT 3 World.initial = .ok w1 ∧
      (3 : Nat) ≠ 0 ∧ w1.elementArrayBuffer = 3) ∧
    (DrawRangeElements (some {}) 4 100 10 .TYPE_UNSIGNED_SHORT 3 World.initial).toOption.map
      World.log = some [.glBindBufferARB GL_ELEMENT_ARRAY_BUFFER_ARB 3,
        .glDrawRangeElements 4 100 110 30 .TYPE_UNSIGNED_SHORT 0] ∧
    (DrawRangeElements (some {}) 1 100 (2 ^ 31) .TYPE_UNSIGNED_SHORT 3
        World.initial).toOption.map World.log
      = some [.glBindBufferARB GL_ELEMENT_ARRAY_BUFFER_ARB 3,
        .glDrawRangeElements 1 100 (100 + 2 ^ 31) (2 ^ 31) .TYPE_UNSIGNED_SHORT 0] :=
  ⟨⟨_, rfl,
      (DrawRangeElements_call.1 (some {}) 4 100 10 .TYPE_UNSIGNED_SHORT 3 World.initial _ rfl).1,
      (DrawRangeElements_call.1 (some {}) 4 100 10 .TYPE_UNSIGNED_SHORT 3 World.initial _
        rfl).2.2⟩,
    by decide, by decide⟩

/-! ## Device -/

theorem glGetString_gdevice (name : Nat) (w : World) :
    (glGetString name w).gdevice = w.gdevice := by
  simp only [glGetString, World.driver, World.raise]
  split <;> rfl

/-- What `NewDevice` returns when the surface is created and the error check
passes. -/
theorem NewDevice_opened (params : CreateDeviceParams) (w : World) (h : HDevice) (w1 : World)
    (hopen : NewDevice.surfaceCreated params w = true)
    (hret : NewDevice (some params) w = .ok (h, w1)) :
    h = some { m_DisplayWidth := params.m_DisplayWidth,
               m_DisplayHeight := params.m_DisplayHeight } ∧ w1.gdevice =
      { m_DisplayWidth := params.m_DisplayWidth, m_DisplayHeight := params.m_DisplayHeight } := by
  simp only [NewDevice.surfaceCreated] at hopen
  simp only [NewDevice, hopen, Bool.true_eq_false, if_false] at hret
  cases hc : CHECK_GL_ERROR (glfwSwapInterval 1 (glfwSetWindowTitle params.m_AppTitle
      (glfwOpenWindow params.m_DisplayWidth params.m_DisplayHeight 8 8 8 8 32 0 GLFW_WINDOW
        (glfwInit w)).2)) with
  | error e => simp [hc] at hret
  | ok v =>
    simp only [hc, Except.ok.injEq, Prod.mk.injEq] at hret
    obtain ⟨rfl, rfl⟩ := hret
    by_cases hp : params.m_PrintDeviceInfo <;> simp [hp, glGetString_gdevice]

theorem NewDevice_not_opened (params : CreateDeviceParams) (w : World)
    (hopen : NewDevice.surfaceCreated params w = false) :
    NewDevice (some params) w = .ok (none,
      { w with
        log := w.log ++ [.glfwInit,
          .glfwOpenWindow params.m_DisplayWidth params.m_DisplayHeight 8 8 8 8 32 0 GLFW_WINDOW,
          .glfwTerminate]
        glfwInitialized := false
        windowOpened := false }) := by
  simp only [NewDevice.surfaceCreated] at hopen
  have hw : (glfwOpenWindow params.m_DisplayWidth params.m_DisplayHeight 8 8 8 8 32 0 GLFW_WINDOW
      (glfwInit w)).2 = (glfwInit w).record (.glfwOpenWindow params.m_DisplayWidth
        params.m_DisplayHeight 8 8 8 8 32 0 GLFW_WINDOW) := by
    revert hopen
    simp only [glfwOpenWindow]
    split <;> simp
  simp only [NewDevice, hopen, hw, if_true]
  simp [glfwTerminate, glfwInit, World.record]

/-- C14. When the surface is created and `NewDevice(params)` returns, the
handle is not null and `GetWindowWidth()` and `GetWindowHeight()` give
`params.m_DisplayWidth` and `params.m_DisplayHeight`; the two getters change no
state. When the surface is created and no driver error is pending, `NewDevice`
returns. -/
theorem NewDevice_dimensions :
    (∀ params w h w1, NewDevice.surfaceCreated params w = true →
      NewDevice (some params) w = .ok (h, w1) →
      h ≠ none ∧ (GetWindowWidth w1).1 = params.m_DisplayWidth ∧
      (GetWindowHeight w1).1 = params.m_DisplayHeight) ∧
    (∀ w, (GetWindowWidth w).2 = w ∧ (GetWindowHeight w).2 = w) ∧
    (∀ params w, NewDevice.surfaceCreated params w = true → w.error = 0 →
      ∃ h w1, NewDevice (some params) w = .ok (h, w1)) := by
  refine ⟨?_, fun _ => ⟨rfl, rfl⟩, ?_⟩
  · intro params w h w1 hopen hret
    obtain ⟨rfl, hg⟩ := NewDevice_opened params w h w1 hopen hret
    simp [GetWindowWidth, GetWindowHeight, hg]
  · intro params w hopen he
    simp only [NewDevice.surfaceCreated] at hopen
    have hw : (glfwOpenWindow params.m_DisplayWidth params.m_DisplayHeight 8 8 8 8 32 0
        GLFW_WINDOW (glfwInit w)).2.error = 0 := by
      simp only [glfwOpenWindow, glfwInit, World.record]
      split <;> exact he
    simp [NewDevice, hopen, CHECK_GL_ERROR, glfwSetWindowTitle, glfwSwapInterval, World.record,
      hw]

/-- A device created at 800 by 600 on the start-up state reports width 800 and
height 600. -/
theorem NewDevice_dimensions_witness :
    (∃ h w1, NewDevice.surfaceCreated sampleDeviceParams World.initial = true ∧
      NewDevice (some sampleDeviceParams) World.initial = .ok (h, w1) ∧
      h ≠ none ∧ (GetWindowWidth w1).1 = sampleDeviceParams.m_DisplayWidth ∧
      (GetWindowHeight w1).1 = sampleDeviceParams.m_DisplayHeight) ∧
    (NewDevice (some sampleDeviceParams) World.initial).toOption.map
      (fun r => ((GetWindowWidth r.2).1, (GetWindowHeight r.2).1)) = some (800, 600) :=
  ⟨⟨_, _, rfl, rfl,
      NewDevice_dimensions.1 sampleDeviceParams World.initial _ _ rfl rfl⟩, by decide⟩

/-- C15. When `NewDevice` returns, the handle is null if and only if the
surface was not created. When the surface is not created, `NewDevice` returns
the null handle whatever the state, so it stops on no assertion; it has then
called `glfwInit`, `glfwOpenWindow` and `glfwTerminate` and nothing else, the
window library is shut down, and the stored width and height of the device are
as before. -/
theorem NewDevice_null_handle :
    (∀ params w h w1, NewDevice (some params) w = .ok (h, w1) →
      (h = none ↔ NewDevice.surfaceCreated params w = false)) ∧
    (∀ params w, NewDevice.surfaceCreated params w = false →
      ∃ w1, NewDevice (some params) w = .ok (none, w1) ∧
        w1.log = w.log ++ [.glfwInit,
          .glfwOpenWindow params.m_DisplayWidth params.m_DisplayHeight 8 8 8 8 32 0 GLFW_WINDOW,
          .glfwTerminate] ∧
        w1.glfwInitialized = false ∧ w1.windowOpened = false ∧
        w1.gdevice = w.gdevice) := by
  constructor
  · intro params w h w1 hret
    cases hopen : NewDevice.surfaceCreated params w with
    | true =>
      obtain ⟨rfl, _⟩ := NewDevice_opened params w h w1 hopen hret
      simp
    | false =>
      rw [NewDevice_not_opened params w hopen] at hret
      simp only [Except.ok.injEq, Prod.mk.injEq] at hret
      simp [← hret.1]
  · intro params w hopen
    exact ⟨_, NewDevice_not_opened params w hopen, rfl, rfl, rfl, rfl⟩

/-- On a state whose window system grants no window, with a driver error
pending, `NewDevice` at 800 by 600 returns the null handle and the device keeps
its dimensions 320 by 200. -/
theorem NewDevice_null_handle_witness :
    (∃ h w1, NewDevice (some sampleDeviceParams) World.headless = .ok (h, w1) ∧
      (h = none ↔ NewDevice.surfaceCreated sampleDeviceParams World.headless = false)) ∧
    (NewDevice.surfaceCreated sampleDeviceParams World.headless = false ∧
      ∃ w1, NewDevice (some sampleDeviceParams) World.headless = .ok (none, w1) ∧
        w1.log = World.headless.log ++ [.glfwInit,
          .glfwOpenWindow sampleDeviceParams.m_DisplayWidth sampleDeviceParams.m_DisplayHeight
            8 8 8 8 32 0 GLFW_WINDOW,
          .glfwTerminate] ∧
        w1.glfwInitialized = false ∧ w1.windowOpened = false ∧
        w1.gdevice = World.headless.gdevice) ∧
    (NewDevice (some sampleDeviceParams) World.headless).toOption.map
      (fun r => (r.1, (GetWindowWidth r.2).1, (GetWindowHeight r.2).1))
      = some (none, 320, 200) :=
  ⟨⟨_, _, rfl, NewDevice_null_handle.1 sampleDeviceParams World.headless _ _ rfl⟩,
   ⟨rfl, NewDevice_null_handle.2 sampleDeviceParams World.headless rfl⟩, by decide⟩

/-! ## Texture bindings -/

theorem glTexParameteri_units (target pname param : Nat) (w : World) :
    (glTexParameteri target pname param w).textureBinding = w.textureBinding ∧
    (glTexParameteri target pname param w).activeTexture = w.activeTexture := by
  simp only [glTexParameteri, World.driver, World.raise]
  split <;> exact ⟨rfl, rfl⟩

theorem glTexImage2D_units (target level internalformat width height border format type : Nat)
    (pixels : Option (List Nat)) (w : World) :
    (glTexImage2D target level internalformat width height border format type
      pixels w).textureBinding = w.textureBinding ∧
    (glTexImage2D target level internalformat width height border format type
      pixels w).activeTexture = w.activeTexture := by
  simp only [glTexImage2D, World.driver, World.raise, World.setImage]
  split_ifs <;> exact ⟨rfl, rfl⟩

theorem glCompressedTexImage2D_units
    (target level internalformat width height border imageSize : Nat)
    (data : Option (List Nat)) (w : World) :
    (glCompressedTexImage2D target level internalformat width height border imageSize
      data w).textureBinding = w.textureBinding ∧
    (glCompressedTexImage2D target level internalformat width height border imageSize
      data w).activeTexture = w.activeTexture := by
  simp only [glCompressedTexImage2D, World.driver, World.raise, World.setImage]
  split_ifs <;> exact ⟨rfl, rfl⟩

theorem glGenTextures_units (out : Nat) (w : World) :
    (glGenTextures out w).2.textureBinding = w.textureBinding ∧
    (glGenTextures out w).2.activeTexture = w.activeTexture := by
  simp only [glGenTextures, World.raise]
  split <;> exact ⟨rfl, rfl⟩

theorem glGenTextures_name (out : Nat) (w : World) (h : (glGenTextures out w).2.error = 0) :
    (glGenTextures out w).1 ≠ 0 := by
  revert h
  simp only [glGenTextures, World.raise]
  split_ifs <;> simp_all

/-- The bind and the five parameter calls of `SetTexture` leave the texture
bound on the unit that was active. -/
theorem SetTexture_prefix_units (t : Nat) (a b c d : Nat) (w : World)
    (hb : (glBindTexture GL_TEXTURE_2D t w).error = 0) :
    (glTexParameteri GL_TEXTURE_2D GL_TEXTURE_WRAP_T d
      (glTexParameteri GL_TEXTURE_2D GL_TEXTURE_WRAP_S c
        (glTexParameteri GL_TEXTURE_2D GL_TEXTURE_MAG_FILTER b
          (glTexParameteri GL_TEXTURE_2D GL_TEXTURE_MIN_FILTER a
            (glTexParameteri GL_TEXTURE_2D GL_GENERATE_MIPMAP GL_FALSE
              (glBindTexture GL_TEXTURE_2D t w)))))).activeTexture = w.activeTexture ∧
    (glTexParameteri GL_TEXTURE_2D GL_TEXTURE_WRAP_T d
      (glTexParameteri GL_TEXTURE_2D GL_TEXTURE_WRAP_S c
        (glTexParameteri GL_TEXTURE_2D GL_TEXTURE_MAG_FILTER b
          (glTexParameteri GL_TEXTURE_2D GL_TEXTURE_MIN_FILTER a
            (glTexParameteri GL_TEXTURE_2D GL_GENERATE_MIPMAP GL_FALSE
              (glBindTexture GL_TEXTURE_2D t w)))))).textureBinding
      = fun u => if u = w.activeTexture then t else w.textureBinding u := by
  obtain ⟨_, qb⟩ := glBindTexture_ok _ _ hb
  simp only [glTexParameteri_units, qb]
  exact ⟨trivial, trivial⟩

/-- A `SetTexture` that returns leaves the texture bound on the active unit. -/
theorem SetTexture_units (tex : Texture) (p : TextureParams) (w w1 : World)
    (h : SetTexture (some tex) p w = .ok w1) :
    w1.activeTexture = w.activeTexture ∧
    w1.textureBinding = fun u => if u = w.activeTexture then tex.m_Texture
                                 else w.textureBinding u := by
  simp only [SetTexture, Run.bind_ok, CHECK_GL_ERROR_ok] at h
  obtain ⟨_, ⟨hb, rfl⟩, _, ⟨_, rfl⟩, _, ⟨_, rfl⟩, _, ⟨_, rfl⟩, _, ⟨_, rfl⟩, _, ⟨_, rfl⟩,
    ⟨gl_format, gl_type, internal_format, w7⟩, h7, h8⟩ := h
  have key := SetTexture_prefix_units tex.m_Texture p.m_MinFilter p.m_MagFilter p.m_UWrap
    p.m_VWrap w hb
  cases hf : p.m_Format <;>
    simp only [hf, SetTexture.formats, SetTexture.upload, Run.bind_ok, CHECK_GL_ERROR_ok,
      Run.pure_ok, Prod.mk.injEq, reduceCtorEq] at h7 h8
  all_goals first
    | (obtain ⟨rfl, rfl, rfl, rfl⟩ := h7
       obtain ⟨_, rfl⟩ := h8
       by_cases hd : 0 < p.m_DataSize <;>
         simp only [hd, if_true, if_false, glTexImage2D_units, glCompressedTexImage2D_units] <;>
         exact key)
    | (obtain ⟨_, ⟨_, rfl⟩, rfl, rfl, rfl, rfl⟩ := h7
       obtain ⟨_, rfl⟩ := h8
       by_cases hd : 0 < p.m_DataSize <;>
         simp only [hd, if_true, if_false, glTexImage2D_units, glCompressedTexImage2D_units] <;>
         exact key)

/-- C16, as amended. When `SetTexture` returns, the active unit is the one that
was active before and its 2D texture binding is the texture just operated on,
`texture->m_Texture`; the bindings of the other units are as before. When
`NewTexture` returns, the binding of the active unit is the new texture, whose
name is not 0. The texture stays bound. -/
theorem texture_stays_bound :
    (∀ tex p w w1, SetTexture (some tex) p w = .ok w1 →
      w1.activeTexture = w.activeTexture ∧
      w1.textureBinding w1.activeTexture = tex.m_Texture ∧
      ∀ u, u ≠ w.activeTexture → w1.textureBinding u = w.textureBinding u) ∧
    (∀ p w r w1, NewTexture p w = .ok (r, w1) →
      ∃ tex, r = some tex ∧ tex.m_Texture ≠ 0 ∧
        w1.activeTexture = w.activeTexture ∧
        w1.textureBinding w1.activeTexture = tex.m_Texture ∧
        ∀ u, u ≠ w.activeTexture → w1.textureBinding u = w.textureBinding u) := by
  constructor
  · intro tex p w w1 h
    obtain ⟨ha, hb⟩ := SetTexture_units tex p w w1 h
    rw [ha, hb]
    exact ⟨rfl, by simp, fun u hu => by simp [hu]⟩
  · intro p w r w1 h
    simp only [NewTexture, Run.bind_ok, CHECK_GL_ERROR_ok, Run.pure_ok] at h
    obtain ⟨_, ⟨he, rfl⟩, w3, h2, h3⟩ := h
    obtain ⟨rfl, rfl⟩ := Prod.mk.inj h3
    obtain ⟨ha, hb⟩ := SetTexture_units _ _ _ _ h2
    refine ⟨_, rfl, glGenTextures_name _ _ he, ?_, ?_, ?_⟩
    · rw [ha]; exact (glGenTextures_units _ _).2
    · rw [ha, hb]; simp
    · intro u hu
      rw [hb, (glGenTextures_units _ _).2, (glGenTextures_units _ _).1]
      simp [hu]

/-- A 64 by 64 RGBA texture named 1 set on the start-up state: the call returns
and texture 1 is bound on the active unit 0. -/
theorem texture_stays_bound_witness :
    (∃ w1, SetTexture (some { m_Texture := 1 }) (colorParams 64 64) World.initial = .ok w1 ∧
      w1.activeTexture = World.initial.activeTexture ∧
      w1.textureBinding w1.activeTexture = 1 ∧
      ∀ u, u ≠ World.initial.activeTexture →
        w1.textureBinding u = World.initial.textureBinding u) ∧
    (∃ r w1, NewTexture (colorParams 64 64) World.initial = .ok (r, w1) ∧
      ∃ tex, r = some tex ∧ tex.m_Texture ≠ 0 ∧
        w1.activeTexture = World.initial.activeTexture ∧
        w1.textureBinding w1.activeTexture = tex.m_Texture ∧
        ∀ u, u ≠ World.initial.activeTexture →
          w1.textureBinding u = World.initial.textureBinding u) :=
  ⟨⟨_, rfl, texture_stays_bound.1 { m_Texture := 1 } (colorParams 64 64) World.initial _ rfl⟩,
   ⟨_, _, rfl, texture_stays_bound.2 (colorParams 64 64) World.initial _ _ rfl⟩⟩

/-- C16, counterexample to the claim as stated. `SetTexture` for the texture
named 1 and `NewTexture`, both with a supported format on the start-up state,
return with the 2D texture binding of the active unit on 1, not on 0. -/
theorem texture_binding_not_restored :
    (∃ w1, SetTexture (some { m_Texture := 1 }) (colorParams 64 64) World.initial = .ok w1 ∧
      w1.textureBinding w1.activeTexture = 1 ∧ w1.textureBinding w1.activeTexture ≠ 0) ∧
    (∃ r w1, NewTexture (colorParams 64 64) World.initial = .ok (r, w1) ∧
      w1.textureBinding w1.activeTexture = 1 ∧ w1.textureBinding w1.activeTexture ≠ 0) :=
  ⟨⟨_, rfl, rfl, by decide⟩, ⟨_, _, rfl, rfl, by decide⟩⟩

/-! ## Enabling and disabling vertex declarations -/

/-- A run of the loop of `NewVertexDeclaration` that returns has read every
element of its range, and each of them has a named scalar type. -/
theorem NewVertexDeclaration.loop_reads (element : List VertexElement) :
    ∀ (n i : Nat) (vd vd1 : VertexDeclaration),
      NewVertexDeclaration.loop element n i vd = .ok vd1 →
      ∀ j, i ≤ j → j < i + n → ∃ e, element[j]? = some e ∧ e.m_Type.named = true := by
  intro n
  induction n with
  | zero => intro i vd vd1 _ j h1 h2; omega
  | succ n ih =>
    intro i vd vd1 h
    simp only [NewVertexDeclaration.loop] at h
    cases he : element[i]? with
    | none => simp [he] at h
    | some e =>
      simp only [he] at h
      cases ht : GetTypeSize e.m_Type with
      | error f => simp [ht] at h
      | ok ts =>
        simp only [ht] at h
        have hn : e.m_Type.named = true := by
          cases hty : e.m_Type <;> simp_all [GetTypeSize, ScalarType.named]
        intro j hj1 hj2
        by_cases hij : j = i
        · subst hij; exact ⟨e, he, hn⟩
        · exact ih (i + 1) _ _ h j (by omega) (by omega)

/-- What a declaration returned by `NewVertexDeclaration` holds. -/
theorem NewVertexDeclaration_built (fresh : VertexDeclaration) (element : List VertexElement)
    (count : Nat) (d : VertexDeclaration)
    (h : NewVertexDeclaration fresh element count = .ok d) :
    d.m_StreamCount = count ∧ count < d.m_Streams.length ∧
    d.m_Stride = u32 (bytesBefore element count) ∧
    ∀ i, i < count → ∃ e, element[i]? = some e ∧
      d.m_Streams[i]? = some
        { m_Index := i, m_Size := e.m_Size, m_Usage := e.m_Usage, m_Type := e.m_Type,
          m_UsageIndex := e.m_UsageIndex, m_Offset := u32 (bytesBefore element i) } := by
  by_cases hcap : count < fresh.m_Streams.length
  · simp only [NewVertexDeclaration, hcap, if_true] at h
    cases hl : NewVertexDeclaration.loop element count 0 { fresh with m_Stride := 0 } with
    | error e => simp [hl] at h
    | ok vd1 =>
      simp only [hl, Except.ok.injEq] at h
      subst h
      have hr := NewVertexDeclaration.loop_reads element count 0 _ _ hl
      have hlen : count ≤ element.length := by
        cases count with
        | zero => omega
        | succ c =>
          obtain ⟨e, he, _⟩ := hr c (by omega) (by omega)
          have := (List.getElem?_eq_some.1 he).1
          omega
      obtain ⟨vd2, hrun, h1, _, h3, _, h5⟩ :=
        NewVertexDeclaration.loop_layout element count 0 { fresh with m_Stride := 0 }
          (by simp [bytesBefore, u32]) (by omega) (by simpa using hcap.le)
          (fun j e _ hj he => by
            obtain ⟨e1, he1, hn⟩ := hr j (by omega) (by omega)
            rw [he] at he1
            cases he1
            exact hn)
      rw [hl] at hrun
      cases hrun
      refine ⟨rfl, ?_, by simpa using h1, fun i hi => ?_⟩
      · simpa [h3] using hcap
      · simpa using h5 i (Nat.zero_le i) (by omega)
  · simp [NewVertexDeclaration, hcap] at h

theorem glEnableVertexAttribArray_ok (index : Nat) (w : World)
    (h : (glEnableVertexAttribArray index w).error = 0) :
    w.error = 0 ∧ glEnableVertexAttribArray index w =
      { w with log := w.log ++ [.glEnableVertexAttribArray index],
               attribEnabled := fun j => if j = index then true else w.attribEnabled j } := by
  revert h
  simp only [glEnableVertexAttribArray, World.driver, World.raise]
  split_ifs <;> simp_all

theorem glDisableVertexAttribArray_ok (index : Nat) (w : World)
    (h : (glDisableVertexAttribArray index w).error = 0) :
    w.error = 0 ∧ glDisableVertexAttribArray index w =
      { w with log := w.log ++ [.glDisableVertexAttribArray index],
               attribEnabled := fun j => if j = index then false else w.attribEnabled j } := by
  revert h
  simp only [glDisableVertexAttribArray, World.driver, World.raise]
  split_ifs <;> simp_all

theorem glVertexAttribPointer_ok (index size : Nat) (type : ScalarType) (normalized : Bool)
    (stride pointer : Nat) (w : World)
    (h : (glVertexAttribPointer index size type normalized stride pointer w).error = 0) :
    w.error = 0 ∧ glVertexAttribPointer index size type normalized stride pointer w =
      { w with
        log := w.log ++ [.glVertexAttribPointer index size type normalized stride pointer]
        attribPointer := fun j =>
          if j = index then
            some { size := size, type := type, normalized := normalized, stride := stride,
                   pointer := pointer, buffer := w.arrayBuffer }
          else w.attribPointer j } := by
  revert h
  simp only [glVertexAttribPointer, World.driver, World.raise]
  split_ifs <;> simp_all

theorem glEnableVertexAttribArray_quiet (index : Nat) (w : World) (he : w.error = 0)
    (hq : ∀ k, w.oracle k = 0) :
    (glEnableVertexAttribArray index w).error = 0 ∧
    ∀ k, (glEnableVertexAttribArray index w).oracle k = 0 := by
  simp [glEnableVertexAttribArray, World.driver, he, hq]

theorem glDisableVertexAttribArray_quiet (index : Nat) (w : World) (he : w.error = 0)
    (hq : ∀ k, w.oracle k = 0) :
    (glDisableVertexAttribArray index w).error = 0 ∧
    ∀ k, (glDisableVertexAttribArray index w).oracle k = 0 := by
  simp [glDisableVertexAttribArray, World.driver, he, hq]

theorem glVertexAttribPointer_quiet (index size : Nat) (type : ScalarType) (normalized : Bool)
    (stride pointer : Nat) (w : World) (he : w.error = 0) (hq : ∀ k, w.oracle k = 0) :
    (glVertexAttribPointer index size type normalized stride pointer w).error = 0 ∧
    ∀ k, (glVertexAttribPointer index size type normalized stride pointer w).oracle k = 0 := by
  simp [glVertexAttribPointer, World.driver, he, hq]

theorem glBindBufferARB_quiet (b : Nat) (w : World) (he : w.error = 0)
    (hq : ∀ k, w.oracle k = 0) :
    ((glBindBufferARB GL_ARRAY_BUFFER_ARB b w).error = 0 ∧
      ∀ k, (glBindBufferARB GL_ARRAY_BUFFER_ARB b w).oracle k = 0) ∧
    ((glBindBufferARB GL_ELEMENT_ARRAY_BUFFER_ARB b w).error = 0 ∧
      ∀ k, (glBindBufferARB GL_ELEMENT_ARRAY_BUFFER_ARB b w).oracle k = 0) := by
  simp [glBindBufferARB, World.driver, he, hq, element_ne_array]

/-- The loop of `EnableVertexDeclaration`, when it returns, over streams whose
`m_Index` is their position. -/
theorem EnableVertexDeclaration.loop_streams (vd : VertexDeclaration) :
    ∀ (n i : Nat) (w w1 : World),
      EnableVertexDeclaration.loop vd n i w = .ok w1 →
      (∀ k s, i ≤ k → k < i + n → vd.m_Streams[k]? = some s → s.m_Index = k) →
      w1.error = w.error ∧ w1.oracle = w.oracle ∧
      w1.arrayBuffer = w.arrayBuffer ∧ w1.elementArrayBuffer = w.elementArrayBuffer ∧
      w1.log = w.log ++ ((vd.m_Streams.drop i).take n).flatMap (fun s =>
        [.glEnableVertexAttribArray s.m_Index,
         .glVertexAttribPointer s.m_Index s.m_Size s.m_Type false vd.m_Stride s.m_Offset]) ∧
      (∀ j, j < i ∨ i + n ≤ j →
        w1.attribEnabled j = w.attribEnabled j ∧ w1.attribPointer j = w.attribPointer j) ∧
      (∀ k, i ≤ k → k < i + n → ∃ s, vd.m_Streams[k]? = some s ∧
        w1.attribEnabled k = true ∧
        w1.attribPointer k = some
          { size := s.m_Size, type := s.m_Type, normalized := false, stride := vd.m_Stride,
            pointer := s.m_Offset, buffer := w.arrayBuffer }) := by
  intro n
  induction n with
  | zero =>
    intro i w w1 h _
    simp only [EnableVertexDeclaration.loop, Run.pure_ok] at h
    subst h
    exact ⟨rfl, rfl, rfl, rfl, by simp, fun _ _ => ⟨rfl, rfl⟩, fun k h1 h2 => by omega⟩
  | succ n ih =>
    intro i w w1 h hidx
    simp only [EnableVertexDeclaration.loop] at h
    cases hs : vd.m_Streams[i]? with
    | none => simp [hs] at h
    | some s =>
      simp only [hs, Run.bind_ok, CHECK_GL_ERROR_ok] at h
      obtain ⟨_, ⟨h1, rfl⟩, _, ⟨h2, rfl⟩, h3⟩ := h
      obtain ⟨he1, q1⟩ := glEnableVertexAttribArray_ok _ _ h1
      rw [q1] at h2 h3
      obtain ⟨_, q2⟩ := glVertexAttribPointer_ok _ _ _ _ _ _ _ h2
      rw [q2] at h3
      obtain ⟨a1, a2, a3, a4, a5, a6, a7⟩ := ih (i + 1) _ _ h3
        (fun k s hk1 hk2 hk3 => hidx k s (by omega) (by omega) hk3)
      have hsi : s.m_Index = i := hidx i s (le_refl i) (by omega) hs
      obtain ⟨hlt, hget⟩ := List.getElem?_eq_some.1 hs
      refine ⟨a1, a2, a3, a4, ?_, ?_, ?_⟩
      · rw [a5, List.drop_eq_getElem_cons hlt, List.take_succ_cons, List.flatMap_cons, hget]
        simp
      · intro j hj
        obtain ⟨b1, b2⟩ := a6 j (by omega)
        have hne : j ≠ i := by omega
        rw [b1, b2]
        simp [hsi, hne]
      · intro k hk1 hk2
        by_cases hki : k = i
        · subst hki
          obtain ⟨b1, b2⟩ := a6 k (Or.inl (by omega))
          refine ⟨s, hs, ?_, ?_⟩
          · rw [b1]; simp [hsi]
          · rw [b2]; simp [hsi]
        · exact a7 k (by omega) (by omega)

/-- With a driver that raises no error, the loop of `EnableVertexDeclaration`
returns. -/
theorem EnableVertexDeclaration.loop_returns (vd : VertexDeclaration) :
    ∀ (n i : Nat) (w : World), i + n ≤ vd.m_Streams.length → w.error = 0 →
      (∀ k, w.oracle k = 0) → ∃ w1, EnableVertexDeclaration.loop vd n i w = .ok w1 := by
  intro n
  induction n with
  | zero => intro i w _ _ _; exact ⟨w, rfl⟩
  | succ n ih =>
    intro i w hlen he hq
    have hi : i < vd.m_Streams.length := by omega
    have hs : vd.m_Streams[i]? = some vd.m_Streams[i] := by simp [hi]
    have c1 := glEnableVertexAttribArray_quiet vd.m_Streams[i].m_Index w he hq
    have c2 := glVertexAttribPointer_quiet vd.m_Streams[i].m_Index vd.m_Streams[i].m_Size
      vd.m_Streams[i].m_Type false vd.m_Stride vd.m_Streams[i].m_Offset _ c1.1 c1.2
    obtain ⟨w1, hw1⟩ := ih (i + 1) _ (by omega) c2.1 c2.2
    refine ⟨w1, ?_⟩
    simp only [EnableVertexDeclaration.loop, hs, Run.bind_ok, CHECK_GL_ERROR_ok]
    exact ⟨_, ⟨c1.1, rfl⟩, _, ⟨c2.1, rfl⟩, hw1⟩

/-- What `EnableVertexDeclaration` has done when it returns, for a declaration
built by `NewVertexDeclaration`. -/
theorem EnableVertexDeclaration_effect (fresh : VertexDeclaration)
    (element : List VertexElement) (count : Nat) (d : VertexDeclaration) (context : HContext)
    (b : Nat) (w w1 : World)
    (hbuilt : NewVertexDeclaration fresh element count = .ok d)
    (hret : EnableVertexDeclaration context (some d) b w = .ok w1) :
    b ≠ 0 ∧ w1.error = 0 ∧ w1.oracle = w.oracle ∧
    w1.arrayBuffer = b ∧ w1.elementArrayBuffer = w.elementArrayBuffer ∧
    w1.log = w.log ++ .glBindBufferARB GL_ARRAY_BUFFER_ARB b ::
      (d.m_Streams.take count).flatMap (fun s =>
        [.glEnableVertexAttribArray s.m_Index,
         .glVertexAttribPointer s.m_Index s.m_Size s.m_Type false d.m_Stride s.m_Offset]) ∧
    (∀ i, i < count → ∃ e s, element[i]? = some e ∧ d.m_Streams[i]? = some s ∧
      s.m_Index = i ∧ s.m_Size = e.m_Size ∧ s.m_Type = e.m_Type ∧
      w1.attribEnabled s.m_Index = true ∧
      w1.attribPointer s.m_Index = some
        { size := e.m_Size, type := e.m_Type, normalized := false, stride := d.m_Stride,
          pointer := s.m_Offset, buffer := b }) ∧
    (∀ j, count ≤ j →
      w1.attribEnabled j = w.attribEnabled j ∧ w1.attribPointer j = w.attribPointer j) := by
  obtain ⟨hc, _, _, hst⟩ := NewVertexDeclaration_built fresh element count d hbuilt
  cases context with
  | none => simp [EnableVertexDeclaration] at hret
  | some ctx =>
    by_cases hb : b = 0
    · simp [EnableVertexDeclaration, hb] at hret
    · simp only [EnableVertexDeclaration, hb, if_false, Run.bind_ok, CHECK_GL_ERROR_ok] at hret
      obtain ⟨_, ⟨h1, rfl⟩, h2⟩ := hret
      obtain ⟨he, q1⟩ := glBindBufferARB_array_ok _ _ h1
      rw [q1, hc] at h2
      obtain ⟨a1, a2, a3, a4, a5, a6, a7⟩ :=
        EnableVertexDeclaration.loop_streams d count 0 _ _ h2
          (fun k s _ hk hs => by
            obtain ⟨e, _, hs1⟩ := hst k (by omega)
            rw [hs] at hs1
            cases hs1
            rfl)
      refine ⟨hb, a1.trans he, a2, a3, a4, ?_, ?_, ?_⟩
      · rw [a5]; simp
      · intro i hi
        obtain ⟨e, he1, hs1⟩ := hst i hi
        obtain ⟨s, hs2, b1, b2⟩ := a7 i (Nat.zero_le i) (by omega)
        rw [hs1] at hs2
        cases hs2
        exact ⟨e, _, he1, hs1, rfl, rfl, rfl, b1, b2⟩
      · intro j hj
        exact a6 j (Or.inr (by omega))

/-- With a driver that raises no error and no error pending,
`EnableVertexDeclaration` returns for a built declaration and a buffer that is
not null. -/
theorem EnableVertexDeclaration_returns (fresh : VertexDeclaration)
    (element : List VertexElement) (count : Nat) (d : VertexDeclaration) (ctx : Context)
    (b : Nat) (w : World)
    (hbuilt : NewVertexDeclaration fresh element count = .ok d)
    (hb : b ≠ 0) (he : w.error = 0) (hq : ∀ k, w.oracle k = 0) :
    ∃ w1, EnableVertexDeclaration (some ctx) (some d) b w = .ok w1 := by
  obtain ⟨hc, hlen, _, _⟩ := NewVertexDeclaration_built fresh element count d hbuilt
  have c1 := (glBindBufferARB_quiet b w he hq).1
  obtain ⟨w1, hw1⟩ := EnableVertexDeclaration.loop_returns d d.m_StreamCount 0 _
    (by omega) c1.1 c1.2
  refine ⟨w1, ?_⟩
  simp only [EnableVertexDeclaration, hb, if_false, Run.bind_ok, CHECK_GL_ERROR_ok]
  exact ⟨_, ⟨c1.1, rfl⟩, hw1⟩

/-- The loop of `DisableVertexDeclaration`, when it returns. -/
theorem DisableVertexDeclaration.loop_slots :
    ∀ (n i : Nat) (w w1 : World), DisableVertexDeclaration.loop n i w = .ok w1 →
      w1.error = w.error ∧ w1.oracle = w.oracle ∧
      w1.arrayBuffer = w.arrayBuffer ∧ w1.elementArrayBuffer = w.elementArrayBuffer ∧
      w1.attribPointer = w.attribPointer ∧
      w1.log = w.log ++ (List.range n).map (fun k => GLCall.glDisableVertexAttribArray (i + k)) ∧
      ∀ j, w1.attribEnabled j = if i ≤ j ∧ j < i + n then false else w.attribEnabled j := by
  intro n
  induction n with
  | zero =>
    intro i w w1 h
    simp only [DisableVertexDeclaration.loop, Run.pure_ok] at h
    subst h
    refine ⟨rfl, rfl, rfl, rfl, rfl, by simp, fun j => ?_⟩
    have : ¬ (i ≤ j ∧ j < i + 0) := by omega
    rw [if_neg this]
  | succ n ih =>
    intro i w w1 h
    simp only [DisableVertexDeclaration.loop, Run.bind_ok, CHECK_GL_ERROR_ok] at h
    obtain ⟨_, ⟨h1, rfl⟩, h2⟩ := h
    obtain ⟨_, q1⟩ := glDisableVertexAttribArray_ok _ _ h1
    rw [q1] at h2
    obtain ⟨a1, a2, a3, a4, a5, a6, a7⟩ := ih (i + 1) _ _ h2
    refine ⟨a1, a2, a3, a4, a5, ?_, ?_⟩
    · rw [a6, List.range_succ_eq_map]
      simp [Function.comp_def, Nat.add_assoc, Nat.add_comm 1]
    · intro j
      rw [a7 j]
      by_cases c1 : i + 1 ≤ j ∧ j < i + 1 + n
      · have c2 : i ≤ j ∧ j < i + (n + 1) := by omega
        simp [c1, c2]
      · by_cases c3 : j = i
        · have c2 : i ≤ j ∧ j < i + (n + 1) := by omega
          simp [c1, c2, c3]
        · have c2 : ¬ (i ≤ j ∧ j < i + (n + 1)) := by omega
          simp [c1, c2, c3]

/-- With a driver that raises no error, the loop of `DisableVertexDeclaration`
returns. -/
theorem DisableVertexDeclaration.loop_disables :
    ∀ (n i : Nat) (w : World), w.error = 0 → (∀ k, w.oracle k = 0) →
      ∃ w1, DisableVertexDeclaration.loop n i w = .ok w1 := by
  intro n
  induction n with
  | zero => intro i w _ _; exact ⟨w, rfl⟩
  | succ n ih =>
    intro i w he hq
    have c1 := glDisableVertexAttribArray_quiet i w he hq
    obtain ⟨w1, hw1⟩ := ih (i + 1) _ c1.1 c1.2
    refine ⟨w1, ?_⟩
    simp only [DisableVertexDeclaration.loop, Run.bind_ok, CHECK_GL_ERROR_ok]
    exact ⟨_, ⟨c1.1, rfl⟩, hw1⟩

/-- What `DisableVertexDeclaration` has done when it returns. -/
theorem DisableVertexDeclaration_effect (context : HContext) (d : VertexDeclaration)
    (w w1 : World) (hret : DisableVertexDeclaration context (some d) w = .ok w1) :
    w1.arrayBuffer = 0 ∧ w1.elementArrayBuffer = 0 ∧
    w1.log = w.log ++
      (List.range d.m_StreamCount).map (fun k => GLCall.glDisableVertexAttribArray k) ++
      [.glBindBufferARB GL_ARRAY_BUFFER_ARB 0, .glBindBufferARB GL_ELEMENT_ARRAY_BUFFER_ARB 0] ∧
    ∀ j, w1.attribEnabled j = if j < d.m_StreamCount then false else w.attribEnabled j := by
  cases context with
  | none => simp [DisableVertexDeclaration] at hret
  | some ctx =>
    simp only [DisableVertexDeclaration, Run.bind_ok, CHECK_GL_ERROR_ok] at hret
    obtain ⟨w2, h1, _, ⟨h2, rfl⟩, h3, rfl⟩ := hret
    obtain ⟨_, _, _, _, _, a6, a7⟩ := DisableVertexDeclaration.loop_slots _ _ _ _ h1
    obtain ⟨_, q3⟩ := glBindBufferARB_element_ok _ _ h3
    obtain ⟨_, q2⟩ := glBindBufferARB_array_ok _ _ h2
    rw [q3, q2]
    refine ⟨rfl, rfl, ?_, ?_⟩
    · simp [a6]
    · intro j
      simpa using a7 j

/-- C11. For a declaration `d` built by `NewVertexDeclaration` from `count`
streams: when `EnableVertexDeclaration(context, d, b)` returns, `b` is not null
and is bound to the array-buffer binding (the element-array binding is as
before); the driver calls made are the bind followed, for each stream
`i = 0 .. count-1` in order, by enabling slot `d.m_Streams[i].m_Index` and
setting its pointer; afterwards that slot (which is slot `i`) is enabled with
size and type of `element[i]`, not normalized, stride `d.m_Stride`, byte offset
`d.m_Streams[i].m_Offset`, over buffer `b`; the slots from `count` on are
untouched. With no error pending and a driver that raises none the call
returns, and the declaration, which the call only reads, can be enabled over a
second buffer in the state the first call leaves: the pointers then refer to
the second buffer. -/
theorem EnableVertexDeclaration_streams :
    (∀ fresh element count d context b w w1,
      NewVertexDeclaration fresh element count = .ok d →
      EnableVertexDeclaration context (some d) b w = .ok w1 →
      b ≠ 0 ∧ w1.arrayBuffer = b ∧ w1.elementArrayBuffer = w.elementArrayBuffer ∧
      w1.log = w.log ++ .glBindBufferARB GL_ARRAY_BUFFER_ARB b ::
        (d.m_Streams.take count).flatMap (fun s =>
          [.glEnableVertexAttribArray s.m_Index,
           .glVertexAttribPointer s.m_Index s.m_Size s.m_Type false d.m_Stride s.m_Offset]) ∧
      (∀ i, i < count → ∃ e s, element[i]? = some e ∧ d.m_Streams[i]? = some s ∧
        s.m_Index = i ∧ s.m_Size = e.m_Size ∧ s.m_Type = e.m_Type ∧
        w1.attribEnabled s.m_Index = true ∧
        w1.attribPointer s.m_Index = some
          { size := e.m_Size, type := e.m_Type, normalized := false, stride := d.m_Stride,
            pointer := s.m_Offset, buffer := b }) ∧
      (∀ j, count ≤ j →
        w1.attribEnabled j = w.attribEnabled j ∧ w1.attribPointer j = w.attribPointer j)) ∧
    (∀ fresh element count d (ctx : Context) b1 b2 w,
      NewVertexDeclaration fresh element count = .ok d →
      b1 ≠ 0 → b2 ≠ 0 → w.error = 0 → (∀ k, w.oracle k = 0) →
      ∃ w1 w2, EnableVertexDeclaration (some ctx) (some d) b1 w = .ok w1 ∧
        EnableVertexDeclaration (some ctx) (some d) b2 w1 = .ok w2 ∧
        w1.arrayBuffer = b1 ∧ w2.arrayBuffer = b2 ∧
        ∀ i, i < count →
          (w1.attribPointer i).map AttribPointer.buffer = some b1 ∧
          (w2.attribPointer i).map AttribPointer.buffer = some b2) := by
  constructor
  · intro fresh element count d context b w w1 hbuilt hret
    obtain ⟨a1, _, _, a4, a5, a6, a7, a8⟩ :=
      EnableVertexDeclaration_effect fresh element count d context b w w1 hbuilt hret
    exact ⟨a1, a4, a5, a6, a7, a8⟩
  · intro fresh element count d ctx b1 b2 w hbuilt hb1 hb2 he hq
    obtain ⟨w1, hw1⟩ := EnableVertexDeclaration_returns fresh element count d ctx b1 w hbuilt
      hb1 he hq
    obtain ⟨_, e1, o1, a4, _, _, a7, _⟩ :=
      EnableVertexDeclaration_effect fresh element count d _ b1 w w1 hbuilt hw1
    obtain ⟨w2, hw2⟩ := EnableVertexDeclaration_returns fresh element count d ctx b2 w1 hbuilt
      hb2 e1 (fun k => by rw [o1]; exact hq k)
    obtain ⟨_, _, _, c4, _, _, c7, _⟩ :=
      EnableVertexDeclaration_effect fresh element count d _ b2 w1 w2 hbuilt hw2
    refine ⟨w1, w2, hw1, hw2, a4, c4, fun i hi => ?_⟩
    obtain ⟨_, s, _, _, hs, _, _, _, p1⟩ := a7 i hi
    obtain ⟨_, t, _, _, ht, _, _, _, p2⟩ := c7 i hi
    rw [hs] at p1
    rw [ht] at p2
    simp [p1, p2]

/-- The example layout built into a declaration with room for 8 streams and
enabled over buffer 7 on the start-up state: buffer 7 is bound, and slots 0, 1,
2 are enabled with 3, 3, 2 floats at stride 32 and offsets 0, 12, 24. Enabled
again over buffer 9, the pointers refer to buffer 9. -/
theorem EnableVertexDeclaration_streams_witness :
    (∃ d w1, NewVertexDeclaration (VertexDeclaration.blank 8) exampleElements 3 = .ok d ∧
      EnableVertexDeclaration (some {}) (some d) 7 World.initial = .ok w1 ∧
      (7 : Nat) ≠ 0 ∧ w1.arrayBuffer = 7 ∧
      w1.log = [.glBindBufferARB GL_ARRAY_BUFFER_ARB 7,
        .glEnableVertexAttribArray 0, .glVertexAttribPointer 0 3 .TYPE_FLOAT false 32 0,
        .glEnableVertexAttribArray 1, .glVertexAttribPointer 1 3 .TYPE_FLOAT false 32 12,
        .glEnableVertexAttribArray 2, .glVertexAttribPointer 2 2 .TYPE_FLOAT false 32 24] ∧
      w1.attribPointer 2 = some
        { size := 2, type := .TYPE_FLOAT, normalized := false, stride := 32, pointer := 24,
          buffer := 7 } ∧
      w1.attribEnabled 3 = false) ∧
    (∃ d w1 w2, NewVertexDeclaration (VertexDeclaration.blank 8) exampleElements 3 = .ok d ∧
      EnableVertexDeclaration (some {}) (some d) 7 World.initial = .ok w1 ∧
      EnableVertexDeclaration (some {}) (some d) 9 w1 = .ok w2 ∧
      w1.arrayBuffer = 7 ∧ w2.arrayBuffer = 9 ∧
      ∀ i, i < 3 →
        (w1.attribPointer i).map AttribPointer.buffer = some 7 ∧
        (w2.attribPointer i).map AttribPointer.buffer = some 9) :=
  ⟨⟨_, _, rfl, rfl,
      (EnableVertexDeclaration_streams.1 (VertexDeclaration.blank 8) exampleElements 3 _
        (some {}) 7 World.initial _ rfl rfl).1,
      (EnableVertexDeclaration_streams.1 (VertexDeclaration.blank 8) exampleElements 3 _
        (some {}) 7 World.initial _ rfl rfl).2.1,
      rfl, rfl, rfl⟩,
    ⟨_, _, _, rfl, rfl, rfl, rfl, rfl,
      by
        obtain ⟨w1, w2, h1, h2, _, _, h5⟩ :=
          EnableVertexDeclaration_streams.2 (VertexDeclaration.blank 8) exampleElements 3 _ {}
            7 9 World.initial rfl (by decide) (by decide) rfl (fun _ => rfl)
        cases h1
        cases h2
        exact h5⟩⟩

/-- C12. For a declaration `d` built by `NewVertexDeclaration`: when
`DisableVertexDeclaration(context, d)` returns, the slots it has disabled are
`0 .. d.m_StreamCount - 1`, which are exactly the values
`d.m_Streams[i].m_Index` for `i < d.m_StreamCount` that
`EnableVertexDeclaration` enables; every other slot is as before; the
array-buffer and the element-array-buffer binding are both 0. Enable followed by
Disable on the same declaration leaves none of the slots of the declaration
enabled. With no error pending and a driver that raises none, Disable
returns. -/
theorem DisableVertexDeclaration_slots :
    (∀ fresh element count d context w w1,
      NewVertexDeclaration fresh element count = .ok d →
      DisableVertexDeclaration context (some d) w = .ok w1 →
      w1.arrayBuffer = 0 ∧ w1.elementArrayBuffer = 0 ∧
      w1.log = w.log ++
        (List.range d.m_StreamCount).map (fun k => GLCall.glDisableVertexAttribArray k) ++
        [.glBindBufferARB GL_ARRAY_BUFFER_ARB 0,
         .glBindBufferARB GL_ELEMENT_ARRAY_BUFFER_ARB 0] ∧
      (∀ j, (∃ i s, i < d.m_StreamCount ∧ d.m_Streams[i]? = some s ∧ s.m_Index = j) ↔
        j < d.m_StreamCount) ∧
      (∀ j, w1.attribEnabled j = if j < d.m_StreamCount then false else w.attribEnabled j)) ∧
    (∀ fresh element count d context1 context2 b w w1 w2,
      NewVertexDeclaration fresh element count = .ok d →
      EnableVertexDeclaration context1 (some d) b w = .ok w1 →
      DisableVertexDeclaration context2 (some d) w1 = .ok w2 →
      (∀ i s, i < d.m_StreamCount → d.m_Streams[i]? = some s →
        w1.attribEnabled s.m_Index = true ∧ w2.attribEnabled s.m_Index = false) ∧
      (∀ j, d.m_StreamCount ≤ j → w2.attribEnabled j = w.attribEnabled j) ∧
      w2.arrayBuffer = 0 ∧ w2.elementArrayBuffer = 0) ∧
    (∀ fresh element count d (ctx : Context) w,
      NewVertexDeclaration fresh element count = .ok d →
      w.error = 0 → (∀ k, w.oracle k = 0) →
      ∃ w1, DisableVertexDeclaration (some ctx) (some d) w = .ok w1) := by
  refine ⟨?_, ?_, ?_⟩
  · intro fresh element count d context w w1 hbuilt hret
    obtain ⟨hc, _, _, hst⟩ := NewVertexDeclaration_built fresh element count d hbuilt
    obtain ⟨a1, a2, a3, a4⟩ := DisableVertexDeclaration_effect context d w w1 hret
    refine ⟨a1, a2, a3, fun j => ⟨?_, fun hj => ?_⟩, a4⟩
    · rintro ⟨i, s, hi, hs, rfl⟩
      obtain ⟨e, _, hs1⟩ := hst i (by omega)
      rw [hs] at hs1
      cases hs1
      exact hi
    · obtain ⟨e, _, hs1⟩ := hst j (by omega)
      exact ⟨j, _, hj, hs1, rfl⟩
  · intro fresh element count d context1 context2 b w w1 w2 hbuilt hen hdis
    obtain ⟨hc, _, _, hst⟩ := NewVertexDeclaration_built fresh element count d hbuilt
    obtain ⟨_, _, _, _, _, _, e7, e8⟩ :=
      EnableVertexDeclaration_effect fresh element count d context1 b w w1 hbuilt hen
    obtain ⟨a1, a2, _, a4⟩ := DisableVertexDeclaration_effect context2 d w1 w2 hdis
    refine ⟨fun i s hi hs => ?_, fun j hj => ?_, a1, a2⟩
    · obtain ⟨_, t, _, ht, hidx, _, _, hen1, _⟩ := e7 i (by omega)
      rw [hs] at ht
      cases ht
      refine ⟨hen1, ?_⟩
      rw [a4, hidx]
      simp [hi]
    · rw [a4]
      have : ¬ j < d.m_StreamCount := by omega
      simp only [this, if_false]
      exact (e8 j (by omega)).1
  · intro fresh element count d ctx w hbuilt he hq
    obtain ⟨w1, hw1⟩ := DisableVertexDeclaration.loop_disables d.m_StreamCount 0 w he hq
    obtain ⟨e1, o1, _⟩ := DisableVertexDeclaration.loop_slots _ _ _ _ hw1
    have he1 : w1.error = 0 := e1.trans he
    have hq1 : ∀ k, w1.oracle k = 0 := fun k => by rw [o1]; exact hq k
    have c1 := (glBindBufferARB_quiet 0 w1 he1 hq1).1
    have c2 := (glBindBufferARB_quiet 0 _ c1.1 c1.2).2
    refine ⟨glBindBufferARB GL_ELEMENT_ARRAY_BUFFER_ARB 0
      (glBindBufferARB GL_ARRAY_BUFFER_ARB 0 w1), ?_⟩
    simp only [DisableVertexDeclaration, Run.bind_ok, CHECK_GL_ERROR_ok]
    exact ⟨_, hw1, _, ⟨c1.1, rfl⟩, c2.1, rfl⟩

/-- The example declaration enabled over buffer 7 and then disabled: slots 0,
1, 2 are enabled after the first call and disabled after the second, and both
buffer bindings are 0. -/
theorem DisableVertexDeclaration_slots_witness :
    ∃ d w1 w2, NewVertexDeclaration (VertexDeclaration.blank 8) exampleElements 3 = .ok d ∧
      EnableVertexDeclaration (some {}) (some d) 7 World.initial = .ok w1 ∧
      DisableVertexDeclaration (some {}) (some d) w1 = .ok w2 ∧
      ((∀ i s, i < d.m_StreamCount → d.m_Streams[i]? = some s →
        w1.attribEnabled s.m_Index = true ∧ w2.attribEnabled s.m_Index = false) ∧
      (∀ j, d.m_StreamCount ≤ j → w2.attribEnabled j = World.initial.attribEnabled j) ∧
      w2.arrayBuffer = 0 ∧ w2.elementArrayBuffer = 0) ∧
      w2.log.drop 7 = [.glDisableVertexAttribArray 0, .glDisableVertexAttribArray 1,
        .glDisableVertexAttribArray 2, .glBindBufferARB GL_ARRAY_BUFFER_ARB 0,
        .glBindBufferARB GL_ELEMENT_ARRAY_BUFFER_ARB 0] :=
  ⟨_, _, _, rfl, rfl, rfl,
    DisableVertexDeclaration_slots.2.1 (VertexDeclaration.blank 8) exampleElements 3 _
      (some {}) (some {}) 7 World.initial _ _ rfl rfl rfl,
    rfl⟩

/-! ## Program constants -/

theorem glProgramLocalParameter4fARB_ok (target index : Nat) (x y z t : Float32) (w : World)
    (htarget : target = GL_VERTEX_PROGRAM_ARB ∨ target = GL_FRAGMENT_PROGRAM_ARB)
    (h : (glProgramLocalParameter4fARB target index x y z t w).error = 0) :
    w.error = 0 ∧ glProgramLocalParameter4fARB target index x y z t w =
      { w with
        log := w.log ++ [.glProgramLocalParameter4fARB target index x y z t]
        localParameter := fun tg p i =>
          if tg = target ∧ p = w.programBinding target ∧ i = index then some (x, y, z, t)
          else w.localParameter tg p i } := by
  revert h
  simp only [glProgramLocalParameter4fARB, World.driver, World.raise, htarget, if_true]
  split_ifs <;> simp_all

theorem glProgramLocalParameter4fARB_quiet (target index : Nat) (x y z t : Float32) (w : World)
    (htarget : target = GL_VERTEX_PROGRAM_ARB ∨ target = GL_FRAGMENT_PROGRAM_ARB)
    (he : w.error = 0) (hq : ∀ k, w.oracle k = 0) :
    (glProgramLocalParameter4fARB target index x y z t w).error = 0 ∧
    ∀ k, (glProgramLocalParameter4fARB target index x y z t w).oracle k = 0 := by
  simp [glProgramLocalParameter4fARB, World.driver, he, hq, htarget]

/-- One pass of the loop of `SetProgramConstantBlock` that is followed by a
return: the vector is there, the call raised no error, and the remaining passes
return. -/
theorem SetProgramConstantBlock.loop_step (type : Nat) (f : List Float32) (b n i : Nat)
    (w w1 : World)
    (h : SetProgramConstantBlock.loop type f (b : Int) (n + 1) (i : Int) ((4 * i : Nat) : Int) w
      = .ok w1) :
    ∃ x y z t, vectorAt f i = some (x, y, z, t) ∧
      (glProgramLocalParameter4fARB type (b + i) x y z t w).error = 0 ∧
      SetProgramConstantBlock.loop type f (b : Int) n ((i + 1 : Nat) : Int)
        ((4 * (i + 1) : Nat) : Int) (glProgramLocalParameter4fARB type (b + i) x y z t w)
        = .ok w1 := by
  have t0 : (0 + ((4 * i : Nat) : Int)).toNat = 4 * i := by omega
  have t1 : (1 + ((4 * i : Nat) : Int)).toNat = 4 * i + 1 := by omega
  have t2 : (2 + ((4 * i : Nat) : Int)).toNat = 4 * i + 2 := by omega
  have t3 : (3 + ((4 * i : Nat) : Int)).toNat = 4 * i + 3 := by omega
  have tb : ((b : Int) + (i : Int)).toNat = b + i := by omega
  have ti : (i : Int) + 1 = ((i + 1 : Nat) : Int) := by omega
  have tr : ((4 * i : Nat) : Int) + 4 = ((4 * (i + 1) : Nat) : Int) := by omega
  simp only [SetProgramConstantBlock.loop, t0, t1, t2, t3, tb, ti, tr] at h
  split at h
  · simp at h
  · split at h
    · rename_i x y z t hx hy hz ht
      simp only [Run.bind_ok, CHECK_GL_ERROR_ok] at h
      obtain ⟨_, ⟨h1, rfl⟩, h2⟩ := h
      split at h2
      · simp at h2
      · exact ⟨x, y, z, t, by simp [vectorAt, hx, hy, hz, ht], h1, h2⟩
    · simp at h

/-- One pass of the loop of `SetProgramConstantBlock` when the vector is there
and the register and the float position are in the range of `int`. -/
theorem SetProgramConstantBlock.loop_unfold (type : Nat) (f : List Float32) (b n i : Nat)
    (w : World) (hlen : 4 * i + 3 < f.length) (hb : b + i < 2 ^ 31)
    (hr : 4 * i + 4 < 2 ^ 31) :
    SetProgramConstantBlock.loop type f (b : Int) (n + 1) (i : Int) ((4 * i : Nat) : Int) w
      = (CHECK_GL_ERROR (glProgramLocalParameter4fARB type (b + i) (f.get ⟨4 * i, by omega⟩)
          (f.get ⟨4 * i + 1, by omega⟩) (f.get ⟨4 * i + 2, by omega⟩)
          (f.get ⟨4 * i + 3, by omega⟩) w) >>= fun w =>
        SetProgramConstantBlock.loop type f (b : Int) n ((i + 1 : Nat) : Int)
          ((4 * (i + 1) : Nat) : Int) w) := by
  have t0 : (0 + ((4 * i : Nat) : Int)).toNat = 4 * i := by omega
  have t1 : (1 + ((4 * i : Nat) : Int)).toNat = 4 * i + 1 := by omega
  have t2 : (2 + ((4 * i : Nat) : Int)).toNat = 4 * i + 2 := by omega
  have t3 : (3 + ((4 * i : Nat) : Int)).toNat = 4 * i + 3 := by omega
  have tb : ((b : Int) + (i : Int)).toNat = b + i := by omega
  have ti : (i : Int) + 1 = ((i + 1 : Nat) : Int) := by omega
  have tr : ((4 * i : Nat) : Int) + 4 = ((4 * (i + 1) : Nat) : Int) := by omega
  have c1 : ¬ (INT_RANGE ≤ (b : Int) + (i : Int) ∨ INT_RANGE ≤ 3 + ((4 * i : Nat) : Int)) := by
    simp only [INT_RANGE]; omega
  have c2 : ¬ (INT_RANGE ≤ ((4 * (i + 1) : Nat) : Int)) := by
    simp only [INT_RANGE]; omega
  have g0 : f[4 * i]? = some (f.get ⟨4 * i, by omega⟩) := by
    simp [List.getElem?_eq_getElem (show 4 * i < f.length by omega)]
  have g1 : f[4 * i + 1]? = some (f.get ⟨4 * i + 1, by omega⟩) := by
    simp [List.getElem?_eq_getElem (show 4 * i + 1 < f.length by omega)]
  have g2 : f[4 * i + 2]? = some (f.get ⟨4 * i + 2, by omega⟩) := by
    simp [List.getElem?_eq_getElem (show 4 * i + 2 < f.length by omega)]
  have g3 : f[4 * i + 3]? = some (f.get ⟨4 * i + 3, by omega⟩) := by
    simp [List.getElem?_eq_getElem (show 4 * i + 3 < f.length by omega)]
  simp only [SetProgramConstantBlock.loop, t0, t1, t2, t3, tb, ti, tr, if_neg c1, if_neg c2,
    g0, g1, g2, g3]

/-- The loop of `SetProgramConstantBlock`, when it returns: the calls it made
and the registers it wrote. -/
theorem SetProgramConstantBlock.loop_writes (type : Nat) (f : List Float32) (b : Nat)
    (htype : type = GL_VERTEX_PROGRAM_ARB ∨ type = GL_FRAGMENT_PROGRAM_ARB) :
    ∀ (n i : Nat) (w w1 : World),
      SetProgramConstantBlock.loop type f (b : Int) n (i : Int) ((4 * i : Nat) : Int) w
        = .ok w1 →
      w1.error = w.error ∧ w1.oracle = w.oracle ∧ w1.programBinding = w.programBinding ∧
      (∀ k, k < n → (vectorAt f (i + k)).isSome = true) ∧
      w1.log = w.log ++ (List.range n).filterMap (fun k => (vectorAt f (i + k)).map fun v =>
        GLCall.glProgramLocalParameter4fARB type (b + (i + k)) v.1 v.2.1 v.2.2.1 v.2.2.2) ∧
      ∀ tg p r, w1.localParameter tg p r =
        if tg = type ∧ p = w.programBinding type ∧ b + i ≤ r ∧ r < b + i + n then
          vectorAt f (r - b)
        else w.localParameter tg p r := by
  intro n
  induction n with
  | zero =>
    intro i w w1 h
    simp only [SetProgramConstantBlock.loop, Run.pure_ok] at h
    subst h
    refine ⟨rfl, rfl, rfl, fun k hk => by omega, by simp, fun tg p r => ?_⟩
    have : ¬ (tg = type ∧ p = w.programBinding type ∧ b + i ≤ r ∧ r < b + i + 0) := by omega
    rw [if_neg this]
  | succ n ih =>
    intro i w w1 h
    obtain ⟨x, y, z, t, hv, h1, h2⟩ := SetProgramConstantBlock.loop_step type f b n i w w1 h
    obtain ⟨_, q⟩ := glProgramLocalParameter4fARB_ok type (b + i) x y z t w htype h1
    rw [q] at h2
    obtain ⟨a1, a2, a3, a4, a5, a6⟩ := ih (i + 1) _ _ h2
    refine ⟨a1, a2, a3, ?_, ?_, ?_⟩
    · intro k hk
      cases k with
      | zero => simp [hv]
      | succ k =>
        have := a4 k (by omega)
        rwa [show i + 1 + k = i + (k + 1) by omega] at this
    · rw [a5, List.range_succ_eq_map]
      simp [List.filterMap_map, Function.comp_def, hv, Nat.add_assoc, Nat.add_comm 1]
    · intro tg p r
      rw [a6]
      dsimp only
      split_ifs with c1 c2 c3 c4
      all_goals first
        | rfl
        | (exfalso; omega)
        | (obtain ⟨_, _, rfl⟩ := c3
           rw [show b + i - b = i by omega, hv])

/-- With a driver that raises no error, the loop of `SetProgramConstantBlock`
returns when the data hold the vectors and nothing leaves the range of
`int`. -/
theorem SetProgramConstantBlock.loop_completes (type : Nat) (f : List Float32) (b : Nat)
    (htype : type = GL_VERTEX_PROGRAM_ARB ∨ type = GL_FRAGMENT_PROGRAM_ARB) :
    ∀ (n i : Nat) (w : World), 4 * (i + n) ≤ f.length → b + i + n ≤ 2 ^ 31 →
      4 * (i + n) < 2 ^ 31 → w.error = 0 → (∀ k, w.oracle k = 0) →
      ∃ w1, SetProgramConstantBlock.loop type f (b : Int) n (i : Int) ((4 * i : Nat) : Int) w
        = .ok w1 := by
  intro n
  induction n with
  | zero => intro i w _ _ _ _ _; exact ⟨w, rfl⟩
  | succ n ih =>
    intro i w hlen hb hr he hq
    have c1 := glProgramLocalParameter4fARB_quiet type (b + i) (f.get ⟨4 * i, by omega⟩)
      (f.get ⟨4 * i + 1, by omega⟩) (f.get ⟨4 * i + 2, by omega⟩)
      (f.get ⟨4 * i + 3, by omega⟩) w htype he hq
    obtain ⟨w1, hw1⟩ := ih (i + 1) _ (by omega) (by omega) (by omega) c1.1 c1.2
    refine ⟨w1, ?_⟩
    rw [SetProgramConstantBlock.loop_unfold type f b n i w (by omega) (by omega) (by omega)]
    simp only [Run.bind_ok, CHECK_GL_ERROR_ok]
    exact ⟨_, ⟨c1.1, rfl⟩, hw1⟩

/-- What `SetProgramConstantBlock` has done when it returns. -/
theorem SetProgramConstantBlock_writes (context : HContext) (type : Nat) (f : List Float32)
    (b n : Nat) (w w1 : World)
    (htype : type = GL_VERTEX_PROGRAM_ARB ∨ type = GL_FRAGMENT_PROGRAM_ARB)
    (h : SetProgramConstantBlock context type (some f) (b : Int) (n : Int) w = .ok w1) :
    w1.error = w.error ∧ w1.oracle = w.oracle ∧ w1.programBinding = w.programBinding ∧
    (∀ k, k < n → (vectorAt f k).isSome = true) ∧
    w1.log = w.log ++ (List.range n).filterMap (fun k => (vectorAt f k).map fun v =>
      GLCall.glProgramLocalParameter4fARB type (b + k) v.1 v.2.1 v.2.2.1 v.2.2.2) ∧
    ∀ tg p r, w1.localParameter tg p r =
      if tg = type ∧ p = w.programBinding type ∧ b ≤ r ∧ r < b + n then vectorAt f (r - b)
      else w.localParameter tg p r := by
  cases context with
  | none => simp [SetProgramConstantBlock] at h
  | some ctx =>
    have hb : ¬ ((b : Int) < 0) := by omega
    have hn : ¬ ((n : Int) < 0) := by omega
    simp only [SetProgramConstantBlock, hb, hn, if_false, Int.toNat_ofNat] at h
    have key := SetProgramConstantBlock.loop_writes type f b htype n 0 w w1
      (by simpa using h)
    simpa using key

/-- With a driver that raises no error, `SetProgramConstantBlock` returns. -/
theorem SetProgramConstantBlock_returns (ctx : Context) (type : Nat) (f : List Float32)
    (b n : Nat) (w : World)
    (htype : type = GL_VERTEX_PROGRAM_ARB ∨ type = GL_FRAGMENT_PROGRAM_ARB)
    (hlen : 4 * n ≤ f.length) (hb : b + n ≤ 2 ^ 31) (hr : 4 * n < 2 ^ 31)
    (he : w.error = 0) (hq : ∀ k, w.oracle k = 0) :
    ∃ w1, SetProgramConstantBlock (some ctx) type (some f) (b : Int) (n : Int) w = .ok w1 := by
  obtain ⟨w1, hw1⟩ := SetProgramConstantBlock.loop_completes type f b htype n 0 w
    (by omega) (by omega) (by omega) he hq
  have hb : ¬ ((b : Int) < 0) := by omega
  have hn : ¬ ((n : Int) < 0) := by omega
  refine ⟨w1, ?_⟩
  simp only [SetProgramConstantBlock, hb, hn, if_false, Int.toNat_ofNat]
  simpa using hw1

/-- C18. For a register `b ≥ 0`, a count `n ≥ 0` and a float array `f`: when
`SetVertexConstantBlock` (resp. `SetFragmentConstantBlock`) returns, every
vector `k < n` is within `f`, the driver calls made are, for `k = 0 .. n-1` in
increasing order, `glProgramLocalParameter4fARB(stage, b + k, f[4k], f[4k+1],
f[4k+2], f[4k+3])`, and the local parameters afterwards are: register `r` of the
program bound to that stage holds vector `r - b` of `f` for `b ≤ r < b + n`;
every other register, and every register of the other stage, is as before. With
`n = 0` the state is unchanged. `SetFragmentConstant` makes the one call for
register `b` of the fragment stage with the first vector of the data. With no
error pending, a driver that raises none, data of at least `4 * n` floats and
registers and float positions within the range of `int`, the calls return. -/
theorem SetConstantBlock_registers :
    (∀ context f (b n : Nat) w w1,
      SetVertexConstantBlock context (some f) (b : Int) (n : Int) w = .ok w1 →
      (∀ k, k < n → (vectorAt f k).isSome = true) ∧
      w1.log = w.log ++ (List.range n).filterMap (fun k => (vectorAt f k).map fun v =>
        GLCall.glProgramLocalParameter4fARB GL_VERTEX_PROGRAM_ARB (b + k)
          v.1 v.2.1 v.2.2.1 v.2.2.2) ∧
      ∀ tg p r, w1.localParameter tg p r =
        if tg = GL_VERTEX_PROGRAM_ARB ∧ p = w.programBinding GL_VERTEX_PROGRAM_ARB ∧
            b ≤ r ∧ r < b + n then vectorAt f (r - b)
        else w.localParameter tg p r) ∧
    (∀ context f (b n : Nat) w w1,
      SetFragmentConstantBlock context (some f) (b : Int) (n : Int) w = .ok w1 →
      (∀ k, k < n → (vectorAt f k).isSome = true) ∧
      w1.log = w.log ++ (List.range n).filterMap (fun k => (vectorAt f k).map fun v =>
        GLCall.glProgramLocalParameter4fARB GL_FRAGMENT_PROGRAM_ARB (b + k)
          v.1 v.2.1 v.2.2.1 v.2.2.2) ∧
      ∀ tg p r, w1.localParameter tg p r =
        if tg = GL_FRAGMENT_PROGRAM_ARB ∧ p = w.programBinding GL_FRAGMENT_PROGRAM_ARB ∧
            b ≤ r ∧ r < b + n then vectorAt f (r - b)
        else w.localParameter tg p r) ∧
    (∀ context f (b : Nat) w w1,
      SetFragmentConstant context (some f) (b : Int) w = .ok w1 →
      ∃ v, vectorAt f 0 = some v ∧
        w1.log = w.log ++
          [.glProgramLocalParameter4fARB GL_FRAGMENT_PROGRAM_ARB b v.1 v.2.1 v.2.2.1 v.2.2.2] ∧
        ∀ tg p r, w1.localParameter tg p r =
          if tg = GL_FRAGMENT_PROGRAM_ARB ∧ p = w.programBinding GL_FRAGMENT_PROGRAM_ARB ∧
              r = b then some v
          else w.localParameter tg p r) ∧
    (∀ (ctx : Context) f (b : Nat) w, w.error = 0 →
      SetVertexConstantBlock (some ctx) (some f) (b : Int) 0 w = .ok w ∧
      SetFragmentConstantBlock (some ctx) (some f) (b : Int) 0 w = .ok w) ∧
    (∀ (ctx : Context) f (b n : Nat) w, 4 * n ≤ f.length → b + n ≤ 2 ^ 31 → 4 * n < 2 ^ 31 →
      w.error = 0 → (∀ k, w.oracle k = 0) →
      (∃ w1, SetVertexConstantBlock (some ctx) (some f) (b : Int) (n : Int) w = .ok w1) ∧
      (∃ w1, SetFragmentConstantBlock (some ctx) (some f) (b : Int) (n : Int) w = .ok w1) ∧
      (0 < n → ∃ w1, SetFragmentConstant (some ctx) (some f) (b : Int) w = .ok w1)) := by
  refine ⟨?_, ?_, ?_, ?_, ?_⟩
  · intro context f b n w w1 h
    cases context with
    | none => simp [SetVertexConstantBlock] at h
    | some ctx =>
      simp only [SetVertexConstantBlock, Run.bind_ok, CHECK_GL_ERROR_ok] at h
      obtain ⟨w2, h1, _, rfl⟩ := h
      obtain ⟨_, _, _, a4, a5, a6⟩ :=
        SetProgramConstantBlock_writes (some ctx) _ f b n w _ (Or.inl rfl) h1
      exact ⟨a4, a5, a6⟩
  · intro context f b n w w1 h
    cases context with
    | none => simp [SetFragmentConstantBlock] at h
    | some ctx =>
      simp only [SetFragmentConstantBlock, Run.bind_ok, CHECK_GL_ERROR_ok] at h
      obtain ⟨w2, h1, _, rfl⟩ := h
      obtain ⟨_, _, _, a4, a5, a6⟩ :=
        SetProgramConstantBlock_writes (some ctx) _ f b n w _ (Or.inr rfl) h1
      exact ⟨a4, a5, a6⟩
  · intro context f b w w1 h
    cases context with
    | none => simp [SetFragmentConstant] at h
    | some ctx =>
      simp only [SetFragmentConstant, Run.bind_ok, CHECK_GL_ERROR_ok] at h
      obtain ⟨w2, h1, _, rfl⟩ := h
      obtain ⟨_, _, _, a4, a5, a6⟩ :=
        SetProgramConstantBlock_writes (some ctx) _ f b 1 w _ (Or.inr rfl) h1
      obtain ⟨v, hv⟩ := Option.isSome_iff_exists.1 (a4 0 (by omega))
      refine ⟨v, hv, ?_, fun tg p r => ?_⟩
      · rw [a5, show List.range 1 = [0] from rfl]; simp [hv]
      · rw [a6]
        split_ifs with c1 c2 c3
        all_goals first
          | rfl
          | (exfalso; omega)
          | (rw [show r - b = 0 by omega, hv])
  · intro ctx f b w he
    have hb : ¬ ((b : Int) < 0) := by omega
    simp [SetVertexConstantBlock, SetFragmentConstantBlock, SetProgramConstantBlock,
      SetProgramConstantBlock.loop, CHECK_GL_ERROR, he, hb, bind, Except.bind, pure,
      Except.pure]
  · intro ctx f b n w hlen hb hr he hq
    refine ⟨?_, ?_, fun hn => ?_⟩
    · obtain ⟨w1, hw1⟩ := SetProgramConstantBlock_returns ctx GL_VERTEX_PROGRAM_ARB f b n w
        (Or.inl rfl) hlen hb hr he hq
      obtain ⟨e1, _⟩ := SetProgramConstantBlock_writes _ _ f b n w w1 (Or.inl rfl) hw1
      refine ⟨w1, ?_⟩
      simp only [SetVertexConstantBlock, Run.bind_ok, CHECK_GL_ERROR_ok]
      exact ⟨w1, hw1, e1.trans he, rfl⟩
    · obtain ⟨w1, hw1⟩ := SetProgramConstantBlock_returns ctx GL_FRAGMENT_PROGRAM_ARB f b n w
        (Or.inr rfl) hlen hb hr he hq
      obtain ⟨e1, _⟩ := SetProgramConstantBlock_writes _ _ f b n w w1 (Or.inr rfl) hw1
      refine ⟨w1, ?_⟩
      simp only [SetFragmentConstantBlock, Run.bind_ok, CHECK_GL_ERROR_ok]
      exact ⟨w1, hw1, e1.trans he, rfl⟩
    · obtain ⟨w1, hw1⟩ := SetProgramConstantBlock_returns ctx GL_FRAGMENT_PROGRAM_ARB f b 1 w
        (Or.inr rfl) (by omega) (by omega) (by omega) he hq
      obtain ⟨e1, _⟩ := SetProgramConstantBlock_writes _ _ f b 1 w w1 (Or.inr rfl) hw1
      refine ⟨w1, ?_⟩
      simp only [SetFragmentConstant, Run.bind_ok, CHECK_GL_ERROR_ok]
      exact ⟨w1, hw1, e1.trans he, rfl⟩

/-- Two vectors from the floats 0 .. 7 written to vertex registers 5 and 6, in
the state with program 3 on the vertex stage and program 4 on the fragment
stage: the two calls are made in order, register 6 of program 3 holds the
floats 4 .. 7, and the fragment registers are untouched. -/
theorem SetConstantBlock_registers_witness :
    (∃ w1, SetVertexConstantBlock (some {}) (some ((List.range 8).map Float32.mk))
        ((5 : Nat) : Int) ((2 : Nat) : Int) World.withPrograms = .ok w1 ∧
      ((∀ k, k < 2 → (vectorAt ((List.range 8).map Float32.mk) k).isSome = true) ∧
      w1.log = World.withPrograms.log ++ (List.range 2).filterMap (fun k =>
        (vectorAt ((List.range 8).map Float32.mk) k).map fun v =>
          GLCall.glProgramLocalParameter4fARB GL_VERTEX_PROGRAM_ARB (5 + k)
            v.1 v.2.1 v.2.2.1 v.2.2.2) ∧
      ∀ tg p r, w1.localParameter tg p r =
        if tg = GL_VERTEX_PROGRAM_ARB ∧
            p = World.withPrograms.programBinding GL_VERTEX_PROGRAM_ARB ∧
            5 ≤ r ∧ r < 5 + 2 then vectorAt ((List.range 8).map Float32.mk) (r - 5)
        else World.withPrograms.localParameter tg p r) ∧
      w1.log = [.glProgramLocalParameter4fARB GL_VERTEX_PROGRAM_ARB 5 ⟨0⟩ ⟨1⟩ ⟨2⟩ ⟨3⟩,
        .glProgramLocalParameter4fARB GL_VERTEX_PROGRAM_ARB 6 ⟨4⟩ ⟨5⟩ ⟨6⟩ ⟨7⟩] ∧
      w1.localParameter GL_VERTEX_PROGRAM_ARB 3 6 = some (⟨4⟩, ⟨5⟩, ⟨6⟩, ⟨7⟩) ∧
      w1.localParameter GL_VERTEX_PROGRAM_ARB 3 7 = none ∧
      w1.localParameter GL_FRAGMENT_PROGRAM_ARB 4 6 = none) :=
  ⟨_, rfl,
    SetConstantBlock_registers.1 (some {}) ((List.range 8).map Float32.mk) 5 2
      World.withPrograms _ rfl,
    rfl, rfl, rfl, rfl⟩

end dmGraphics
